import Mathlib

/-!
yarpgen: the seed option, symbol-table population and emission.

A shallow embedding of `src/main.cpp` (the seed handler `seed_action` and the
generate/emit sequence of `main`) and of `src/program.cpp`
(`Program::form_extern_sym_table`, `Program::generate` and the `emit_*`
family), with theorems about them.

Conventions.
* `uint32_t` / `uint64_t` quantities are natural numbers; where the source
  does arithmetic that can wrap, the wrap is written out with `% 2 ^ w`.
* A `std::string` is a `String`; every `Char` of it stands for one `char`.
* Code that is called by the embedded functions but is not part of the
  embedded files (the random value generator, the node generators, the
  per-table emitters) is a parameter of the embedding.
-/

namespace yarpgen

/-! ## The seed option (`src/main.cpp`) -/

/-- White space of the classic "C" locale, which `operator>>` skips first:
space, `\t`, `\n`, `\v`, `\f`, `\r`. -/
def isspace (c : Char) : Bool :=
  c.toNat = 32 || (9 ≤ c.toNat && c.toNat ≤ 13)

/-- Decimal digit characters. -/
def isdigit (c : Char) : Bool :=
  48 ≤ c.toNat && c.toNat ≤ 57

/-- Largest `uint64_t`. -/
def UINT64_MAX : Nat := 2 ^ 64 - 1

/-- Value of a run of decimal digits, most significant digit first. -/
def digits_value (ds : List Char) : Nat :=
  ds.foldl (fun acc c => acc * 10 + (c.toNat - 48)) 0

/-- The standard library extraction `arg_ss >> seed` for a `uint64_t` target
and a fresh `std::stringstream` holding `text` (C++11 rules; decimal base).
The result is the value of `seed` after the statement:
* leading white space is skipped; if nothing is left the stream fails before
  any conversion and `seed` keeps its old value;
* an optional sign and then the longest run of digits is read; with no digit
  the conversion fails and zero is stored;
* a value above `UINT64_MAX` stores `UINT64_MAX`;
* a leading `-` negates the value modulo `2 ^ 64`.
The stream's fail bit is dropped here because `seed_action` never reads it. -/
def extract_uint64 (seed : Nat) (text : List Char) : Nat :=
  match text.dropWhile isspace with
  | [] => seed
  | c :: cs =>
    let body := if c = '-' ∨ c = '+' then cs else c :: cs
    let ds := body.takeWhile isdigit
    if ds = [] then 0
    else if digits_value ds > UINT64_MAX then UINT64_MAX
    else if c = '-' then (2 ^ 64 - digits_value ds) % 2 ^ 64
    else digits_value ds

/-- Modelled from the spec: the `ERROR` macro of `util.h`, which is not among
the embedded files. A version mismatch "is a fatal configuration error": the
macro reports its message and ends the run, so nothing after it executes. The
run that ended is the `Except.error` carrying the message. -/
def ERROR {α : Type} (err_message : String) : Except String α :=
  Except.error err_message

/-- The lambda `seed_action` of `main` (`main.cpp` 144-157).
`plane_yarpgen_version` is `options->plane_yarpgen_version`, `seed` the
captured variable before the call, `arg` the option value. The result is the
new value of `seed`, or the fatal error raised by `ERROR`. -/
def seed_action (plane_yarpgen_version : String) (seed : Nat) (arg : String) :
    Except String Nat :=
  if arg.data.length > 2 ∧ arg.data[2]? = some '_' then
    if arg.data.take 2 ≠ plane_yarpgen_version.data then
      ERROR ("Incompatible yarpgen version in seed: " ++ arg)
    else
      Except.ok (extract_uint64 seed (arg.data.drop 3))
  else
    Except.ok (extract_uint64 seed arg.data)

/-! ## Policy, symbol tables and context (`src/program.cpp`) -/

/-- Modelled from the spec: the class `GenPolicy` (`gen_policy.h`, not among
the embedded files), "a value snapshot of distribution parameters and boolean
capability flags". Kept here is what `Program::form_extern_sym_table` reads or
writes: the `allow_const` flag and the count ranges behind the `get_min_*` and
`get_max_*` getters (`uint32_t`). The other members are never touched by the
embedded code and stay fixed throughout a call. -/
structure GenPolicy where
  allow_const : Bool
  min_inp_var_count : Nat
  max_inp_var_count : Nat
  min_mix_var_count : Nat
  max_mix_var_count : Nat
  min_struct_type_count : Nat
  max_struct_type_count : Nat
  min_inp_struct_count : Nat
  max_inp_struct_count : Nat
  min_mix_struct_count : Nat
  max_mix_struct_count : Nat
  min_out_struct_count : Nat
  max_out_struct_count : Nat
  deriving DecidableEq

/-- Modelled from the spec: the setter `GenPolicy::set_allow_const`, which
sets the "const allowed here" flag of the policy object it is called on. -/
def GenPolicy.set_allow_const (p : GenPolicy) (b : Bool) : GenPolicy :=
  { p with allow_const := b }

/-- Modelled from the spec: the class `SymbolTable` (`sym_table.h`, not among
the embedded files), a pool "holding declared scalar variables,
struct-typed instances, and shared struct type definitions". Each of the three is a
`std::vector` of shared pointers, kept in insertion order. `V`, `T` and `S`
stand for `std::shared_ptr<ScalarVariable>`, `std::shared_ptr<StructType>` and
`std::shared_ptr<Struct>`; copying a shared pointer yields an equal handle to
the same object. -/
structure SymbolTable (V T S : Type) where
  vars : List V
  struct_types : List T
  structs : List S
  deriving DecidableEq

/-- The table built by `std::make_shared<SymbolTable> ()`. -/
def SymbolTable.empty {V T S : Type} : SymbolTable V T S :=
  { vars := [], struct_types := [], structs := [] }

/-- Modelled from the spec: the method `SymbolTable::add_variable`, which
declares one more scalar variable: it is appended to the variable vector. -/
def SymbolTable.add_variable {V T S : Type} (t : SymbolTable V T S) (v : V) :
    SymbolTable V T S :=
  { t with vars := t.vars ++ [v] }

/-- Modelled from the spec: the method `SymbolTable::add_struct_type`, which
registers a struct type into the table's pool: it is appended to the pool. -/
def SymbolTable.add_struct_type {V T S : Type} (t : SymbolTable V T S) (ty : T) :
    SymbolTable V T S :=
  { t with struct_types := t.struct_types ++ [ty] }

/-- Modelled from the spec: the method `SymbolTable::add_struct`, which
declares one more struct instance: it is appended to the instance vector. -/
def SymbolTable.add_struct {V T S : Type} (t : SymbolTable V T S) (s : S) :
    SymbolTable V T S :=
  { t with structs := t.structs ++ [s] }

/-- The three symbol tables a `Program` owns, each behind its own shared
pointer (`Program::Program`, `program.cpp` 25-30). -/
structure Tables (V T S : Type) where
  extern_inp_sym_table : SymbolTable V T S
  extern_mix_sym_table : SymbolTable V T S
  extern_out_sym_table : SymbolTable V T S
  deriving DecidableEq

/-- The tables right after the constructor `Program::Program`. -/
def Tables.empty {V T S : Type} : Tables V T S :=
  { extern_inp_sym_table := SymbolTable.empty,
    extern_mix_sym_table := SymbolTable.empty,
    extern_out_sym_table := SymbolTable.empty }

/-- A shared pointer to one of the program's three tables. -/
inductive TableRef where
  | inp
  | mix
  | out
  deriving DecidableEq

/-- Dereference a table pointer. -/
def Tables.get {V T S : Type} (ts : Tables V T S) : TableRef → SymbolTable V T S
  | TableRef.inp => ts.extern_inp_sym_table
  | TableRef.mix => ts.extern_mix_sym_table
  | TableRef.out => ts.extern_out_sym_table

/-- Update the table a pointer refers to. -/
def Tables.modify {V T S : Type} (ts : Tables V T S) (r : TableRef)
    (f : SymbolTable V T S → SymbolTable V T S) : Tables V T S :=
  match r with
  | TableRef.inp => { ts with extern_inp_sym_table := f ts.extern_inp_sym_table }
  | TableRef.mix => { ts with extern_mix_sym_table := f ts.extern_mix_sym_table }
  | TableRef.out => { ts with extern_out_sym_table := f ts.extern_out_sym_table }

/-- Modelled from the spec: the class `Context` (not among the embedded
files), which "holds a Generation Policy" and "the active Symbol Tables (by
reference, shared, not owned)". Kept here is what the embedded code uses: the
policy and the pointers to the three symbol tables set by
`set_extern_*_sym_table`. Copying a context copies the pointers, so the copy
sees the same tables. -/
structure Context where
  gen_policy : GenPolicy
  extern_inp_sym_table : TableRef
  extern_mix_sym_table : TableRef
  extern_out_sym_table : TableRef
  deriving DecidableEq

/-- Modelled from the spec: the method `Context::set_gen_policy`. Policy
objects are "copy-on-write from the parent": the context gets a policy object
of its own holding the given value, and no other context sees the change. -/
def Context.set_gen_policy (c : Context) (p : GenPolicy) : Context :=
  { c with gen_policy := p }

/-- One call the population code makes to a collaborator, with the arguments
that identify it. The list of these calls in program order is kept next to
the state; no computation reads it. -/
inductive Event where
  | get_rand_value (lo hi ret : Nat)
  | ScalarVariable_generate (ctx : Context)
  | add_variable (table : TableRef)
  | StructType_generate (ctx : Context)
  | add_struct_type (table : TableRef)
  | Struct_generate (ctx : Context) (struct_type_indx : Nat)
  | add_struct (table : TableRef)
  deriving DecidableEq

/-- The collaborators of the population code, none of them part of the
embedded files. `R` is the state of the process-wide `rand_val_gen`.
* `get_rand_value r lo hi` is `rand_val_gen->get_rand_value<uint32_t>(lo, hi)`
  in generator state `r`: the value returned and the state afterwards.
* The three node generators get the context they are called with, the current
  content of the tables that context points to, and the generator state; they
  return the new node and the generator state afterwards. They read the
  tables but leave them alone: tables are filled by the orchestrator. -/
structure Env (R V T S : Type) where
  get_rand_value : R → Nat → Nat → Nat × R
  ScalarVariable_generate : Context → Tables V T S → R → V × R
  StructType_generate : Context → Tables V T S → List T → R → T × R
  Struct_generate : Context → Tables V T S → T → R → S × R

/-- The mutable state the population code works on: the three tables, the
random value generator, and the record of collaborator calls made so far. -/
structure State (R V T S : Type) where
  tables : Tables V T S
  rand_val_gen : R
  trace : List Event
  deriving DecidableEq

/-- How a call ends: it returns, or the `std::out_of_range` thrown by the
bounds-checked `std::vector::at` leaves it. Either way the state reached is
kept. -/
inductive Outcome (σ : Type) where
  | returned (st : σ)
  | out_of_range (st : σ)
  deriving DecidableEq

/-- The state a call ended in. -/
def Outcome.state {σ : Type} : Outcome σ → σ
  | Outcome.returned st => st
  | Outcome.out_of_range st => st

/-- Sequencing: continue with `f` after a normal return, propagate a throw. -/
def Outcome.bind {σ : Type} (o : Outcome σ) (f : σ → Outcome σ) : Outcome σ :=
  match o with
  | Outcome.returned st => f st
  | Outcome.out_of_range st => Outcome.out_of_range st

/-- The loop `for (uint32_t i = 0; i < n; ++i) body`, whose body does not
mention `i`: run the body `n` times, stopping at the first throw. -/
def for_loop {σ : Type} (body : σ → Outcome σ) : Nat → σ → Outcome σ
  | 0, st => Outcome.returned st
  | n + 1, st => (body st).bind (for_loop body n)

/-- Subtraction of `uint32_t` values, wrapping modulo `2 ^ 32`. -/
def u32_sub (a b : Nat) : Nat :=
  (a % 2 ^ 32 + 2 ^ 32 - b % 2 ^ 32) % 2 ^ 32

section population

variable {R V T S : Type}

/-- One `rand_val_gen->get_rand_value<uint32_t>(lo, hi)`: the value drawn and
the state with the generator advanced. -/
def get_rand_value (g : Env R V T S) (lo hi : Nat) (st : State R V T S) :
    Nat × State R V T S :=
  let r := g.get_rand_value st.rand_val_gen lo hi
  (r.1, { st with rand_val_gen := r.2, trace := st.trace ++ [Event.get_rand_value lo hi r.1] })

/-- The statement `table->add_variable(ScalarVariable::generate(gen_ctx))`,
body of the loops at `program.cpp` 53-55 and 59-61. -/
def add_scalar_step (g : Env R V T S) (gen_ctx : Context) (table : TableRef)
    (st : State R V T S) : Outcome (State R V T S) :=
  let v := g.ScalarVariable_generate gen_ctx st.tables st.rand_val_gen
  Outcome.returned
    { tables := st.tables.modify table (fun t => t.add_variable v.1),
      rand_val_gen := v.2,
      trace := st.trace ++
        [Event.ScalarVariable_generate gen_ctx, Event.add_variable table] }

/-- The body of the loop at `program.cpp` 68-74: generate a struct type from
the input table's pool and register the same pointer in the input, output and
mixed tables, in that order. -/
def add_struct_type_step (g : Env R V T S) (ctx : Context)
    (st : State R V T S) : Outcome (State R V T S) :=
  let struct_type := g.StructType_generate ctx st.tables
    (st.tables.get ctx.extern_inp_sym_table).struct_types st.rand_val_gen
  Outcome.returned
    { tables :=
        ((st.tables.modify ctx.extern_inp_sym_table
            (fun t => t.add_struct_type struct_type.1)).modify ctx.extern_out_sym_table
            (fun t => t.add_struct_type struct_type.1)).modify ctx.extern_mix_sym_table
            (fun t => t.add_struct_type struct_type.1),
      rand_val_gen := struct_type.2,
      trace := st.trace ++
        [Event.StructType_generate ctx,
         Event.add_struct_type ctx.extern_inp_sym_table,
         Event.add_struct_type ctx.extern_out_sym_table,
         Event.add_struct_type ctx.extern_mix_sym_table] }

/-- The body of the loops at `program.cpp` 78-81, 84-87 and 90-93: draw
`struct_type_indx` from `[0, struct_type_count - 1]`, look the type up with
`.at` in the pool of `table`, generate an instance under `gen_ctx` and add it
to `table`. -/
def add_struct_step (g : Env R V T S) (gen_ctx : Context) (table : TableRef)
    (struct_type_count : Nat) (st : State R V T S) : Outcome (State R V T S) :=
  let struct_type_indx := get_rand_value g 0 (u32_sub struct_type_count 1) st
  match (struct_type_indx.2.tables.get table).struct_types[struct_type_indx.1]? with
  | none => Outcome.out_of_range struct_type_indx.2
  | some struct_type =>
    let s := g.Struct_generate gen_ctx struct_type_indx.2.tables struct_type
      struct_type_indx.2.rand_val_gen
    Outcome.returned
      { tables := struct_type_indx.2.tables.modify table (fun t => t.add_struct s.1),
        rand_val_gen := s.2,
        trace := struct_type_indx.2.trace ++
          [Event.Struct_generate gen_ctx struct_type_indx.1, Event.add_struct table] }

/-- The context `const_ctx` built at `program.cpp` 47-50: a copy of `ctx`
whose policy is a copy of the policy of `ctx` with `allow_const` set. -/
def const_ctx (ctx : Context) : Context :=
  ctx.set_gen_policy (ctx.gen_policy.set_allow_const true)

/-- Lines 52-61 of `program.cpp`: the input scalars, generated under
`const_ctx`, then the mixed scalars, generated under `ctx`. -/
def form_scalars (g : Env R V T S) (ctx : Context) (st : State R V T S) :
    Outcome (State R V T S) :=
  let p := ctx.gen_policy
  let inp_var_count := get_rand_value g p.min_inp_var_count p.max_inp_var_count st
  (for_loop (add_scalar_step g (const_ctx ctx) ctx.extern_inp_sym_table)
      inp_var_count.1 inp_var_count.2).bind fun st1 =>
    let mix_var_count := get_rand_value g p.min_mix_var_count p.max_mix_var_count st1
    for_loop (add_scalar_step g ctx ctx.extern_mix_sym_table)
      mix_var_count.1 mix_var_count.2

/-- Lines 76-93 of `program.cpp`: the input, mixed and output
struct instances, for a non-zero `struct_type_count`. -/
def form_structs (g : Env R V T S) (ctx : Context) (struct_type_count : Nat)
    (st : State R V T S) : Outcome (State R V T S) :=
  let p := ctx.gen_policy
  let inp_struct_count :=
    get_rand_value g p.min_inp_struct_count p.max_inp_struct_count st
  ((for_loop (add_struct_step g (const_ctx ctx) ctx.extern_inp_sym_table struct_type_count)
      inp_struct_count.1 inp_struct_count.2).bind fun st1 =>
    let mix_struct_count :=
      get_rand_value g p.min_mix_struct_count p.max_mix_struct_count st1
    for_loop (add_struct_step g ctx ctx.extern_mix_sym_table struct_type_count)
      mix_struct_count.1 mix_struct_count.2).bind fun st2 =>
    let out_struct_count :=
      get_rand_value g p.min_out_struct_count p.max_out_struct_count st2
    for_loop (add_struct_step g ctx ctx.extern_out_sym_table struct_type_count)
      out_struct_count.1 out_struct_count.2

/-- Lines 63-93 of `program.cpp`: draw `struct_type_count`; return at once
when it is zero; otherwise fill the struct-type pool and then the
struct instances. -/
def form_struct_part (g : Env R V T S) (ctx : Context) (st : State R V T S) :
    Outcome (State R V T S) :=
  let p := ctx.gen_policy
  let struct_type_count :=
    get_rand_value g p.min_struct_type_count p.max_struct_type_count st
  if struct_type_count.1 = 0 then
    Outcome.returned struct_type_count.2
  else
    (for_loop (add_struct_type_step g ctx) struct_type_count.1 struct_type_count.2).bind
      (form_structs g ctx struct_type_count.1)

/-- The method `Program::form_extern_sym_table` (`program.cpp` 44-94): the
scalar part, then the struct part on the state the scalar part leaves. -/
def form_extern_sym_table (g : Env R V T S) (ctx : Context) (st : State R V T S) :
    Outcome (State R V T S) :=
  (form_scalars g ctx st).bind (form_struct_part g ctx)

/-- The context `Program::generate` builds (`program.cpp` 33-37): the
program's policy and pointers to the program's own three tables. -/
def root_ctx (gen_policy : GenPolicy) : Context :=
  { gen_policy := gen_policy,
    extern_inp_sym_table := TableRef.inp,
    extern_mix_sym_table := TableRef.mix,
    extern_out_sym_table := TableRef.out }

/-- The state `Program::generate` starts from when it is called on a freshly
constructed `Program`: three empty tables and no call made yet. -/
def State.init (r : R) : State R V T S :=
  { tables := Tables.empty, rand_val_gen := r, trace := [] }

end population

/-! ### A small concrete instance to run the embedding on -/

/-- A generator state that is a tape of values still to be handed out. -/
def tape_draw (r : List Nat) (lo hi : Nat) : Nat × List Nat :=
  (lo + r.headD 0 % (hi - lo + 1), r.tail)

/-- Collaborators over a tape: a draw takes the next tape value into
`[lo, hi]`; a scalar is named by the tape value it consumes; a struct type is
named by the number of types it was given; an instance records its type. -/
def tape_env : Env (List Nat) Nat Nat (Nat × Nat) :=
  { get_rand_value := tape_draw,
    ScalarVariable_generate := fun _ _ r => (r.headD 0, r.tail),
    StructType_generate := fun _ _ seen r => (seen.length, r),
    Struct_generate := fun _ _ ty r => ((ty, r.headD 0), r.tail) }

/-- A policy with pairwise different count ranges. -/
def sample_policy : GenPolicy :=
  { allow_const := false,
    min_inp_var_count := 1, max_inp_var_count := 2,
    min_mix_var_count := 0, max_mix_var_count := 1,
    min_struct_type_count := 0, max_struct_type_count := 3,
    min_inp_struct_count := 1, max_inp_struct_count := 1,
    min_mix_struct_count := 0, max_mix_struct_count := 0,
    min_out_struct_count := 2, max_out_struct_count := 2 }

/-- A policy that allows no struct type but asks for at least one instance
in each table. -/
def no_struct_policy : GenPolicy :=
  { allow_const := false,
    min_inp_var_count := 1, max_inp_var_count := 2,
    min_mix_var_count := 1, max_mix_var_count := 1,
    min_struct_type_count := 0, max_struct_type_count := 0,
    min_inp_struct_count := 1, max_inp_struct_count := 3,
    min_mix_struct_count := 2, max_mix_struct_count := 3,
    min_out_struct_count := 3, max_out_struct_count := 3 }

/-- The tape the sample runs start from. -/
def sample_tape : List Nat := [1, 10, 11, 1, 12, 2, 5, 1, 6, 7, 0, 8, 9]

/-- The calls of `n` runs of a scalar loop: generate under `gen_ctx`, add to
`table`. -/
def scalar_events (gen_ctx : Context) (table : TableRef) (n : Nat) : List Event :=
  (List.replicate n
    [Event.ScalarVariable_generate gen_ctx, Event.add_variable table]).flatten

/-- The calls of `n` runs of the struct-type loop under `ctx`. -/
def struct_type_events (ctx : Context) (n : Nat) : List Event :=
  (List.replicate n
    [Event.StructType_generate ctx,
     Event.add_struct_type ctx.extern_inp_sym_table,
     Event.add_struct_type ctx.extern_out_sym_table,
     Event.add_struct_type ctx.extern_mix_sym_table]).flatten

/-- The calls of a struct-instance loop whose runs drew the indices `indx`
from `[0, hi]`: per run the index draw, the generation and the insertion. -/
def struct_events (gen_ctx : Context) (table : TableRef) (hi : Nat)
    (indx : List Nat) : List Event :=
  indx.flatMap fun i =>
    [Event.get_rand_value 0 hi i, Event.Struct_generate gen_ctx i, Event.add_struct table]

/-- The value of the local `struct_type_count` (`program.cpp` 63): the draw
made right after the scalar part. -/
def struct_type_count {R V T S : Type} (g : Env R V T S) (ctx : Context)
    (st : State R V T S) : Nat :=
  (get_rand_value g ctx.gen_policy.min_struct_type_count ctx.gen_policy.max_struct_type_count
    (form_scalars g ctx st).state).1

/-- The calls of a whole population run in the order of the source text, for
given values of the three counts `inp_var_count`, `mix_var_count`,
`struct_type_count` and given index draws of the three instance loops. -/
def population_events (ctx : Context) (inp_var_count mix_var_count struct_type_count : Nat)
    (inp_indx mix_indx out_indx : List Nat) : List Event :=
  (Event.get_rand_value ctx.gen_policy.min_inp_var_count ctx.gen_policy.max_inp_var_count
      inp_var_count ::
    scalar_events (const_ctx ctx) ctx.extern_inp_sym_table inp_var_count) ++
  (Event.get_rand_value ctx.gen_policy.min_mix_var_count ctx.gen_policy.max_mix_var_count
      mix_var_count ::
    scalar_events ctx ctx.extern_mix_sym_table mix_var_count) ++
  (Event.get_rand_value ctx.gen_policy.min_struct_type_count
      ctx.gen_policy.max_struct_type_count struct_type_count ::
    if struct_type_count = 0 then []
    else
      struct_type_events ctx struct_type_count ++
      (Event.get_rand_value ctx.gen_policy.min_inp_struct_count
          ctx.gen_policy.max_inp_struct_count inp_indx.length ::
        struct_events (const_ctx ctx) ctx.extern_inp_sym_table
          (u32_sub struct_type_count 1) inp_indx) ++
      (Event.get_rand_value ctx.gen_policy.min_mix_struct_count
          ctx.gen_policy.max_mix_struct_count mix_indx.length ::
        struct_events ctx ctx.extern_mix_sym_table (u32_sub struct_type_count 1) mix_indx) ++
      (Event.get_rand_value ctx.gen_policy.min_out_struct_count
          ctx.gen_policy.max_out_struct_count out_indx.length ::
        struct_events ctx ctx.extern_out_sym_table (u32_sub struct_type_count 1) out_indx))

/-- Every count range of the policy is non-empty: each minimum is at most its
maximum. -/
abbrev GenPolicy.ranges_ok (p : GenPolicy) : Prop :=
  p.min_inp_var_count ≤ p.max_inp_var_count ∧
  p.min_mix_var_count ≤ p.max_mix_var_count ∧
  p.min_struct_type_count ≤ p.max_struct_type_count ∧
  p.min_inp_struct_count ≤ p.max_inp_struct_count ∧
  p.min_mix_struct_count ≤ p.max_mix_struct_count ∧
  p.min_out_struct_count ≤ p.max_out_struct_count

/-- The relation `rel` between generator states is kept by every collaborator
and related states hand out the same values: a draw returns the same number
in both and leaves related states, and each node generator builds the same
node from the same context and tables and leaves related states. Two related
generator states are two copies of the same random stream. -/
structure Env.Respects {R V T S : Type} (g : Env R V T S) (rel : R → R → Prop) : Prop where
  get_rand_value : ∀ (r1 r2 : R) (lo hi : Nat), rel r1 r2 →
    (g.get_rand_value r1 lo hi).1 = (g.get_rand_value r2 lo hi).1 ∧
    rel (g.get_rand_value r1 lo hi).2 (g.get_rand_value r2 lo hi).2
  ScalarVariable_generate : ∀ (c : Context) (ts : Tables V T S) (r1 r2 : R), rel r1 r2 →
    (g.ScalarVariable_generate c ts r1).1 = (g.ScalarVariable_generate c ts r2).1 ∧
    rel (g.ScalarVariable_generate c ts r1).2 (g.ScalarVariable_generate c ts r2).2
  StructType_generate : ∀ (c : Context) (ts : Tables V T S) (seen : List T) (r1 r2 : R),
    rel r1 r2 →
    (g.StructType_generate c ts seen r1).1 = (g.StructType_generate c ts seen r2).1 ∧
    rel (g.StructType_generate c ts seen r1).2 (g.StructType_generate c ts seen r2).2
  Struct_generate : ∀ (c : Context) (ts : Tables V T S) (ty : T) (r1 r2 : R), rel r1 r2 →
    (g.Struct_generate c ts ty r1).1 = (g.Struct_generate c ts ty r2).1 ∧
    rel (g.Struct_generate c ts ty r1).2 (g.Struct_generate c ts ty r2).2

/-- Two states with identical tables, an identical record of calls (so the
same draws with the same results in the same order), and related generators. -/
def State.Sim {R V T S : Type} (rel : R → R → Prop) (a b : State R V T S) : Prop :=
  a.tables = b.tables ∧ a.trace = b.trace ∧ rel a.rand_val_gen b.rand_val_gen

/-- Two calls that ended the same way in states related by `State.Sim`. -/
def Outcome.Sim {R V T S : Type} (rel : R → R → Prop) :
    Outcome (State R V T S) → Outcome (State R V T S) → Prop
  | Outcome.returned a, Outcome.returned b => State.Sim rel a b
  | Outcome.out_of_range a, Outcome.out_of_range b => State.Sim rel a b
  | _, _ => False

/-- Two tapes that hand out the same values for ever: they agree position by
position, a tape that has run out counting as zeros. -/
def tape_sim (r1 r2 : List Nat) : Prop :=
  ∀ i : Nat, r1.getD i 0 = r2.getD i 0

/-- The contract of the randomness source: a draw from a non-empty range
`[lo, hi]` lands in it. -/
def RangeOK {R V T S : Type} (g : Env R V T S) : Prop :=
  ∀ (r : R) (lo hi : Nat), lo ≤ hi →
    lo ≤ (g.get_rand_value r lo hi).1 ∧ (g.get_rand_value r lo hi).1 ≤ hi

/-! ## Emission (`src/program.cpp`) and the tail of `main` (`src/main.cpp`) -/

/-- The per-table emitters of `SymbolTable` that the `emit_*` methods of
`Program` call and whose text the embedding keeps symbolic. -/
inductive TablePart where
  | variable_extern_decl
  | struct_type_def
  | struct_extern_decl
  | variable_def
  | struct_def
  | struct_type_static_memb_def
  | struct_init
  deriving DecidableEq

/-- One piece of an output stream, in the order written. Text the embedded
code writes itself is literal. Text a collaborator writes is named by the
call that writes it: a per-table emitter applied to a table, the `emit` of a
declaration statement for a variable with a given initial value, the check of
one scalar variable or one struct instance, the `emit` of the function. -/
inductive Chunk (V T S F : Type) where
  | text (s : String)
  | table (part : TablePart) (offset : String) (t : SymbolTable V T S)
  | decl_stmt (offset : String) (name : String) (init : Nat)
  | variable_check (offset : String) (v : V)
  | struct_check (offset : String) (s : S)
  | function_body (f : F)
  deriving DecidableEq

/-- A file a run has written: its path and its content. -/
structure File (V T S F : Type) where
  name : String
  content : List (Chunk V T S F)
  deriving DecidableEq

/-- What the emitters read of the global `options`: the results of the
methods `Options::is_c()` and `Options::is_cxx()`, which `options.h` declares
and some other file defines. -/
structure Options where
  is_c : Bool
  is_cxx : Bool
  deriving DecidableEq

/-- The function `get_file_ext` (`program.cpp` 103-110); the error is the
`exit(-1)` after the message. -/
def get_file_ext (options : Options) : Except String String :=
  if options.is_c then Except.ok "c"
  else if options.is_cxx then Except.ok "cpp"
  else Except.error "can't detect language subset"

/-- A `Program` after `generate`: the output folder, the three symbol tables
and the generated function. -/
structure Program (V T S F : Type) where
  out_folder : String
  tables : Tables V T S
  function : F
  deriving DecidableEq

section emission

variable {V T S F : Type}

/-- Modelled from the spec: `SymbolTable::emit_variable_check`, defined in a
file that is not among the embedded ones. The checksum routine "folds every
Mixed and Output scalar and struct field into a single accumulator" in an
order that is "table declaration order, deterministic, never randomized":
the emitter writes one check per scalar variable of the table, walking the
vector front to back. -/
def SymbolTable.emit_variable_check (t : SymbolTable V T S)
    (stream : List (Chunk V T S F)) (offset : String) : List (Chunk V T S F) :=
  t.vars.foldl (fun out v => out ++ [Chunk.variable_check offset v]) stream

/-- Modelled from the spec: `SymbolTable::emit_struct_check`, defined in a
file that is not among the embedded ones; as `emit_variable_check`, one check
per struct instance of the table, walking the vector front to back. -/
def SymbolTable.emit_struct_check (t : SymbolTable V T S)
    (stream : List (Chunk V T S F)) (offset : String) : List (Chunk V T S F) :=
  t.structs.foldl (fun out s => out ++ [Chunk.struct_check offset s]) stream

/-- The method `Program::emit_decl` (`program.cpp` 142-173). -/
def Program.emit_decl (prog : Program V T S F) : File V T S F :=
  { name := prog.out_folder ++ "/" ++ "init.h",
    content :=
      [Chunk.text
        "void hash(unsigned long long int *seed, unsigned long long int const v);\n\n",
       Chunk.table TablePart.variable_extern_decl "" prog.tables.extern_inp_sym_table,
       Chunk.text "\n\n",
       Chunk.table TablePart.variable_extern_decl "" prog.tables.extern_mix_sym_table,
       Chunk.text "\n\n",
       Chunk.table TablePart.variable_extern_decl "" prog.tables.extern_out_sym_table,
       Chunk.text "\n\n",
       Chunk.table TablePart.struct_type_def "" prog.tables.extern_inp_sym_table,
       Chunk.text "\n\n",
       Chunk.table TablePart.struct_extern_decl "" prog.tables.extern_inp_sym_table,
       Chunk.text "\n\n",
       Chunk.table TablePart.struct_extern_decl "" prog.tables.extern_mix_sym_table,
       Chunk.text "\n\n",
       Chunk.table TablePart.struct_extern_decl "" prog.tables.extern_out_sym_table,
       Chunk.text "\n\n"] }

/-- The method `Program::emit_init` (`program.cpp` 112-140). -/
def Program.emit_init (prog : Program V T S F) (options : Options) :
    Except String (File V T S F) :=
  (get_file_ext options).map fun ext =>
    { name := prog.out_folder ++ "/" ++ "init." ++ ext,
      content :=
        [Chunk.text "#include \"init.h\"\n\n",
         Chunk.table TablePart.variable_def "" prog.tables.extern_inp_sym_table,
         Chunk.text "\n\n",
         Chunk.table TablePart.variable_def "" prog.tables.extern_mix_sym_table,
         Chunk.text "\n\n",
         Chunk.table TablePart.variable_def "" prog.tables.extern_out_sym_table,
         Chunk.text "\n\n",
         Chunk.table TablePart.struct_def "" prog.tables.extern_inp_sym_table,
         Chunk.text "\n\n",
         Chunk.table TablePart.struct_def "" prog.tables.extern_mix_sym_table,
         Chunk.text "\n\n",
         Chunk.table TablePart.struct_def "" prog.tables.extern_out_sym_table,
         Chunk.text "\n\n",
         Chunk.table TablePart.struct_type_static_memb_def ""
           prog.tables.extern_inp_sym_table,
         Chunk.text "\n\n",
         Chunk.text "void init () \x7b\n",
         Chunk.table TablePart.struct_init "    " prog.tables.extern_inp_sym_table,
         Chunk.table TablePart.struct_init "    " prog.tables.extern_mix_sym_table,
         Chunk.table TablePart.struct_init "    " prog.tables.extern_out_sym_table,
         Chunk.text "\x7d"] }

/-- The method `Program::emit_func` (`program.cpp` 175-183). -/
def Program.emit_func (prog : Program V T S F) (options : Options) :
    Except String (File V T S F) :=
  (get_file_ext options).map fun ext =>
    { name := prog.out_folder ++ "/" ++ "func." ++ ext,
      content :=
        [Chunk.text "#include \"init.h\"\n\n",
         Chunk.text "void foo ()\n",
         Chunk.function_body prog.function] }

/-- The method `Program::emit_hash` (`program.cpp` 185-190). -/
def Program.emit_hash (prog : Program V T S F) (options : Options) :
    Except String (File V T S F) :=
  (get_file_ext options).map fun ext =>
    { name := prog.out_folder ++ "/" ++ ("hash." ++ ext),
      content :=
        [Chunk.text
          ("void hash(unsigned long long int *seed, unsigned long long int const v) \x7b\n" ++
           "    *seed ^= v + 0x9e3779b9 + ((*seed)<<6) + ((*seed)>>2);\n" ++
           "\x7d\n")] }

/-- The method `Program::emit_check` (`program.cpp` 192-221). The stream is
built up write by write; `seed_decl` is the declaration of the
`ULLINT` variable `seed` with the constant 0. -/
def Program.emit_check (prog : Program V T S F) (options : Options) :
    Except String (File V T S F) :=
  (get_file_ext options).map fun ext =>
    { name := prog.out_folder ++ "/" ++ "check." ++ ext,
      content :=
        (prog.tables.extern_out_sym_table.emit_struct_check
          (prog.tables.extern_mix_sym_table.emit_struct_check
            (prog.tables.extern_out_sym_table.emit_variable_check
              (prog.tables.extern_mix_sym_table.emit_variable_check
                [Chunk.text "#include \"init.h\"\n\n",
                 Chunk.text "unsigned long long int checksum () \x7b\n",
                 Chunk.decl_stmt "    " "seed" 0,
                 Chunk.text "\n"]
                "    ")
              "    ")
            "    ")
          "    ") ++
        [Chunk.text "    return seed;\n", Chunk.text "\x7d"] }

/-- The text of the driver built by `Program::emit_main`. -/
def driver_text : String :=
  "#include <stdio.h>\n" ++
  "#include \"init.h\"\n\n" ++
  "extern void init ();\n" ++
  "extern void foo ();\n" ++
  "extern unsigned long long int checksum ();\n\n" ++
  "int main () \x7b\n" ++
  "    init ();\n" ++
  "    foo ();\n" ++
  "    printf(\"%llu\\n\", checksum ());\n" ++
  "    return 0;\n" ++
  "\x7d"

/-- The method `Program::emit_main` (`program.cpp` 223-237). -/
def Program.emit_main (prog : Program V T S F) (options : Options) :
    Except String (File V T S F) :=
  (get_file_ext options).map fun ext =>
    { name := prog.out_folder ++ "/" ++ ("driver." ++ ext),
      content := [Chunk.text driver_text] }

/-- How a run of `main` ends: `return 0`, or an early end with a message. -/
inductive ExitStatus where
  | success
  | failure (message : String)
  deriving DecidableEq

/-- What a run leaves behind: the files written, in order, and how it ended. -/
structure Run (V T S F : Type) where
  files : List (File V T S F)
  status : ExitStatus
  deriving DecidableEq

/-- What opening an output file, writing to it and closing it leaves behind.
`can_open path` tells whether `std::ofstream::open` succeeds on `path`. When
it does, the file is written. When it does not, every write to the stream is
lost and no error is raised, since the code never tests the stream: nothing
is written and the run goes on. -/
def write_out (can_open : String → Bool) (written : List (File V T S F))
    (f : File V T S F) : List (File V T S F) :=
  if can_open f.name then written ++ [f] else written

/-- Lines 280-286 of `main.cpp`: the emitters `main` calls on the generated
program, in order. An emitter that fails in `get_file_ext` ends the run
before it opens its file; the files written before it stay. -/
def main_emit (can_open : String → Bool) (options : Options) (mas : Program V T S F) :
    Run V T S F :=
  match mas.emit_func options with
  | Except.error message =>
    { files := write_out can_open [] mas.emit_decl,
      status := ExitStatus.failure message }
  | Except.ok func =>
    match mas.emit_main options with
    | Except.error message =>
      { files := write_out can_open (write_out can_open [] mas.emit_decl) func,
        status := ExitStatus.failure message }
    | Except.ok driver =>
      { files :=
          write_out can_open
            (write_out can_open (write_out can_open [] mas.emit_decl) func) driver,
        status := ExitStatus.success }

/-- Lines 273-286 of `main.cpp` with `Program::generate` (`program.cpp`
32-41) inlined: build the program with three empty tables, fill them, generate
the function with `ScopeStmt::generate` (a collaborator, here a parameter),
then emit. `r` is the generator `RandValGen(seed)`. An exception that leaves
`generate` ends the run with nothing written. -/
def main_run {R : Type} (g : Env R V T S)
    (ScopeStmt_generate : Context → Tables V T S → R → F × R)
    (can_open : String → Bool) (options : Options) (gen_policy : GenPolicy)
    (out_dir : String) (r : R) : Run V T S F :=
  match form_extern_sym_table g (root_ctx gen_policy) (State.init r) with
  | Outcome.out_of_range _ =>
    { files := [], status := ExitStatus.failure "std::out_of_range" }
  | Outcome.returned st =>
    main_emit can_open options
      { out_folder := out_dir,
        tables := st.tables,
        function := (ScopeStmt_generate (root_ctx gen_policy) st.tables st.rand_val_gen).1 }

/-- The scalar variables an output stream checks, in stream order. -/
def checked_variables (content : List (Chunk V T S F)) : List V :=
  content.filterMap fun c =>
    match c with
    | Chunk.variable_check _ v => some v
    | _ => none

/-- The struct instances an output stream checks, in stream order. -/
def checked_structs (content : List (Chunk V T S F)) : List S :=
  content.filterMap fun c =>
    match c with
    | Chunk.struct_check _ s => some s
    | _ => none

end emission

/-- Options selecting a C standard. -/
def sample_options : Options :=
  { is_c := true, is_cxx := false }

/-- A stand-in for `ScopeStmt::generate`: the function is named by the number
of scalar variables it can see. -/
def sample_scope (_ : Context) (ts : Tables Nat Nat (Nat × Nat)) (r : List Nat) :
    Nat × List Nat :=
  (ts.extern_inp_sym_table.vars.length + ts.extern_mix_sym_table.vars.length, r)

/-- The run of `main` on the sample policy and tape, into the default output
directory, every file of which can be opened. -/
def sample_run : Run Nat Nat (Nat × Nat) Nat :=
  main_run tape_env sample_scope (fun _ => true) sample_options sample_policy "./"
    sample_tape

/-- The program the sample run generates. -/
def sample_program : Program Nat Nat (Nat × Nat) Nat :=
  { out_folder := "./",
    tables :=
      (form_extern_sym_table tape_env (root_ctx sample_policy)
        (State.init sample_tape)).state.tables,
    function := 3 }

/-- The struct instance `x` is what `Struct::generate` returned when it was
called under `gen_ctx` with the struct type found at index `i` of `pool`. -/
def InstanceOf {R V T S : Type} (g : Env R V T S) (gen_ctx : Context) (pool : List T)
    (i : Nat) (x : S) : Prop :=
  ∃ (tabs : Tables V T S) (r : R) (ty : T),
    pool[i]? = some ty ∧ x = (g.Struct_generate gen_ctx tabs ty r).1

/-! ## The objects behind the context pointers (`program.cpp` 45-50) -/

/-- Modelled from the spec: a `Context` object as it lies in memory (the class
is not among the embedded files). It "holds a Generation Policy" through a
`std::shared_ptr<GenPolicy>`, here the position of a policy object in the
store, and the pointers to the three symbol tables. -/
structure ContextObject where
  gen_policy : Nat
  extern_inp_sym_table : TableRef
  extern_mix_sym_table : TableRef
  extern_out_sym_table : TableRef
  deriving DecidableEq

/-- The policy objects and the context objects alive during a call, each
addressed by its position; `std::make_shared` adds an object at the end. -/
structure Store where
  policies : List GenPolicy
  contexts : List ContextObject
  deriving DecidableEq

/-- The call `std::make_shared<GenPolicy>(p)`: the new pointer and the store. -/
def Store.make_shared_policy (m : Store) (p : GenPolicy) : Nat × Store :=
  (m.policies.length, { m with policies := m.policies ++ [p] })

/-- The call `std::make_shared<Context>(c)`, `c` being copied member by
member: the policy pointer and the table pointers of the copy are those of
`c`. -/
def Store.make_shared_context (m : Store) (c : ContextObject) : Nat × Store :=
  (m.contexts.length, { m with contexts := m.contexts ++ [c] })

/-- Modelled from the spec: the method `Context::set_gen_policy` on the
store. Policy objects are "copy-on-write from the parent; a child scope never
mutates a policy object also visible to a sibling or ancestor": a new policy
object holding the given value is made and the context is pointed at it; the
object the context pointed at before is left as it was. -/
def Store.set_gen_policy (m : Store) (ctx : Nat) (p : GenPolicy) : Option Store :=
  match m.contexts[ctx]? with
  | none => none
  | some c =>
    some
      { policies := (m.make_shared_policy p).2.policies,
        contexts := (m.make_shared_policy p).2.contexts.set ctx
          { c with gen_policy := (m.make_shared_policy p).1 } }

/-- The context a pointer stands for: the value of its policy object and its
table pointers. -/
def Store.read (m : Store) (ctx : Nat) : Option Context :=
  match m.contexts[ctx]? with
  | none => none
  | some c =>
    match m.policies[c.gen_policy]? with
    | none => none
    | some p =>
      some
        { gen_policy := p,
          extern_inp_sym_table := c.extern_inp_sym_table,
          extern_mix_sym_table := c.extern_mix_sym_table,
          extern_out_sym_table := c.extern_out_sym_table }

/-- Lines 45-50 of `program.cpp` on the store: `p` is taken from `ctx`,
`const_ctx` is made as a copy of `*ctx`, the policy it points at is copied to
the local `const_gen_policy`, the local gets `allow_const`, and `const_ctx` is
given that policy. The result is `p`, `const_ctx` and the store afterwards;
`none` stands for a pointer that points at nothing. -/
def derive_const_ctx (m : Store) (ctx : Nat) : Option (Nat × Nat × Store) :=
  match m.contexts[ctx]? with
  | none => none
  | some c =>
    match (m.make_shared_context c).2.contexts[(m.make_shared_context c).1]? with
    | none => none
    | some cc =>
      match (m.make_shared_context c).2.policies[cc.gen_policy]? with
      | none => none
      | some const_gen_policy =>
        match (m.make_shared_context c).2.set_gen_policy (m.make_shared_context c).1
            (const_gen_policy.set_allow_const true) with
        | none => none
        | some m2 => some (c.gen_policy, (m.make_shared_context c).1, m2)

/-- The store `Program::generate` hands over: one policy object and the root
context pointing at it. -/
def Store.root (gen_policy : GenPolicy) : Store :=
  { policies := [gen_policy],
    contexts :=
      [{ gen_policy := 0,
         extern_inp_sym_table := TableRef.inp,
         extern_mix_sym_table := TableRef.mix,
         extern_out_sym_table := TableRef.out }] }

/-- The generation calls of a record of calls whose result was added to a
table, each as the context it was made under and the table added to: a
`ScalarVariable::generate` followed by `add_variable`, a `Struct::generate`
followed by `add_struct`. -/
def generation_pairs : List Event → List (Context × TableRef)
  | [] => []
  | Event.ScalarVariable_generate c :: rest =>
    match rest with
    | Event.add_variable t :: _ => (c, t) :: generation_pairs rest
    | _ => generation_pairs rest
  | Event.Struct_generate c _ :: rest =>
    match rest with
    | Event.add_struct t :: _ => (c, t) :: generation_pairs rest
    | _ => generation_pairs rest
  | _ :: rest => generation_pairs rest

/-- The contexts of the `StructType::generate` calls of a record of calls. -/
def struct_type_contexts (tr : List Event) : List Context :=
  tr.filterMap fun e =>
    match e with
    | Event.StructType_generate c => some c
    | _ => none

/-! ## The draw schedule -/

/-- One draw of a record of calls: the bounds asked for and the value
returned. -/
structure Draw where
  lo : Nat
  hi : Nat
  ret : Nat
  deriving DecidableEq

/-- The draws of a record of calls, in order. -/
def draws_of (tr : List Event) : List Draw :=
  tr.filterMap fun e =>
    match e with
    | Event.get_rand_value lo hi ret => some { lo := lo, hi := hi, ret := ret }
    | _ => none

/-- What is left to draw, as a schedule that sees nothing but the values drawn
so far. This definition does not come from the source: it is the reading of
"the number and order of draws depend on nothing but the policy and the
values previously drawn" that the population code is compared with. The
stages are: the three counts of lines 52, 58 and 63; the count of the
struct-instance loop of a table; `left` index draws still to come in that
loop, each from `[0, hi]`; nothing left. -/
inductive DrawPlan where
  | inp_var_count
  | mix_var_count
  | struct_type_count
  | struct_count (table : TableRef) (hi : Nat)
  | struct_type_indx (table : TableRef) (hi : Nat) (left : Nat)
  | done
  deriving DecidableEq

/-- The stage after the struct-instance loop of a table: the loop of the next
table, in the order input, mixed, output. -/
def DrawPlan.next_loop (table : TableRef) (hi : Nat) : DrawPlan :=
  match table with
  | TableRef.inp => DrawPlan.struct_count TableRef.mix hi
  | TableRef.mix => DrawPlan.struct_count TableRef.out hi
  | TableRef.out => DrawPlan.done

/-- The stage with `n` index draws of a table's loop still to come. -/
def DrawPlan.after_count (table : TableRef) (hi n : Nat) : DrawPlan :=
  if n = 0 then DrawPlan.next_loop table hi else DrawPlan.struct_type_indx table hi n

/-- The stage after a draw that returned `v`. The two scalar counts and the
indices do not change what is drawn next; a zero struct-type count ends the
schedule and a non-zero one fixes the index range `[0, v - 1]` (in 32 bits);
an instance count is the number of index draws of its loop. -/
def DrawPlan.step : DrawPlan → Nat → DrawPlan
  | DrawPlan.inp_var_count, _ => DrawPlan.mix_var_count
  | DrawPlan.mix_var_count, _ => DrawPlan.struct_type_count
  | DrawPlan.struct_type_count, v =>
    if v = 0 then DrawPlan.done else DrawPlan.struct_count TableRef.inp (u32_sub v 1)
  | DrawPlan.struct_count table hi, v => DrawPlan.after_count table hi v
  | DrawPlan.struct_type_indx table hi left, _ => DrawPlan.after_count table hi (left - 1)
  | DrawPlan.done, _ => DrawPlan.done

/-- The bounds of the draw a stage asks for under a policy, if any. -/
def DrawPlan.request (p : GenPolicy) : DrawPlan → Option (Nat × Nat)
  | DrawPlan.inp_var_count => some (p.min_inp_var_count, p.max_inp_var_count)
  | DrawPlan.mix_var_count => some (p.min_mix_var_count, p.max_mix_var_count)
  | DrawPlan.struct_type_count => some (p.min_struct_type_count, p.max_struct_type_count)
  | DrawPlan.struct_count TableRef.inp _ =>
    some (p.min_inp_struct_count, p.max_inp_struct_count)
  | DrawPlan.struct_count TableRef.mix _ =>
    some (p.min_mix_struct_count, p.max_mix_struct_count)
  | DrawPlan.struct_count TableRef.out _ =>
    some (p.min_out_struct_count, p.max_out_struct_count)
  | DrawPlan.struct_type_indx _ hi _ => some (0, hi)
  | DrawPlan.done => none

/-- The bounds of the next draw as a function of the policy and of the values
drawn so far, oldest first; `none` when no draw is left. -/
def spec_next_draw (p : GenPolicy) (drawn : List Nat) : Option (Nat × Nat) :=
  DrawPlan.request p (drawn.foldl DrawPlan.step DrawPlan.inp_var_count)

/-- Walk a list of draws along the schedule from a stage: the stage reached,
or `none` when some draw does not have the bounds its stage asks for. -/
def DrawPlan.follow (p : GenPolicy) : DrawPlan → List Draw → Option DrawPlan
  | plan, [] => some plan
  | plan, d :: ds =>
    if DrawPlan.request p plan = some (d.lo, d.hi) then
      DrawPlan.follow p (plan.step d.ret) ds
    else none

/-! ## Basic facts about the embedding -/

section lemmas

variable {R V T S : Type}

@[simp] theorem Tables.get_modify_same (ts : Tables V T S) (r : TableRef)
    (f : SymbolTable V T S → SymbolTable V T S) :
    (ts.modify r f).get r = f (ts.get r) := by
  cases r <;> rfl

theorem Tables.get_modify_other (ts : Tables V T S) (r q : TableRef)
    (f : SymbolTable V T S → SymbolTable V T S) (h : q ≠ r) :
    (ts.modify r f).get q = ts.get q := by
  cases r <;> cases q <;> first | rfl | exact absurd rfl h

theorem Tables.get_modify_struct_types (ts : Tables V T S) (r q : TableRef)
    (f : SymbolTable V T S → SymbolTable V T S)
    (hf : ∀ t, (f t).struct_types = t.struct_types) :
    ((ts.modify r f).get q).struct_types = (ts.get q).struct_types := by
  by_cases h : q = r
  · subst h; simp [hf]
  · rw [Tables.get_modify_other ts r q f h]

theorem Tables.get_modify_vars (ts : Tables V T S) (r q : TableRef)
    (f : SymbolTable V T S → SymbolTable V T S)
    (hf : ∀ t, (f t).vars = t.vars) :
    ((ts.modify r f).get q).vars = (ts.get q).vars := by
  by_cases h : q = r
  · subst h; simp [hf]
  · rw [Tables.get_modify_other ts r q f h]

theorem Tables.get_modify_structs (ts : Tables V T S) (r q : TableRef)
    (f : SymbolTable V T S → SymbolTable V T S)
    (hf : ∀ t, (f t).structs = t.structs) :
    ((ts.modify r f).get q).structs = (ts.get q).structs := by
  by_cases h : q = r
  · subst h; simp [hf]
  · rw [Tables.get_modify_other ts r q f h]

@[simp] theorem Tables.modify_add_struct_struct_types (ts : Tables V T S) (r q : TableRef)
    (x : S) :
    ((ts.modify r (fun tb => tb.add_struct x)).get q).struct_types =
      (ts.get q).struct_types :=
  Tables.get_modify_struct_types ts r q _ (fun _ => rfl)

@[simp] theorem Tables.modify_add_struct_vars (ts : Tables V T S) (r q : TableRef) (x : S) :
    ((ts.modify r (fun tb => tb.add_struct x)).get q).vars = (ts.get q).vars :=
  Tables.get_modify_vars ts r q _ (fun _ => rfl)

@[simp] theorem get_rand_value_tables (g : Env R V T S) (lo hi : Nat) (st : State R V T S) :
    (get_rand_value g lo hi st).2.tables = st.tables := rfl

@[simp] theorem get_rand_value_trace (g : Env R V T S) (lo hi : Nat) (st : State R V T S) :
    (get_rand_value g lo hi st).2.trace =
      st.trace ++ [Event.get_rand_value lo hi (get_rand_value g lo hi st).1] := rfl

theorem get_rand_value_range (g : Env R V T S) (hg : RangeOK g) (lo hi : Nat) (st : State R V T S)
    (h : lo ≤ hi) : lo ≤ (get_rand_value g lo hi st).1 ∧ (get_rand_value g lo hi st).1 ≤ hi :=
  hg st.rand_val_gen lo hi h

theorem u32_sub_one_lt (n : Nat) (h : n ≠ 0) : u32_sub n 1 < n := by
  unfold u32_sub
  omega

/-- Every state a loop can end in is related to the start by any reflexive,
transitive relation that each run of the body respects. -/
theorem for_loop_state_rel {σ : Type} (body : σ → Outcome σ) (Q : σ → σ → Prop)
    (hrefl : ∀ s, Q s s) (htrans : ∀ a b c, Q a b → Q b c → Q a c)
    (hbody : ∀ s, Q s (body s).state) :
    ∀ (n : Nat) (s : σ), Q s (for_loop body n s).state := by
  intro n
  induction n with
  | zero => intro s; exact hrefl s
  | succ k ih =>
    intro s
    have hb := hbody s
    simp only [for_loop]
    cases hbs : body s with
    | returned s1 =>
      rw [hbs] at hb
      exact htrans _ _ _ hb (ih s1)
    | out_of_range s1 =>
      rw [hbs] at hb
      exact hb

/-- A counted relation between the start of a loop and the state it returns
in, built from the effect of one returning run of the body. -/
theorem for_loop_returned_rel {σ : Type} (body : σ → Outcome σ) (Q : Nat → σ → σ → Prop)
    (h0 : ∀ s, Q 0 s s)
    (hstep : ∀ k s s1 s2, body s = Outcome.returned s1 → Q k s1 s2 → Q (k + 1) s s2) :
    ∀ (n : Nat) (s s2 : σ), for_loop body n s = Outcome.returned s2 → Q n s s2 := by
  intro n
  induction n with
  | zero =>
    intro s s2 h
    simp only [for_loop, Outcome.returned.injEq] at h
    subst h
    exact h0 s
  | succ k ih =>
    intro s s2 h
    simp only [for_loop] at h
    cases hbs : body s with
    | returned s1 =>
      rw [hbs] at h
      exact hstep k s s1 s2 hbs (ih s1 s2 h)
    | out_of_range s1 =>
      rw [hbs] at h
      simp [Outcome.bind] at h

/-- A loop returns when its body returns on every state of an invariant it
keeps. -/
theorem for_loop_returns {σ : Type} (body : σ → Outcome σ) (I : σ → Prop)
    (hI : ∀ s, I s → ∃ s1, body s = Outcome.returned s1 ∧ I s1) :
    ∀ (n : Nat) (s : σ), I s → ∃ s2, for_loop body n s = Outcome.returned s2 ∧ I s2 := by
  intro n
  induction n with
  | zero => intro s hs; exact ⟨s, rfl, hs⟩
  | succ k ih =>
    intro s hs
    obtain ⟨s1, h1, hs1⟩ := hI s hs
    obtain ⟨s2, h2, hs2⟩ := ih s1 hs1
    exact ⟨s2, by simp only [for_loop, h1, Outcome.bind, h2], hs2⟩

/-- What a scalar loop of `n` runs does: it returns, having added
`n` variables to `table` and nothing else to any table. -/
theorem scalar_loop_spec (g : Env R V T S) (c : Context) (t : TableRef) :
    ∀ (n : Nat) (s : State R V T S), ∃ s2,
      for_loop (add_scalar_step g c t) n s = Outcome.returned s2 ∧
      (∀ q, (s2.tables.get q).struct_types = (s.tables.get q).struct_types) ∧
      (∀ q, (s2.tables.get q).structs = (s.tables.get q).structs) ∧
      (∀ q, q ≠ t → (s2.tables.get q).vars = (s.tables.get q).vars) ∧
      (s2.tables.get t).vars.length = (s.tables.get t).vars.length + n ∧
      s2.trace = s.trace ++ scalar_events c t n := by
  intro n
  induction n with
  | zero =>
    intro s
    exact ⟨s, rfl, fun _ => rfl, fun _ => rfl, fun _ _ => rfl, rfl,
      by simp [scalar_events]⟩
  | succ k ih =>
    intro s
    obtain ⟨s2, h2, hty, hst, hv, hlen, htr⟩ := ih (add_scalar_step g c t s).state
    refine ⟨s2, ?_, ?_, ?_, ?_, ?_, ?_⟩
    · simpa [for_loop, add_scalar_step, Outcome.bind, Outcome.state] using h2
    · intro q
      rw [hty q]
      exact Tables.get_modify_struct_types _ _ _ _ (fun _ => rfl)
    · intro q
      rw [hst q]
      exact Tables.get_modify_structs _ _ _ _ (fun _ => rfl)
    · intro q hq
      rw [hv q hq]
      exact congrArg SymbolTable.vars (Tables.get_modify_other _ _ _ _ hq)
    · rw [hlen]
      simp [add_scalar_step, Outcome.state, SymbolTable.add_variable]
      omega
    · rw [htr]
      simp [add_scalar_step, Outcome.state, scalar_events, List.replicate_succ]

theorem add_struct_type_step_get (g : Env R V T S) (p : GenPolicy) (s : State R V T S)
    (q : TableRef) :
    ((add_struct_type_step g (root_ctx p) s).state.tables.get q) =
      (s.tables.get q).add_struct_type
        (g.StructType_generate (root_ctx p) s.tables
          s.tables.extern_inp_sym_table.struct_types s.rand_val_gen).1 := by
  cases q <;> rfl

/-- What the struct-type loop of `n` runs does under the root context: it
returns, having appended the same `n` new types, in generation order, to the
pool of each of the three tables; each type was generated from the tables as
they stood after the types before it. -/
theorem struct_type_loop_spec (g : Env R V T S) (p : GenPolicy) :
    ∀ (n : Nat) (s : State R V T S), ∃ (s2 : State R V T S) (new : List T),
      for_loop (add_struct_type_step g (root_ctx p)) n s = Outcome.returned s2 ∧
      new.length = n ∧
      (∀ q, (s2.tables.get q).struct_types = (s.tables.get q).struct_types ++ new) ∧
      (∀ q, (s2.tables.get q).vars = (s.tables.get q).vars) ∧
      (∀ q, (s2.tables.get q).structs = (s.tables.get q).structs) ∧
      (∀ (i : Nat) (h : i < new.length), ∃ (tabs : Tables V T S) (r : R),
        (∀ q, (tabs.get q).struct_types = (s.tables.get q).struct_types ++ new.take i) ∧
        new[i] = (g.StructType_generate (root_ctx p) tabs
          (s.tables.extern_inp_sym_table.struct_types ++ new.take i) r).1) ∧
      s2.trace = s.trace ++ struct_type_events (root_ctx p) n := by
  intro n
  induction n with
  | zero =>
    intro s
    refine ⟨s, [], rfl, rfl, fun _ => by simp, fun _ => rfl, fun _ => rfl, ?_, ?_⟩
    · intro i h
      exact absurd h (Nat.not_lt_zero i)
    · simp [struct_type_events]
  | succ k ih =>
    intro s
    obtain ⟨s2, new, h2, hlen, hty, hv, hst, hch, htr⟩ :=
      ih (add_struct_type_step g (root_ctx p) s).state
    refine ⟨s2, (g.StructType_generate (root_ctx p) s.tables
          s.tables.extern_inp_sym_table.struct_types s.rand_val_gen).1 :: new,
      ?_, ?_, ?_, ?_, ?_, ?_, ?_⟩
    · simpa [for_loop, add_struct_type_step, Outcome.bind, Outcome.state] using h2
    · simp [hlen]
    · intro q
      rw [hty q, add_struct_type_step_get]
      simp [SymbolTable.add_struct_type]
    · intro q
      rw [hv q, add_struct_type_step_get]
      rfl
    · intro q
      rw [hst q, add_struct_type_step_get]
      rfl
    · intro i h
      cases i with
      | zero =>
        refine ⟨s.tables, s.rand_val_gen, fun q => by simp, ?_⟩
        simp
      | succ j =>
        have hj : j < new.length := by simpa using h
        obtain ⟨tabs, r, htabs, hnew⟩ := hch j hj
        refine ⟨tabs, r, ?_, ?_⟩
        · intro q
          rw [htabs q, add_struct_type_step_get]
          simp [SymbolTable.add_struct_type]
        · have hinp := add_struct_type_step_get g p s TableRef.inp
          simp only [Tables.get] at hinp
          rw [hinp] at hnew
          simpa [SymbolTable.add_struct_type] using hnew
    · rw [htr]
      simp [add_struct_type_step, Outcome.state, struct_type_events, List.replicate_succ]

/-- The two ways one run of a struct-instance loop body can end. -/
theorem add_struct_step_cases (g : Env R V T S) (c : Context) (t : TableRef) (cnt : Nat)
    (s : State R V T S) :
    (∃ ty, (s.tables.get t).struct_types[(get_rand_value g 0 (u32_sub cnt 1) s).1]? = some ty ∧
      add_struct_step g c t cnt s = Outcome.returned
        { tables := s.tables.modify t (fun tb => tb.add_struct
            (g.Struct_generate c s.tables ty (get_rand_value g 0 (u32_sub cnt 1) s).2.rand_val_gen).1),
          rand_val_gen :=
            (g.Struct_generate c s.tables ty (get_rand_value g 0 (u32_sub cnt 1) s).2.rand_val_gen).2,
          trace := s.trace ++
            [Event.get_rand_value 0 (u32_sub cnt 1) (get_rand_value g 0 (u32_sub cnt 1) s).1,
             Event.Struct_generate c (get_rand_value g 0 (u32_sub cnt 1) s).1,
             Event.add_struct t] }) ∨
    ((s.tables.get t).struct_types[(get_rand_value g 0 (u32_sub cnt 1) s).1]? = none ∧
      add_struct_step g c t cnt s = Outcome.out_of_range (get_rand_value g 0 (u32_sub cnt 1) s).2) := by
  cases h : (s.tables.get t).struct_types[(get_rand_value g 0 (u32_sub cnt 1) s).1]? with
  | none =>
    right
    refine ⟨rfl, ?_⟩
    simp only [add_struct_step, get_rand_value_tables, h]
  | some ty =>
    left
    refine ⟨ty, rfl, ?_⟩
    simp only [add_struct_step, get_rand_value_tables, h, get_rand_value_trace, List.append_assoc,
      List.singleton_append]

/-- A struct-instance loop never touches a struct-type pool or a
scalar variable, however it ends. -/
theorem struct_loop_frame (g : Env R V T S) (c : Context) (t : TableRef) (cnt : Nat)
    (n : Nat) (s : State R V T S) :
    (∀ q, ((for_loop (add_struct_step g c t cnt) n s).state.tables.get q).struct_types =
      (s.tables.get q).struct_types) ∧
    (∀ q, ((for_loop (add_struct_step g c t cnt) n s).state.tables.get q).vars =
      (s.tables.get q).vars) := by
  refine for_loop_state_rel (add_struct_step g c t cnt)
    (fun a b => (∀ q, (b.tables.get q).struct_types = (a.tables.get q).struct_types) ∧
      (∀ q, (b.tables.get q).vars = (a.tables.get q).vars))
    (fun _ => ⟨fun _ => rfl, fun _ => rfl⟩)
    (fun a b c hab hbc => ⟨fun q => (hbc.1 q).trans (hab.1 q),
      fun q => (hbc.2 q).trans (hab.2 q)⟩) ?_ n s
  intro a
  rcases add_struct_step_cases g c t cnt a with ⟨ty, _, h⟩ | ⟨_, h⟩
  · rw [h]
    exact ⟨fun q => by simp [Outcome.state], fun q => by simp [Outcome.state]⟩
  · rw [h]
    exact ⟨fun _ => rfl, fun _ => rfl⟩

/-- What a struct-instance loop of `n` runs has done when it returns:
`n` instances were added to `table`, the other instance lists are as before, and
the calls are those of `n` runs with some drawn indices. -/
theorem struct_loop_returned (g : Env R V T S) (c : Context) (t : TableRef) (cnt : Nat) :
    ∀ (n : Nat) (s s2 : State R V T S),
      for_loop (add_struct_step g c t cnt) n s = Outcome.returned s2 →
      (∀ q, q ≠ t → (s2.tables.get q).structs = (s.tables.get q).structs) ∧
      (s2.tables.get t).structs.length = (s.tables.get t).structs.length + n ∧
      ∃ indx : List Nat, indx.length = n ∧
        (∀ i ∈ indx, i < (s.tables.get t).struct_types.length) ∧
        s2.trace = s.trace ++ struct_events c t (u32_sub cnt 1) indx := by
  refine for_loop_returned_rel (add_struct_step g c t cnt)
    (fun n s s2 =>
      (∀ q, q ≠ t → (s2.tables.get q).structs = (s.tables.get q).structs) ∧
      (s2.tables.get t).structs.length = (s.tables.get t).structs.length + n ∧
      ∃ indx : List Nat, indx.length = n ∧
        (∀ i ∈ indx, i < (s.tables.get t).struct_types.length) ∧
        s2.trace = s.trace ++ struct_events c t (u32_sub cnt 1) indx) ?_ ?_
  · intro s
    exact ⟨fun _ _ => rfl, rfl, [], rfl, by simp, by simp [struct_events]⟩
  · intro k s s1 s2 hb ⟨hst, hlen, indx, hil, hib, htr⟩
    rcases add_struct_step_cases g c t cnt s with ⟨ty, hty, h⟩ | ⟨_, h⟩
    · rw [h] at hb
      simp only [Outcome.returned.injEq] at hb
      subst hb
      refine ⟨?_, ?_, (get_rand_value g 0 (u32_sub cnt 1) s).1 :: indx, by simp [hil], ?_, ?_⟩
      · intro q hq
        rw [hst q hq]
        exact congrArg SymbolTable.structs (Tables.get_modify_other _ _ _ _ hq)
      · rw [hlen]
        simp [SymbolTable.add_struct]
        omega
      · intro i hi
        rcases List.mem_cons.mp hi with rfl | hi
        · have := List.getElem?_eq_some.mp hty
          exact this.1
        · simpa using hib i hi
      · rw [htr]
        simp [struct_events]
    · rw [h] at hb
      exact absurd hb (by simp)

/-- A struct-instance loop returns when the randomness source keeps its
contract and the pool of `table` holds at least `cnt` types, `cnt` non-zero:
every index drawn is below `cnt`, so `.at` finds a type. -/
theorem struct_loop_returns (g : Env R V T S) (hg : RangeOK g) (c : Context) (t : TableRef)
    (cnt : Nat) (hcnt : cnt ≠ 0) (n : Nat) (s : State R V T S)
    (hs : cnt ≤ (s.tables.get t).struct_types.length) :
    ∃ s2, for_loop (add_struct_step g c t cnt) n s = Outcome.returned s2 := by
  have hbody : ∀ a : State R V T S, cnt ≤ (a.tables.get t).struct_types.length →
      ∃ a1, add_struct_step g c t cnt a = Outcome.returned a1 ∧
        cnt ≤ (a1.tables.get t).struct_types.length := by
    intro a ha
    rcases add_struct_step_cases g c t cnt a with ⟨ty, _, h⟩ | ⟨hnone, h⟩
    · refine ⟨_, h, ?_⟩
      simpa using ha
    · exfalso
      have hr := (get_rand_value_range g hg 0 (u32_sub cnt 1) a (Nat.zero_le _)).2
      have hlt := u32_sub_one_lt cnt hcnt
      have : (get_rand_value g 0 (u32_sub cnt 1) a).1 < (a.tables.get t).struct_types.length := by
        omega
      rw [List.getElem?_eq_getElem this] at hnone
      exact absurd hnone (by simp)
  obtain ⟨s2, h2, _⟩ := for_loop_returns (add_struct_step g c t cnt)
    (fun a => cnt ≤ (a.tables.get t).struct_types.length) hbody n s hs
  exact ⟨s2, h2⟩

theorem Outcome.bind_eq_returned {σ : Type} (o : Outcome σ) (f : σ → Outcome σ) (s2 : σ) :
    o.bind f = Outcome.returned s2 ↔ ∃ s1, o = Outcome.returned s1 ∧ f s1 = Outcome.returned s2 := by
  cases o with
  | returned s1 => simp [Outcome.bind]
  | out_of_range s1 => simp [Outcome.bind]

/-- Lines 52-61 under the root context: the scalar part always returns; it
adds as many input and mixed scalars as the two count draws say and touches
nothing else. `r` is the generator state the mixed count was drawn in. -/
theorem form_scalars_spec (g : Env R V T S) (p : GenPolicy) (s : State R V T S) :
    ∃ (s2 : State R V T S) (r : R),
      form_scalars g (root_ctx p) s = Outcome.returned s2 ∧
      (∀ q, (s2.tables.get q).struct_types = (s.tables.get q).struct_types) ∧
      (∀ q, (s2.tables.get q).structs = (s.tables.get q).structs) ∧
      s2.tables.extern_inp_sym_table.vars.length =
        s.tables.extern_inp_sym_table.vars.length +
          (g.get_rand_value s.rand_val_gen p.min_inp_var_count p.max_inp_var_count).1 ∧
      s2.tables.extern_mix_sym_table.vars.length =
        s.tables.extern_mix_sym_table.vars.length +
          (g.get_rand_value r p.min_mix_var_count p.max_mix_var_count).1 ∧
      s2.tables.extern_out_sym_table.vars = s.tables.extern_out_sym_table.vars ∧
      s2.trace = s.trace ++
        (Event.get_rand_value p.min_inp_var_count p.max_inp_var_count
            (g.get_rand_value s.rand_val_gen p.min_inp_var_count p.max_inp_var_count).1 ::
          scalar_events (const_ctx (root_ctx p)) TableRef.inp
            (g.get_rand_value s.rand_val_gen p.min_inp_var_count p.max_inp_var_count).1) ++
        (Event.get_rand_value p.min_mix_var_count p.max_mix_var_count
            (g.get_rand_value r p.min_mix_var_count p.max_mix_var_count).1 ::
          scalar_events (root_ctx p) TableRef.mix
            (g.get_rand_value r p.min_mix_var_count p.max_mix_var_count).1) := by
  obtain ⟨s1, h1, hty1, hst1, hv1, hlen1, htr1⟩ :=
    scalar_loop_spec g (const_ctx (root_ctx p)) TableRef.inp
      (get_rand_value g p.min_inp_var_count p.max_inp_var_count s).1
      (get_rand_value g p.min_inp_var_count p.max_inp_var_count s).2
  obtain ⟨s2, h2, hty2, hst2, hv2, hlen2, htr2⟩ :=
    scalar_loop_spec g (root_ctx p) TableRef.mix
      (get_rand_value g p.min_mix_var_count p.max_mix_var_count s1).1
      (get_rand_value g p.min_mix_var_count p.max_mix_var_count s1).2
  refine ⟨s2, s1.rand_val_gen, ?_, ?_, ?_, ?_, ?_, ?_, ?_⟩
  · unfold form_scalars
    exact (Outcome.bind_eq_returned _ _ _).mpr ⟨s1, h1, h2⟩
  · intro q
    rw [hty2 q, get_rand_value_tables, hty1 q, get_rand_value_tables]
  · intro q
    rw [hst2 q, get_rand_value_tables, hst1 q, get_rand_value_tables]
  · have := hv2 TableRef.inp (by decide)
    simp only [Tables.get, get_rand_value_tables] at this hlen1
    rw [this, hlen1]
    rfl
  · simp only [Tables.get, get_rand_value_tables] at hlen2
    have := hv1 TableRef.mix (by decide)
    simp only [Tables.get, get_rand_value_tables] at this
    rw [hlen2, this]
    rfl
  · have a := hv2 TableRef.out (by decide)
    have b := hv1 TableRef.out (by decide)
    simp only [Tables.get, get_rand_value_tables] at a b
    rw [a, b]
  · rw [htr2, get_rand_value_trace, htr1, get_rand_value_trace]
    simp [get_rand_value]

/-- Lines 76-93 never touch a struct-type pool or a scalar variable, however
they end. -/
theorem form_structs_frame (g : Env R V T S) (ctx : Context) (cnt : Nat)
    (s : State R V T S) :
    (∀ q, ((form_structs g ctx cnt s).state.tables.get q).struct_types =
      (s.tables.get q).struct_types) ∧
    (∀ q, ((form_structs g ctx cnt s).state.tables.get q).vars = (s.tables.get q).vars) := by
  have key : ∀ (c : Context) (t : TableRef) (lo hi : Nat) (a : State R V T S),
      (∀ q, ((for_loop (add_struct_step g c t cnt) (get_rand_value g lo hi a).1
          (get_rand_value g lo hi a).2).state.tables.get q).struct_types = (a.tables.get q).struct_types) ∧
      (∀ q, ((for_loop (add_struct_step g c t cnt) (get_rand_value g lo hi a).1
          (get_rand_value g lo hi a).2).state.tables.get q).vars = (a.tables.get q).vars) := by
    intro c t lo hi a
    exact struct_loop_frame g c t cnt (get_rand_value g lo hi a).1 (get_rand_value g lo hi a).2
  unfold form_structs
  dsimp only
  have k1 := key (const_ctx ctx) ctx.extern_inp_sym_table
    ctx.gen_policy.min_inp_struct_count ctx.gen_policy.max_inp_struct_count s
  cases h1 : for_loop (add_struct_step g (const_ctx ctx) ctx.extern_inp_sym_table cnt)
      (get_rand_value g ctx.gen_policy.min_inp_struct_count ctx.gen_policy.max_inp_struct_count s).1
      (get_rand_value g ctx.gen_policy.min_inp_struct_count ctx.gen_policy.max_inp_struct_count s).2 with
  | out_of_range s1 =>
    rw [h1] at k1
    exact k1
  | returned s1 =>
    rw [h1] at k1
    have k2 := key ctx ctx.extern_mix_sym_table
      ctx.gen_policy.min_mix_struct_count ctx.gen_policy.max_mix_struct_count s1
    simp only [Outcome.bind]
    cases h2 : for_loop (add_struct_step g ctx ctx.extern_mix_sym_table cnt)
        (get_rand_value g ctx.gen_policy.min_mix_struct_count ctx.gen_policy.max_mix_struct_count s1).1
        (get_rand_value g ctx.gen_policy.min_mix_struct_count ctx.gen_policy.max_mix_struct_count s1).2 with
    | out_of_range s2 =>
      rw [h2] at k2
      exact ⟨fun q => (k2.1 q).trans (k1.1 q), fun q => (k2.2 q).trans (k1.2 q)⟩
    | returned s2 =>
      rw [h2] at k2
      have k3 := key ctx ctx.extern_out_sym_table
        ctx.gen_policy.min_out_struct_count ctx.gen_policy.max_out_struct_count s2
      simp only [Outcome.bind]
      exact ⟨fun q => ((k3.1 q).trans (k2.1 q)).trans (k1.1 q),
        fun q => ((k3.2 q).trans (k2.2 q)).trans (k1.2 q)⟩

/-- Lines 76-93 under the root context, when they return: each table got as
many instances as its count draw said, every index drawn was a valid index
into the pool, and the calls came in the order input, mixed, output. `rI`,
`rM`, `rO` are the generator states the three counts were drawn in. -/
theorem form_structs_returned (g : Env R V T S) (p : GenPolicy) (cnt : Nat)
    (s s3 : State R V T S) (h : form_structs g (root_ctx p) cnt s = Outcome.returned s3) :
    ∃ (rI rM rO : R) (iI iM iO : List Nat),
      iI.length = (g.get_rand_value rI p.min_inp_struct_count p.max_inp_struct_count).1 ∧
      iM.length = (g.get_rand_value rM p.min_mix_struct_count p.max_mix_struct_count).1 ∧
      iO.length = (g.get_rand_value rO p.min_out_struct_count p.max_out_struct_count).1 ∧
      s3.tables.extern_inp_sym_table.structs.length =
        s.tables.extern_inp_sym_table.structs.length + iI.length ∧
      s3.tables.extern_mix_sym_table.structs.length =
        s.tables.extern_mix_sym_table.structs.length + iM.length ∧
      s3.tables.extern_out_sym_table.structs.length =
        s.tables.extern_out_sym_table.structs.length + iO.length ∧
      (∀ i ∈ iI, i < s.tables.extern_inp_sym_table.struct_types.length) ∧
      (∀ i ∈ iM, i < s.tables.extern_mix_sym_table.struct_types.length) ∧
      (∀ i ∈ iO, i < s.tables.extern_out_sym_table.struct_types.length) ∧
      s3.trace = s.trace ++
        (Event.get_rand_value p.min_inp_struct_count p.max_inp_struct_count iI.length ::
          struct_events (const_ctx (root_ctx p)) TableRef.inp (u32_sub cnt 1) iI) ++
        (Event.get_rand_value p.min_mix_struct_count p.max_mix_struct_count iM.length ::
          struct_events (root_ctx p) TableRef.mix (u32_sub cnt 1) iM) ++
        (Event.get_rand_value p.min_out_struct_count p.max_out_struct_count iO.length ::
          struct_events (root_ctx p) TableRef.out (u32_sub cnt 1) iO) := by
  unfold form_structs at h
  obtain ⟨s2, h12, h3⟩ := (Outcome.bind_eq_returned _ _ _).mp h
  obtain ⟨s1, h1, h2⟩ := (Outcome.bind_eq_returned _ _ _).mp h12
  have h1 : for_loop (add_struct_step g (const_ctx (root_ctx p)) TableRef.inp cnt)
      (get_rand_value g p.min_inp_struct_count p.max_inp_struct_count s).1
      (get_rand_value g p.min_inp_struct_count p.max_inp_struct_count s).2 = Outcome.returned s1 := h1
  have h2 : for_loop (add_struct_step g (root_ctx p) TableRef.mix cnt)
      (get_rand_value g p.min_mix_struct_count p.max_mix_struct_count s1).1
      (get_rand_value g p.min_mix_struct_count p.max_mix_struct_count s1).2 = Outcome.returned s2 := h2
  have h3 : for_loop (add_struct_step g (root_ctx p) TableRef.out cnt)
      (get_rand_value g p.min_out_struct_count p.max_out_struct_count s2).1
      (get_rand_value g p.min_out_struct_count p.max_out_struct_count s2).2 = Outcome.returned s3 := h3
  have f1 := (struct_loop_frame g (const_ctx (root_ctx p)) TableRef.inp cnt
    (get_rand_value g p.min_inp_struct_count p.max_inp_struct_count s).1
    (get_rand_value g p.min_inp_struct_count p.max_inp_struct_count s).2).1
  have f2 := (struct_loop_frame g (root_ctx p) TableRef.mix cnt
    (get_rand_value g p.min_mix_struct_count p.max_mix_struct_count s1).1
    (get_rand_value g p.min_mix_struct_count p.max_mix_struct_count s1).2).1
  rw [h1] at f1
  rw [h2] at f2
  simp only [Outcome.state, get_rand_value_tables] at f1 f2
  obtain ⟨a1, b1, iI, c1, d1, e1⟩ := struct_loop_returned g _ _ _ _ _ _ h1
  obtain ⟨a2, b2, iM, c2, d2, e2⟩ := struct_loop_returned g _ _ _ _ _ _ h2
  obtain ⟨a3, b3, iO, c3, d3, e3⟩ := struct_loop_returned g _ _ _ _ _ _ h3
  simp only [get_rand_value_tables] at a1 a2 a3 b1 b2 b3 d1 d2 d3
  refine ⟨s.rand_val_gen, s1.rand_val_gen, s2.rand_val_gen, iI, iM, iO, c1, c2, c3,
    ?_, ?_, ?_, ?_, ?_, ?_, ?_⟩
  · have x3 := a3 TableRef.inp (by decide)
    have x2 := a2 TableRef.inp (by decide)
    simp only [Tables.get] at x3 x2 b1
    rw [x3, x2, b1, c1]
  · have x3 := a3 TableRef.mix (by decide)
    have x1 := a1 TableRef.mix (by decide)
    simp only [Tables.get] at x3 x1 b2
    rw [x3, b2, x1, c2]
  · have x2 := a2 TableRef.out (by decide)
    have x1 := a1 TableRef.out (by decide)
    simp only [Tables.get] at x2 x1 b3
    rw [b3, x2, x1, c3]
  · exact d1
  · intro i hi
    have := d2 i hi
    rw [f1 TableRef.mix] at this
    exact this
  · intro i hi
    have := d3 i hi
    rw [f2 TableRef.out, f1 TableRef.out] at this
    exact this
  · rw [e3, get_rand_value_trace, e2, get_rand_value_trace, e1, get_rand_value_trace, c1, c2, c3]
    simp

/-- Lines 76-93 return when the randomness source keeps its contract and
each of the three pools holds at least `cnt` types, `cnt` non-zero. -/
theorem form_structs_returns (g : Env R V T S) (hg : RangeOK g) (p : GenPolicy) (cnt : Nat)
    (hcnt : cnt ≠ 0) (s : State R V T S)
    (hs : ∀ q, cnt ≤ (s.tables.get q).struct_types.length) :
    ∃ s3, form_structs g (root_ctx p) cnt s = Outcome.returned s3 := by
  obtain ⟨s1, h1⟩ := struct_loop_returns g hg (const_ctx (root_ctx p)) TableRef.inp cnt hcnt
    (get_rand_value g p.min_inp_struct_count p.max_inp_struct_count s).1
    (get_rand_value g p.min_inp_struct_count p.max_inp_struct_count s).2 (hs TableRef.inp)
  have f1 := (struct_loop_frame g (const_ctx (root_ctx p)) TableRef.inp cnt
    (get_rand_value g p.min_inp_struct_count p.max_inp_struct_count s).1
    (get_rand_value g p.min_inp_struct_count p.max_inp_struct_count s).2).1
  rw [h1] at f1
  simp only [Outcome.state, get_rand_value_tables] at f1
  obtain ⟨s2, h2⟩ := struct_loop_returns g hg (root_ctx p) TableRef.mix cnt hcnt
    (get_rand_value g p.min_mix_struct_count p.max_mix_struct_count s1).1
    (get_rand_value g p.min_mix_struct_count p.max_mix_struct_count s1).2
    (by rw [get_rand_value_tables, f1 TableRef.mix]; exact hs TableRef.mix)
  have f2 := (struct_loop_frame g (root_ctx p) TableRef.mix cnt
    (get_rand_value g p.min_mix_struct_count p.max_mix_struct_count s1).1
    (get_rand_value g p.min_mix_struct_count p.max_mix_struct_count s1).2).1
  rw [h2] at f2
  simp only [Outcome.state, get_rand_value_tables] at f2
  obtain ⟨s3, h3⟩ := struct_loop_returns g hg (root_ctx p) TableRef.out cnt hcnt
    (get_rand_value g p.min_out_struct_count p.max_out_struct_count s2).1
    (get_rand_value g p.min_out_struct_count p.max_out_struct_count s2).2
    (by rw [get_rand_value_tables, f2 TableRef.out, f1 TableRef.out]; exact hs TableRef.out)
  refine ⟨s3, ?_⟩
  unfold form_structs
  exact (Outcome.bind_eq_returned _ _ _).mpr
    ⟨s2, (Outcome.bind_eq_returned _ _ _).mpr ⟨s1, h1, h2⟩, h3⟩

/-- The whole call is the struct part run on the state the scalar part
returns. -/
theorem form_extern_sym_table_eq (g : Env R V T S) (p : GenPolicy) (s s2 : State R V T S)
    (h : form_scalars g (root_ctx p) s = Outcome.returned s2) :
    form_extern_sym_table g (root_ctx p) s = form_struct_part g (root_ctx p) s2 ∧
    struct_type_count g (root_ctx p) s =
      (get_rand_value g p.min_struct_type_count p.max_struct_type_count s2).1 := by
  unfold form_extern_sym_table struct_type_count
  rw [h]
  exact ⟨rfl, rfl⟩

/-- A zero `struct_type_count` ends the call right after its draw. -/
theorem form_struct_part_zero (g : Env R V T S) (p : GenPolicy) (s : State R V T S)
    (h : (get_rand_value g p.min_struct_type_count p.max_struct_type_count s).1 = 0) :
    form_struct_part g (root_ctx p) s =
      Outcome.returned (get_rand_value g p.min_struct_type_count p.max_struct_type_count s).2 := by
  unfold form_struct_part
  exact if_pos h

/-- With a non-zero `struct_type_count` the struct-type loop runs to its end
and the instance loops start from the state it leaves. -/
theorem form_struct_part_nonzero (g : Env R V T S) (p : GenPolicy) (s : State R V T S)
    (h : (get_rand_value g p.min_struct_type_count p.max_struct_type_count s).1 ≠ 0) :
    ∃ (s3 : State R V T S) (new : List T),
      form_struct_part g (root_ctx p) s =
        form_structs g (root_ctx p)
          (get_rand_value g p.min_struct_type_count p.max_struct_type_count s).1 s3 ∧
      new.length = (get_rand_value g p.min_struct_type_count p.max_struct_type_count s).1 ∧
      (∀ q, (s3.tables.get q).struct_types = (s.tables.get q).struct_types ++ new) ∧
      (∀ q, (s3.tables.get q).vars = (s.tables.get q).vars) ∧
      (∀ q, (s3.tables.get q).structs = (s.tables.get q).structs) ∧
      (∀ (i : Nat) (_ : i < new.length), ∃ (tabs : Tables V T S) (r : R),
        (∀ q, (tabs.get q).struct_types = (s.tables.get q).struct_types ++ new.take i) ∧
        new[i] = (g.StructType_generate (root_ctx p) tabs
          (s.tables.extern_inp_sym_table.struct_types ++ new.take i) r).1) ∧
      s3.trace = s.trace ++
        (Event.get_rand_value p.min_struct_type_count p.max_struct_type_count
            (get_rand_value g p.min_struct_type_count p.max_struct_type_count s).1 ::
          struct_type_events (root_ctx p)
            (get_rand_value g p.min_struct_type_count p.max_struct_type_count s).1) := by
  obtain ⟨s3, new, h3, hlen, hty, hv, hst, hch, htr⟩ :=
    struct_type_loop_spec g p (get_rand_value g p.min_struct_type_count p.max_struct_type_count s).1
      (get_rand_value g p.min_struct_type_count p.max_struct_type_count s).2
  refine ⟨s3, new, ?_, hlen, hty, hv, hst, hch, ?_⟩
  · unfold form_struct_part
    refine (if_neg h).trans ?_
    show (for_loop (add_struct_type_step g (root_ctx p))
      (get_rand_value g p.min_struct_type_count p.max_struct_type_count s).1
      (get_rand_value g p.min_struct_type_count p.max_struct_type_count s).2).bind _ = _
    rw [h3]
    rfl
  · rw [htr, get_rand_value_trace]
    simp

theorem get_rand_value_sim (g : Env R V T S) (rel : R → R → Prop) (hg : g.Respects rel)
    (lo hi : Nat) (a b : State R V T S) (hab : State.Sim rel a b) :
    (get_rand_value g lo hi a).1 = (get_rand_value g lo hi b).1 ∧
    State.Sim rel (get_rand_value g lo hi a).2 (get_rand_value g lo hi b).2 := by
  obtain ⟨ht, htr, hr⟩ := hab
  obtain ⟨hv, hr2⟩ := hg.get_rand_value _ _ lo hi hr
  refine ⟨hv, ht, ?_, hr2⟩
  simp only [get_rand_value_trace, htr, get_rand_value, hv]

theorem Outcome.bind_sim (rel : R → R → Prop) (o1 o2 : Outcome (State R V T S))
    (f1 f2 : State R V T S → Outcome (State R V T S)) (ho : Outcome.Sim rel o1 o2)
    (hf : ∀ a b, State.Sim rel a b → Outcome.Sim rel (f1 a) (f2 b)) :
    Outcome.Sim rel (o1.bind f1) (o2.bind f2) := by
  cases o1 <;> cases o2 <;> first | exact hf _ _ ho | exact False.elim ho | exact ho

theorem for_loop_sim (rel : R → R → Prop)
    (body : State R V T S → Outcome (State R V T S))
    (hb : ∀ a b, State.Sim rel a b → Outcome.Sim rel (body a) (body b)) :
    ∀ (n : Nat) (a b : State R V T S), State.Sim rel a b →
      Outcome.Sim rel (for_loop body n a) (for_loop body n b) := by
  intro n
  induction n with
  | zero => intro a b hab; exact hab
  | succ k ih =>
    intro a b hab
    exact Outcome.bind_sim rel _ _ _ _ (hb a b hab) ih

theorem counted_loop_sim (g : Env R V T S) (rel : R → R → Prop) (hg : g.Respects rel)
    (body : State R V T S → Outcome (State R V T S))
    (hb : ∀ a b, State.Sim rel a b → Outcome.Sim rel (body a) (body b))
    (lo hi : Nat) (a b : State R V T S) (hab : State.Sim rel a b) :
    Outcome.Sim rel (for_loop body (get_rand_value g lo hi a).1 (get_rand_value g lo hi a).2)
      (for_loop body (get_rand_value g lo hi b).1 (get_rand_value g lo hi b).2) := by
  obtain ⟨hv, hs⟩ := get_rand_value_sim g rel hg lo hi a b hab
  rw [hv]
  exact for_loop_sim rel body hb _ _ _ hs

theorem add_scalar_step_sim (g : Env R V T S) (rel : R → R → Prop) (hg : g.Respects rel)
    (c : Context) (t : TableRef) (a b : State R V T S) (hab : State.Sim rel a b) :
    Outcome.Sim rel (add_scalar_step g c t a) (add_scalar_step g c t b) := by
  obtain ⟨ta, ra, tra⟩ := a
  obtain ⟨tb, rb, trb⟩ := b
  obtain ⟨ht, htr, hr⟩ := hab
  simp only at ht htr hr
  subst ht htr
  obtain ⟨hv, hr2⟩ := hg.ScalarVariable_generate c ta _ _ hr
  simp only [add_scalar_step, Outcome.Sim, State.Sim, hv, true_and]
  exact hr2

theorem add_struct_type_step_sim (g : Env R V T S) (rel : R → R → Prop)
    (hg : g.Respects rel) (c : Context) (a b : State R V T S) (hab : State.Sim rel a b) :
    Outcome.Sim rel (add_struct_type_step g c a) (add_struct_type_step g c b) := by
  obtain ⟨ta, ra, tra⟩ := a
  obtain ⟨tb, rb, trb⟩ := b
  obtain ⟨ht, htr, hr⟩ := hab
  simp only at ht htr hr
  subst ht htr
  obtain ⟨hv, hr2⟩ := hg.StructType_generate c ta
    (ta.get c.extern_inp_sym_table).struct_types _ _ hr
  simp only [add_struct_type_step, Outcome.Sim, State.Sim, hv, true_and]
  exact hr2

theorem add_struct_step_sim (g : Env R V T S) (rel : R → R → Prop) (hg : g.Respects rel)
    (c : Context) (t : TableRef) (cnt : Nat) (a b : State R V T S)
    (hab : State.Sim rel a b) :
    Outcome.Sim rel (add_struct_step g c t cnt a) (add_struct_step g c t cnt b) := by
  obtain ⟨hv, ht, htr, hr⟩ := get_rand_value_sim g rel hg 0 (u32_sub cnt 1) a b hab
  have ht0 : a.tables = b.tables := hab.1
  have htr0 : a.trace = b.trace := hab.2.1
  rcases add_struct_step_cases g c t cnt a with ⟨ty, hty, ha⟩ | ⟨hnone, ha⟩
  · rcases add_struct_step_cases g c t cnt b with ⟨ty2, hty2, hb⟩ | ⟨hnone2, hb⟩
    · rw [ha, hb]
      rw [ht0, hv, hty2] at hty
      simp only [Option.some.injEq] at hty
      subst hty
      obtain ⟨hx, hr2⟩ := hg.Struct_generate c b.tables ty2 _ _ hr
      simp only [Outcome.Sim, State.Sim, ht0, htr0, hv, hx, true_and]
      exact hr2
    · rw [ht0, hv, hnone2] at hty
      exact absurd hty (by simp)
  · rcases add_struct_step_cases g c t cnt b with ⟨ty2, hty2, hb⟩ | ⟨hnone2, hb⟩
    · rw [ht0, hv, hty2] at hnone
      exact absurd hnone (by simp)
    · rw [ha, hb]
      exact ⟨ht, htr, hr⟩

theorem form_scalars_sim (g : Env R V T S) (rel : R → R → Prop) (hg : g.Respects rel)
    (ctx : Context) (a b : State R V T S) (hab : State.Sim rel a b) :
    Outcome.Sim rel (form_scalars g ctx a) (form_scalars g ctx b) := by
  unfold form_scalars
  refine Outcome.bind_sim rel _ _ _ _
    (counted_loop_sim g rel hg _ (add_scalar_step_sim g rel hg _ _) _ _ a b hab) ?_
  intro a1 b1 h1
  exact counted_loop_sim g rel hg _ (add_scalar_step_sim g rel hg _ _) _ _ a1 b1 h1

theorem form_structs_sim (g : Env R V T S) (rel : R → R → Prop) (hg : g.Respects rel)
    (ctx : Context) (cnt : Nat) (a b : State R V T S) (hab : State.Sim rel a b) :
    Outcome.Sim rel (form_structs g ctx cnt a) (form_structs g ctx cnt b) := by
  unfold form_structs
  refine Outcome.bind_sim rel _ _ _ _ (Outcome.bind_sim rel _ _ _ _
    (counted_loop_sim g rel hg _ (add_struct_step_sim g rel hg _ _ _) _ _ a b hab) ?_) ?_
  · intro a1 b1 h1
    exact counted_loop_sim g rel hg _ (add_struct_step_sim g rel hg _ _ _) _ _ a1 b1 h1
  · intro a2 b2 h2
    exact counted_loop_sim g rel hg _ (add_struct_step_sim g rel hg _ _ _) _ _ a2 b2 h2

theorem form_struct_part_sim (g : Env R V T S) (rel : R → R → Prop) (hg : g.Respects rel)
    (ctx : Context) (a b : State R V T S) (hab : State.Sim rel a b) :
    Outcome.Sim rel (form_struct_part g ctx a) (form_struct_part g ctx b) := by
  obtain ⟨hv, hs⟩ := get_rand_value_sim g rel hg ctx.gen_policy.min_struct_type_count
    ctx.gen_policy.max_struct_type_count a b hab
  unfold form_struct_part
  dsimp only
  rw [hv]
  by_cases h0 : (get_rand_value g ctx.gen_policy.min_struct_type_count
      ctx.gen_policy.max_struct_type_count b).1 = 0
  · rw [if_pos h0, if_pos h0]
    exact hs
  · rw [if_neg h0, if_neg h0]
    refine Outcome.bind_sim rel _ _ _ _
      (for_loop_sim rel _ (add_struct_type_step_sim g rel hg ctx) _ _ _ hs) ?_
    intro a1 b1 h1
    exact form_structs_sim g rel hg ctx _ a1 b1 h1

theorem tape_sim_tail (r1 r2 : List Nat) (h : tape_sim r1 r2) :
    r1.headD 0 = r2.headD 0 ∧ tape_sim r1.tail r2.tail := by
  constructor
  · have h0 := h 0
    cases r1 <;> cases r2 <;> simp at h0 ⊢ <;> exact h0
  · intro i
    have hi := h (i + 1)
    have hz := h i
    cases r1 with
    | nil =>
      cases r2 with
      | nil => rfl
      | cons y ys => simpa using hi
    | cons x xs =>
      cases r2 with
      | nil => simpa using hi
      | cons y ys => simpa using hi

theorem tape_env_respects : tape_env.Respects tape_sim where
  get_rand_value := by
    intro r1 r2 lo hi h
    obtain ⟨hh, ht⟩ := tape_sim_tail r1 r2 h
    refine ⟨?_, ht⟩
    show lo + r1.headD 0 % (hi - lo + 1) = lo + r2.headD 0 % (hi - lo + 1)
    rw [hh]
  ScalarVariable_generate := by
    intro c ts r1 r2 h
    obtain ⟨hh, ht⟩ := tape_sim_tail r1 r2 h
    exact ⟨hh, ht⟩
  StructType_generate := by
    intro c ts seen r1 r2 h
    exact ⟨rfl, h⟩
  Struct_generate := by
    intro c ts ty r1 r2 h
    obtain ⟨hh, ht⟩ := tape_sim_tail r1 r2 h
    refine ⟨?_, ht⟩
    show (ty, r1.headD 0) = (ty, r2.headD 0)
    rw [hh]

theorem tape_sim_pad (r : List Nat) (k : Nat) : tape_sim r (r ++ List.replicate k 0) := by
  intro i
  by_cases h : i < r.length
  · simp [List.getD_eq_getElem?_getD, List.getElem?_append_left h]
  · have h2 : r.length ≤ i := Nat.le_of_not_lt h
    simp only [List.getD_eq_getElem?_getD, List.getElem?_append_right h2,
      List.getElem?_eq_none h2, Option.getD_none]
    by_cases h3 : i - r.length < k
    · simp [List.getElem?_replicate, h3]
    · simp [List.getElem?_replicate, h3]

theorem u32_sub_one_eq (n : Nat) (h : n ≠ 0) : u32_sub n 1 = (n - 1) % 2 ^ 32 := by
  unfold u32_sub
  omega

/-- What a struct-instance loop has done when it returns, instance
by instance: the indices it drew are values the randomness source returned for
`[0, struct_type_count - 1]`, and the instances appended to `table` were
generated, in the same order, from the pool entries at those indices. -/
theorem struct_loop_instances (g : Env R V T S) (c : Context) (t : TableRef) (cnt : Nat) :
    ∀ (n : Nat) (s s2 : State R V T S),
      for_loop (add_struct_step g c t cnt) n s = Outcome.returned s2 →
      ∃ (indx : List Nat) (insts : List S), indx.length = n ∧
        (∀ i ∈ indx, ∃ r : R, i = (g.get_rand_value r 0 (u32_sub cnt 1)).1) ∧
        (s2.tables.get t).structs = (s.tables.get t).structs ++ insts ∧
        List.Forall₂ (InstanceOf g c (s.tables.get t).struct_types) indx insts ∧
        s2.trace = s.trace ++ struct_events c t (u32_sub cnt 1) indx := by
  refine for_loop_returned_rel (add_struct_step g c t cnt)
    (fun n s s2 =>
      ∃ (indx : List Nat) (insts : List S), indx.length = n ∧
        (∀ i ∈ indx, ∃ r : R, i = (g.get_rand_value r 0 (u32_sub cnt 1)).1) ∧
        (s2.tables.get t).structs = (s.tables.get t).structs ++ insts ∧
        List.Forall₂ (InstanceOf g c (s.tables.get t).struct_types) indx insts ∧
        s2.trace = s.trace ++ struct_events c t (u32_sub cnt 1) indx) ?_ ?_
  · intro s
    exact ⟨[], [], rfl, by simp, by simp, List.Forall₂.nil, by simp [struct_events]⟩
  · intro k s s1 s2 hb ⟨indx, insts, hil, hval, hst, hinst, htr⟩
    rcases add_struct_step_cases g c t cnt s with ⟨ty, hty, h⟩ | ⟨_, h⟩
    · rw [h] at hb
      simp only [Outcome.returned.injEq] at hb
      subst hb
      refine ⟨(get_rand_value g 0 (u32_sub cnt 1) s).1 :: indx,
        (g.Struct_generate c s.tables ty
          (get_rand_value g 0 (u32_sub cnt 1) s).2.rand_val_gen).1 :: insts,
        by simp [hil], ?_, ?_, ?_, ?_⟩
      · intro i hi
        rcases List.mem_cons.mp hi with rfl | hi
        · exact ⟨s.rand_val_gen, rfl⟩
        · exact hval i hi
      · rw [hst]
        simp [SymbolTable.add_struct]
      · refine List.Forall₂.cons ⟨s.tables, _, ty, hty, rfl⟩ ?_
        simpa using hinst
      · rw [htr]
        simp [struct_events]
    · rw [h] at hb
      exact absurd hb (by simp)

/-- Lines 76-93 under the root context, when they return, instance
by instance: for each of the three tables the indices drawn, the instances
appended, and the calls made. Every index is a value the randomness source
returned for `[0, cnt - 1]`, and every instance was generated from the pool
entry at its index, the input instances under the const-allowing context and
the others under the context itself. -/
theorem form_structs_instances (g : Env R V T S) (p : GenPolicy) (cnt : Nat)
    (s s3 : State R V T S) (h : form_structs g (root_ctx p) cnt s = Outcome.returned s3) :
    ∃ (iI iM iO : List Nat) (xI xM xO : List S),
      (∀ i ∈ iI ++ iM ++ iO, ∃ r : R, i = (g.get_rand_value r 0 (u32_sub cnt 1)).1) ∧
      s3.tables.extern_inp_sym_table.structs =
        s.tables.extern_inp_sym_table.structs ++ xI ∧
      s3.tables.extern_mix_sym_table.structs =
        s.tables.extern_mix_sym_table.structs ++ xM ∧
      s3.tables.extern_out_sym_table.structs =
        s.tables.extern_out_sym_table.structs ++ xO ∧
      List.Forall₂ (InstanceOf g (const_ctx (root_ctx p))
        s.tables.extern_inp_sym_table.struct_types) iI xI ∧
      List.Forall₂ (InstanceOf g (root_ctx p)
        s.tables.extern_mix_sym_table.struct_types) iM xM ∧
      List.Forall₂ (InstanceOf g (root_ctx p)
        s.tables.extern_out_sym_table.struct_types) iO xO ∧
      s3.trace = s.trace ++
        (Event.get_rand_value p.min_inp_struct_count p.max_inp_struct_count iI.length ::
          struct_events (const_ctx (root_ctx p)) TableRef.inp (u32_sub cnt 1) iI) ++
        (Event.get_rand_value p.min_mix_struct_count p.max_mix_struct_count iM.length ::
          struct_events (root_ctx p) TableRef.mix (u32_sub cnt 1) iM) ++
        (Event.get_rand_value p.min_out_struct_count p.max_out_struct_count iO.length ::
          struct_events (root_ctx p) TableRef.out (u32_sub cnt 1) iO) := by
  unfold form_structs at h
  obtain ⟨s2, h12, h3⟩ := (Outcome.bind_eq_returned _ _ _).mp h
  obtain ⟨s1, h1, h2⟩ := (Outcome.bind_eq_returned _ _ _).mp h12
  have h1 : for_loop (add_struct_step g (const_ctx (root_ctx p)) TableRef.inp cnt)
      (get_rand_value g p.min_inp_struct_count p.max_inp_struct_count s).1
      (get_rand_value g p.min_inp_struct_count p.max_inp_struct_count s).2 =
        Outcome.returned s1 := h1
  have h2 : for_loop (add_struct_step g (root_ctx p) TableRef.mix cnt)
      (get_rand_value g p.min_mix_struct_count p.max_mix_struct_count s1).1
      (get_rand_value g p.min_mix_struct_count p.max_mix_struct_count s1).2 =
        Outcome.returned s2 := h2
  have h3 : for_loop (add_struct_step g (root_ctx p) TableRef.out cnt)
      (get_rand_value g p.min_out_struct_count p.max_out_struct_count s2).1
      (get_rand_value g p.min_out_struct_count p.max_out_struct_count s2).2 =
        Outcome.returned s3 := h3
  have f1 := (struct_loop_frame g (const_ctx (root_ctx p)) TableRef.inp cnt
    (get_rand_value g p.min_inp_struct_count p.max_inp_struct_count s).1
    (get_rand_value g p.min_inp_struct_count p.max_inp_struct_count s).2).1
  have f2 := (struct_loop_frame g (root_ctx p) TableRef.mix cnt
    (get_rand_value g p.min_mix_struct_count p.max_mix_struct_count s1).1
    (get_rand_value g p.min_mix_struct_count p.max_mix_struct_count s1).2).1
  rw [h1] at f1
  rw [h2] at f2
  simp only [Outcome.state, get_rand_value_tables] at f1 f2
  obtain ⟨a1, -, -⟩ := struct_loop_returned g _ _ _ _ _ _ h1
  obtain ⟨a2, -, -⟩ := struct_loop_returned g _ _ _ _ _ _ h2
  obtain ⟨a3, -, -⟩ := struct_loop_returned g _ _ _ _ _ _ h3
  obtain ⟨iI, xI, c1, v1, b1, d1, e1⟩ := struct_loop_instances g _ _ _ _ _ _ h1
  obtain ⟨iM, xM, c2, v2, b2, d2, e2⟩ := struct_loop_instances g _ _ _ _ _ _ h2
  obtain ⟨iO, xO, c3, v3, b3, d3, e3⟩ := struct_loop_instances g _ _ _ _ _ _ h3
  simp only [get_rand_value_tables] at a1 a2 a3 b1 b2 b3 d1 d2 d3
  rw [f1 TableRef.mix] at d2
  rw [f2 TableRef.out, f1 TableRef.out] at d3
  refine ⟨iI, iM, iO, xI, xM, xO, ?_, ?_, ?_, ?_, d1, d2, d3, ?_⟩
  · intro i hi
    rcases List.mem_append.mp hi with hi | hi
    · rcases List.mem_append.mp hi with hi | hi
      · exact v1 i hi
      · exact v2 i hi
    · exact v3 i hi
  · have x3 := a3 TableRef.inp (by decide)
    have x2 := a2 TableRef.inp (by decide)
    simp only [Tables.get] at x3 x2 b1
    rw [x3, x2, b1]
  · have x3 := a3 TableRef.mix (by decide)
    have x1 := a1 TableRef.mix (by decide)
    simp only [Tables.get] at x3 x1 b2
    rw [x3, b2, x1]
  · have x2 := a2 TableRef.out (by decide)
    have x1 := a1 TableRef.out (by decide)
    simp only [Tables.get] at x2 x1 b3
    rw [b3, x2, x1]
  · rw [e3, get_rand_value_trace, e2, get_rand_value_trace, e1, get_rand_value_trace,
      c1, c2, c3]
    simp

theorem generation_pairs_scalar_events (c : Context) (t : TableRef) (rest : List Event) :
    ∀ n : Nat, generation_pairs (scalar_events c t n ++ rest) =
      List.replicate n (c, t) ++ generation_pairs rest := by
  intro n
  induction n with
  | zero => simp [scalar_events]
  | succ k ih =>
    have hk : scalar_events c t (k + 1) ++ rest =
        Event.ScalarVariable_generate c :: Event.add_variable t ::
          (scalar_events c t k ++ rest) := by
      simp [scalar_events, List.replicate_succ]
    rw [hk]
    simp [generation_pairs, ih, List.replicate_succ]

theorem generation_pairs_struct_type_events (c : Context) (rest : List Event) :
    ∀ n : Nat, generation_pairs (struct_type_events c n ++ rest) = generation_pairs rest := by
  intro n
  induction n with
  | zero => simp [struct_type_events]
  | succ k ih =>
    have hk : struct_type_events c (k + 1) ++ rest =
        Event.StructType_generate c :: Event.add_struct_type c.extern_inp_sym_table ::
          Event.add_struct_type c.extern_out_sym_table ::
          Event.add_struct_type c.extern_mix_sym_table ::
          (struct_type_events c k ++ rest) := by
      simp [struct_type_events, List.replicate_succ]
    rw [hk]
    simp [generation_pairs, ih]

theorem generation_pairs_struct_events (c : Context) (t : TableRef) (hi : Nat)
    (rest : List Event) :
    ∀ indx : List Nat, generation_pairs (struct_events c t hi indx ++ rest) =
      List.replicate indx.length (c, t) ++ generation_pairs rest := by
  intro indx
  induction indx with
  | nil => simp [struct_events]
  | cons i is ih =>
    have hk : struct_events c t hi (i :: is) ++ rest =
        Event.get_rand_value 0 hi i :: Event.Struct_generate c i :: Event.add_struct t ::
          (struct_events c t hi is ++ rest) := by
      simp [struct_events]
    rw [hk]
    simp [generation_pairs, ih, List.replicate_succ]

theorem struct_type_contexts_append (a b : List Event) :
    struct_type_contexts (a ++ b) = struct_type_contexts a ++ struct_type_contexts b := by
  simp [struct_type_contexts]

theorem struct_type_contexts_scalar_events (c : Context) (t : TableRef) :
    ∀ n : Nat, struct_type_contexts (scalar_events c t n) = [] := by
  intro n
  induction n with
  | zero => simp [scalar_events, struct_type_contexts]
  | succ k ih =>
    have hk : scalar_events c t (k + 1) =
        [Event.ScalarVariable_generate c, Event.add_variable t] ++ scalar_events c t k := by
      simp [scalar_events, List.replicate_succ]
    rw [hk, struct_type_contexts_append, ih]
    rfl

theorem struct_type_contexts_struct_type_events (c : Context) :
    ∀ n : Nat, struct_type_contexts (struct_type_events c n) = List.replicate n c := by
  intro n
  induction n with
  | zero => simp [struct_type_events, struct_type_contexts]
  | succ k ih =>
    have hk : struct_type_events c (k + 1) =
        [Event.StructType_generate c, Event.add_struct_type c.extern_inp_sym_table,
          Event.add_struct_type c.extern_out_sym_table,
          Event.add_struct_type c.extern_mix_sym_table] ++ struct_type_events c k := by
      simp [struct_type_events, List.replicate_succ]
    rw [hk, struct_type_contexts_append, ih, List.replicate_succ]
    rfl

theorem struct_type_contexts_struct_events (c : Context) (t : TableRef) (hi : Nat) :
    ∀ indx : List Nat, struct_type_contexts (struct_events c t hi indx) = [] := by
  intro indx
  induction indx with
  | nil => simp [struct_events, struct_type_contexts]
  | cons i is ih =>
    have hk : struct_events c t hi (i :: is) =
        [Event.get_rand_value 0 hi i, Event.Struct_generate c i, Event.add_struct t] ++
          struct_events c t hi is := by
      simp [struct_events]
    rw [hk, struct_type_contexts_append, ih]
    rfl

theorem struct_type_contexts_get_rand_value (lo hi v : Nat) (rest : List Event) :
    struct_type_contexts (Event.get_rand_value lo hi v :: rest) =
      struct_type_contexts rest := by
  simp [struct_type_contexts]

theorem generation_pairs_get_rand_value (lo hi v : Nat) (rest : List Event) :
    generation_pairs (Event.get_rand_value lo hi v :: rest) = generation_pairs rest := by
  simp [generation_pairs]

/-- The generation contexts of a whole population run: input scalars and
input struct instances under the const-allowing context, mixed scalars and
mixed and output struct instances under the context itself. -/
theorem generation_pairs_population_events (ctx : Context) (nI nM nT : Nat)
    (iI iM iO : List Nat) :
    generation_pairs (population_events ctx nI nM nT iI iM iO) =
      List.replicate nI (const_ctx ctx, ctx.extern_inp_sym_table) ++
      List.replicate nM (ctx, ctx.extern_mix_sym_table) ++
      (if nT = 0 then []
       else
        List.replicate iI.length (const_ctx ctx, ctx.extern_inp_sym_table) ++
        List.replicate iM.length (ctx, ctx.extern_mix_sym_table) ++
        List.replicate iO.length (ctx, ctx.extern_out_sym_table)) := by
  have hlast : ∀ (c : Context) (t : TableRef) (hi : Nat) (indx : List Nat),
      generation_pairs (struct_events c t hi indx) = List.replicate indx.length (c, t) := by
    intro c t hi indx
    have h := generation_pairs_struct_events c t hi [] indx
    simpa [generation_pairs] using h
  unfold population_events
  by_cases h0 : nT = 0
  · simp only [if_pos h0, List.append_assoc, List.cons_append, List.nil_append,
      generation_pairs_get_rand_value, generation_pairs_scalar_events]
    simp [generation_pairs]
  · simp only [if_neg h0, List.append_assoc, List.cons_append, List.nil_append,
      generation_pairs_get_rand_value, generation_pairs_scalar_events,
      generation_pairs_struct_type_events, generation_pairs_struct_events, hlast]

/-- The struct-type generation contexts of a whole population run: always the
context itself. -/
theorem struct_type_contexts_population_events (ctx : Context) (nI nM nT : Nat)
    (iI iM iO : List Nat) :
    struct_type_contexts (population_events ctx nI nM nT iI iM iO) =
      List.replicate nT ctx := by
  unfold population_events
  by_cases h0 : nT = 0
  · simp only [if_pos h0, struct_type_contexts_append, struct_type_contexts_get_rand_value,
      struct_type_contexts_scalar_events, h0]
    simp [struct_type_contexts]
  · simp only [if_neg h0, struct_type_contexts_append, struct_type_contexts_get_rand_value,
      struct_type_contexts_scalar_events, struct_type_contexts_struct_type_events,
      struct_type_contexts_struct_events]
    simp

theorem Store.read_eq_some (m : Store) (ctx : Nat) (c : Context) :
    m.read ctx = some c ↔
      ∃ co : ContextObject, m.contexts[ctx]? = some co ∧
        m.policies[co.gen_policy]? = some c.gen_policy ∧
        co.extern_inp_sym_table = c.extern_inp_sym_table ∧
        co.extern_mix_sym_table = c.extern_mix_sym_table ∧
        co.extern_out_sym_table = c.extern_out_sym_table := by
  unfold Store.read
  cases hc : m.contexts[ctx]? with
  | none => simp
  | some co =>
    obtain ⟨cp, c1, c2, c3⟩ := c
    cases hp : m.policies[co.gen_policy]? with
    | none => simp [hp]
    | some pol => simp [hp]

/-- Lines 45-50 on the store, started on a pointer `ctx` that stands for the
context `c`. The derivation succeeds; `const_ctx` is a new pointer; it stands
for the value `const_ctx c`; the pointer `p` still points at the policy of
`c`; and every context pointer that stood for a context before, `ctx` among
them, stands for the same context afterwards. -/
theorem derive_const_ctx_spec (m : Store) (ctx : Nat) (c : Context)
    (h : m.read ctx = some c) :
    ∃ (ptr new_ctx : Nat) (m2 : Store),
      derive_const_ctx m ctx = some (ptr, new_ctx, m2) ∧
      new_ctx ≠ ctx ∧
      m2.policies[ptr]? = some c.gen_policy ∧
      m2.read new_ctx = some (const_ctx c) ∧
      ∀ (q : Nat) (v : Context), m.read q = some v → m2.read q = some v := by
  obtain ⟨co, hco, hpol, h1, h2, h3⟩ := (Store.read_eq_some m ctx c).mp h
  have hctx : ctx < m.contexts.length := (List.getElem?_eq_some.mp hco).1
  have hptr : co.gen_policy < m.policies.length := (List.getElem?_eq_some.mp hpol).1
  have hnew : (m.contexts ++ [co])[m.contexts.length]? = some co := by simp
  have hpol2 : (m.policies ++ [c.gen_policy.set_allow_const true])[co.gen_policy]? =
      some c.gen_policy := by
    rw [List.getElem?_append_left hptr]; exact hpol
  refine ⟨co.gen_policy, m.contexts.length,
    { policies := m.policies ++ [c.gen_policy.set_allow_const true],
      contexts := (m.contexts ++ [co]).set m.contexts.length
        { co with gen_policy := m.policies.length } }, ?_, ?_, ?_, ?_, ?_⟩
  · simp only [derive_const_ctx, hco, Store.make_shared_context, hnew, hpol,
      Store.set_gen_policy, Store.make_shared_policy]
  · omega
  · exact hpol2
  · refine (Store.read_eq_some _ _ _).mpr ⟨{ co with gen_policy := m.policies.length },
      ?_, ?_, h1, h2, h3⟩
    · simp
    · simp [const_ctx, Context.set_gen_policy]
  · intro q v hq
    obtain ⟨qo, hqo, hqp, g1, g2, g3⟩ := (Store.read_eq_some m q v).mp hq
    have hq1 : q < m.contexts.length := (List.getElem?_eq_some.mp hqo).1
    have hq2 : qo.gen_policy < m.policies.length := (List.getElem?_eq_some.mp hqp).1
    refine (Store.read_eq_some _ _ _).mpr ⟨qo, ?_, ?_, g1, g2, g3⟩
    · show ((m.contexts ++ [co]).set m.contexts.length _)[q]? = some qo
      rw [List.getElem?_set_ne (by omega), List.getElem?_append_left hq1]
      exact hqo
    · show (m.policies ++ [c.gen_policy.set_allow_const true])[qo.gen_policy]? = _
      rw [List.getElem?_append_left hq2]
      exact hqp

theorem draws_of_append (a b : List Event) :
    draws_of (a ++ b) = draws_of a ++ draws_of b := by
  simp [draws_of]

theorem get_rand_value_draws (g : Env R V T S) (lo hi : Nat) (s : State R V T S) :
    draws_of (get_rand_value g lo hi s).2.trace =
      draws_of s.trace ++
        [{ lo := lo, hi := hi, ret := (get_rand_value g lo hi s).1 }] := by
  rw [get_rand_value_trace, draws_of_append]
  rfl

theorem add_scalar_step_draws (g : Env R V T S) (c : Context) (t : TableRef)
    (s : State R V T S) :
    draws_of (add_scalar_step g c t s).state.trace = draws_of s.trace := by
  show draws_of (s.trace ++ _) = _
  rw [draws_of_append]
  simp [draws_of]

theorem add_struct_type_step_draws (g : Env R V T S) (c : Context) (s : State R V T S) :
    draws_of (add_struct_type_step g c s).state.trace = draws_of s.trace := by
  show draws_of (s.trace ++ _) = _
  rw [draws_of_append]
  simp [draws_of]

/-- One run of a struct-instance loop body makes exactly one draw, the index
draw, whether it goes on to add an instance or throws. -/
theorem add_struct_step_draws (g : Env R V T S) (c : Context) (t : TableRef) (cnt : Nat)
    (s : State R V T S) :
    draws_of (add_struct_step g c t cnt s).state.trace =
      draws_of s.trace ++
        [{ lo := 0, hi := u32_sub cnt 1,
           ret := (get_rand_value g 0 (u32_sub cnt 1) s).1 }] := by
  rcases add_struct_step_cases g c t cnt s with ⟨ty, _, h⟩ | ⟨_, h⟩
  · rw [h]
    show draws_of (s.trace ++ _) = _
    rw [draws_of_append]
    simp [draws_of]
  · rw [h]
    exact get_rand_value_draws g 0 (u32_sub cnt 1) s

/-- A loop whose body makes no draw makes no draw. -/
theorem for_loop_no_draws (body : State R V T S → Outcome (State R V T S))
    (hb : ∀ s, draws_of (body s).state.trace = draws_of s.trace) (n : Nat)
    (s : State R V T S) :
    draws_of (for_loop body n s).state.trace = draws_of s.trace :=
  for_loop_state_rel body (fun a b => draws_of b.trace = draws_of a.trace)
    (fun _ => rfl) (fun _ _ _ hab hbc => hbc.trans hab) hb n s

/-- A counted relation between the start of a loop and the state it ends in,
however it ends: `k` runs of the body were started, all `n` of them when the
loop returns, and at least one when it throws. -/
theorem for_loop_state_counted {σ : Type} (body : σ → Outcome σ)
    (Q : Nat → σ → σ → Prop) (h0 : ∀ s, Q 0 s s)
    (hret : ∀ k s s1 s2, body s = Outcome.returned s1 → Q k s1 s2 → Q (k + 1) s s2)
    (hthrow : ∀ s s1, body s = Outcome.out_of_range s1 → Q 1 s s1) :
    ∀ (n : Nat) (s : σ), ∃ k, k ≤ n ∧ Q k s (for_loop body n s).state ∧
      ((∃ s2, for_loop body n s = Outcome.returned s2) → k = n) := by
  intro n
  induction n with
  | zero => intro s; exact ⟨0, Nat.le_refl 0, h0 s, fun _ => rfl⟩
  | succ m ih =>
    intro s
    cases hbs : body s with
    | returned s1 =>
      obtain ⟨k, hk, hq, hr⟩ := ih s1
      have hfl : for_loop body (m + 1) s = for_loop body m s1 := by
        simp only [for_loop, hbs, Outcome.bind]
      rw [hfl]
      exact ⟨k + 1, Nat.succ_le_succ hk, hret k s s1 _ hbs hq,
        fun h => congrArg (· + 1) (hr h)⟩
    | out_of_range s1 =>
      have hfl : for_loop body (m + 1) s = Outcome.out_of_range s1 := by
        simp only [for_loop, hbs, Outcome.bind]
      rw [hfl]
      refine ⟨1, Nat.succ_le_succ (Nat.zero_le m), hthrow s s1 hbs, ?_⟩
      rintro ⟨s2, h2⟩
      exact absurd h2 (by simp)

/-- The draws of a struct-instance loop preceded by the draw of its count,
however the loop ends: the count draw, then one index draw from
`[0, cnt - 1]` per run started, at most as many as the count says and exactly
as many when the loop returns. -/
theorem struct_phase_draws (g : Env R V T S) (c : Context) (t : TableRef) (cnt : Nat)
    (lo hi : Nat) (s : State R V T S) :
    ∃ indx : List Nat,
      indx.length ≤ (get_rand_value g lo hi s).1 ∧
      ((∃ s2, for_loop (add_struct_step g c t cnt) (get_rand_value g lo hi s).1
          (get_rand_value g lo hi s).2 = Outcome.returned s2) →
        indx.length = (get_rand_value g lo hi s).1) ∧
      draws_of (for_loop (add_struct_step g c t cnt) (get_rand_value g lo hi s).1
          (get_rand_value g lo hi s).2).state.trace =
        draws_of s.trace ++
          ({ lo := lo, hi := hi, ret := (get_rand_value g lo hi s).1 } ::
            indx.map fun i => { lo := 0, hi := u32_sub cnt 1, ret := i }) := by
  obtain ⟨k, hk, ⟨indx, hlen, hdr⟩, hr⟩ := for_loop_state_counted (add_struct_step g c t cnt)
    (fun k a b => ∃ indx : List Nat, indx.length = k ∧
      draws_of b.trace = draws_of a.trace ++
        indx.map fun i => ({ lo := 0, hi := u32_sub cnt 1, ret := i } : Draw))
    (fun a => ⟨[], rfl, by simp⟩)
    (fun k a a1 a2 hb ⟨indx, hlen, hdr⟩ => by
      have h1 := add_struct_step_draws g c t cnt a
      rw [hb] at h1
      simp only [Outcome.state] at h1
      exact ⟨(get_rand_value g 0 (u32_sub cnt 1) a).1 :: indx, by simp [hlen],
        by rw [hdr, h1]; simp⟩)
    (fun a a1 hb => by
      have h1 := add_struct_step_draws g c t cnt a
      rw [hb] at h1
      simp only [Outcome.state] at h1
      exact ⟨[(get_rand_value g 0 (u32_sub cnt 1) a).1], rfl, by rw [h1]; simp⟩)
    (get_rand_value g lo hi s).1 (get_rand_value g lo hi s).2
  refine ⟨indx, by rw [hlen]; exact hk, fun h => by rw [hlen]; exact hr h, ?_⟩
  rw [hdr, get_rand_value_draws]
  simp

theorem DrawPlan.follow_append (p : GenPolicy) (a b : List Draw) :
    ∀ plan : DrawPlan, DrawPlan.follow p plan (a ++ b) =
      (DrawPlan.follow p plan a).bind fun q => DrawPlan.follow p q b := by
  induction a with
  | nil => intro plan; rfl
  | cons d ds ih =>
    intro plan
    by_cases h : DrawPlan.request p plan = some (d.lo, d.hi)
    · have h1 : DrawPlan.follow p plan (d :: (ds ++ b)) =
          DrawPlan.follow p (plan.step d.ret) (ds ++ b) := by
        simp only [DrawPlan.follow, if_pos h]
      have h2 : DrawPlan.follow p plan (d :: ds) =
          DrawPlan.follow p (plan.step d.ret) ds := by
        simp only [DrawPlan.follow, if_pos h]
      rw [List.cons_append, h1, h2, ih]
    · have h1 : DrawPlan.follow p plan (d :: (ds ++ b)) = none := by
        simp only [DrawPlan.follow, if_neg h]
      have h2 : DrawPlan.follow p plan (d :: ds) = none := by
        simp only [DrawPlan.follow, if_neg h]
      rw [List.cons_append, h1, h2]
      rfl

/-- Index draws of a table's loop, no more than are left, are on schedule
and leave as many fewer to come. -/
theorem DrawPlan.follow_indx (p : GenPolicy) (t : TableRef) (hi : Nat) :
    ∀ (indx : List Nat) (n : Nat), indx.length ≤ n →
      DrawPlan.follow p (DrawPlan.after_count t hi n)
        (indx.map fun i => ({ lo := 0, hi := hi, ret := i } : Draw)) =
        some (DrawPlan.after_count t hi (n - indx.length)) := by
  intro indx
  induction indx with
  | nil => intro n _; rfl
  | cons i is ih =>
    intro n hn
    have hn0 : n ≠ 0 := by
      intro h0
      rw [h0] at hn
      exact absurd hn (by simp)
    have hlen : is.length ≤ n - 1 := by
      have : is.length + 1 ≤ n := hn
      omega
    have hplan : DrawPlan.after_count t hi n = DrawPlan.struct_type_indx t hi n := by
      simp [DrawPlan.after_count, hn0]
    rw [hplan]
    have hsub : n - (i :: is).length = n - 1 - is.length := by
      simp only [List.length_cons]
      omega
    simp only [List.map_cons, DrawPlan.follow, DrawPlan.request, if_true, DrawPlan.step]
    rw [ih (n - 1) hlen, hsub]

/-- The count draw of a table's loop followed by index draws of that loop, no
more than the count says, is on schedule. -/
theorem DrawPlan.follow_struct_phase (p : GenPolicy) (t : TableRef) (hi lo1 hi1 n : Nat)
    (indx : List Nat)
    (hreq : DrawPlan.request p (DrawPlan.struct_count t hi) = some (lo1, hi1))
    (hle : indx.length ≤ n) :
    DrawPlan.follow p (DrawPlan.struct_count t hi)
      (({ lo := lo1, hi := hi1, ret := n } : Draw) ::
        indx.map fun i => ({ lo := 0, hi := hi, ret := i } : Draw)) =
      some (DrawPlan.after_count t hi (n - indx.length)) := by
  simp only [DrawPlan.follow, hreq, if_true, DrawPlan.step]
  exact DrawPlan.follow_indx p t hi indx n hle

theorem DrawPlan.after_count_done (t : TableRef) (hi n k : Nat) (h : k = n) :
    DrawPlan.after_count t hi (n - k) = DrawPlan.next_loop t hi := by
  subst h
  simp [DrawPlan.after_count]

/-- One struct-instance loop, however it ends, is on schedule from its count stage, and
the schedule has moved to the next loop when it returns. -/
theorem struct_phase_follow (g : Env R V T S) (c : Context) (t : TableRef) (cnt : Nat)
    (lo hi : Nat) (s : State R V T S) (p : GenPolicy) (tr : TableRef)
    (hreq : DrawPlan.request p (DrawPlan.struct_count tr (u32_sub cnt 1)) = some (lo, hi)) :
    ∃ (ds : List Draw) (plan : DrawPlan),
      draws_of (for_loop (add_struct_step g c t cnt) (get_rand_value g lo hi s).1
          (get_rand_value g lo hi s).2).state.trace = draws_of s.trace ++ ds ∧
      DrawPlan.follow p (DrawPlan.struct_count tr (u32_sub cnt 1)) ds = some plan ∧
      ((∃ s2, for_loop (add_struct_step g c t cnt) (get_rand_value g lo hi s).1
          (get_rand_value g lo hi s).2 = Outcome.returned s2) →
        plan = DrawPlan.next_loop tr (u32_sub cnt 1)) := by
  obtain ⟨indx, hle, hret, hd⟩ := struct_phase_draws g c t cnt lo hi s
  exact ⟨_, _, hd,
    DrawPlan.follow_struct_phase p tr (u32_sub cnt 1) lo hi (get_rand_value g lo hi s).1 indx
      hreq hle,
    fun h => DrawPlan.after_count_done _ _ _ _ (hret h)⟩

/-- The draws of lines 76-93, however they end, are on schedule from the stage
"count of the input loop", and the schedule is over when the lines return. -/
theorem form_structs_draws (g : Env R V T S) (ctx : Context) (cnt : Nat)
    (s : State R V T S) :
    ∃ (ds : List Draw) (plan : DrawPlan),
      draws_of (form_structs g ctx cnt s).state.trace = draws_of s.trace ++ ds ∧
      DrawPlan.follow ctx.gen_policy (DrawPlan.struct_count TableRef.inp (u32_sub cnt 1)) ds =
        some plan ∧
      ((∃ st, form_structs g ctx cnt s = Outcome.returned st) → plan = DrawPlan.done) := by
  obtain ⟨ds1, plan1, d1, f1, r1⟩ := struct_phase_follow g (const_ctx ctx)
    ctx.extern_inp_sym_table cnt ctx.gen_policy.min_inp_struct_count
    ctx.gen_policy.max_inp_struct_count s ctx.gen_policy TableRef.inp rfl
  unfold form_structs
  dsimp only
  cases h1 : for_loop (add_struct_step g (const_ctx ctx) ctx.extern_inp_sym_table cnt)
      (get_rand_value g ctx.gen_policy.min_inp_struct_count
        ctx.gen_policy.max_inp_struct_count s).1
      (get_rand_value g ctx.gen_policy.min_inp_struct_count
        ctx.gen_policy.max_inp_struct_count s).2 with
  | out_of_range s1 =>
    rw [h1] at d1
    exact ⟨ds1, plan1, d1, f1, fun ⟨st, h⟩ => absurd h (by simp [Outcome.bind])⟩
  | returned s1 =>
    rw [h1] at d1
    simp only [Outcome.state] at d1
    have e1 := r1 ⟨s1, h1⟩
    subst e1
    obtain ⟨ds2, plan2, d2, f2, r2⟩ := struct_phase_follow g ctx
      ctx.extern_mix_sym_table cnt ctx.gen_policy.min_mix_struct_count
      ctx.gen_policy.max_mix_struct_count s1 ctx.gen_policy TableRef.mix rfl
    simp only [Outcome.bind]
    cases h2 : for_loop (add_struct_step g ctx ctx.extern_mix_sym_table cnt)
        (get_rand_value g ctx.gen_policy.min_mix_struct_count
          ctx.gen_policy.max_mix_struct_count s1).1
        (get_rand_value g ctx.gen_policy.min_mix_struct_count
          ctx.gen_policy.max_mix_struct_count s1).2 with
    | out_of_range s2 =>
      rw [h2] at d2
      simp only [Outcome.state] at d2
      refine ⟨ds1 ++ ds2, plan2, ?_, ?_, fun ⟨st, h⟩ => absurd h (by simp)⟩
      · show draws_of s2.trace = _
        rw [d2, d1, List.append_assoc]
      · rw [DrawPlan.follow_append, f1]
        exact f2
    | returned s2 =>
      rw [h2] at d2
      simp only [Outcome.state] at d2
      have e2 := r2 ⟨s2, h2⟩
      subst e2
      obtain ⟨ds3, plan3, d3, f3, r3⟩ := struct_phase_follow g ctx
        ctx.extern_out_sym_table cnt ctx.gen_policy.min_out_struct_count
        ctx.gen_policy.max_out_struct_count s2 ctx.gen_policy TableRef.out rfl
      refine ⟨ds1 ++ (ds2 ++ ds3), plan3, ?_, ?_, ?_⟩
      · rw [d3, d2, d1, List.append_assoc, List.append_assoc]
      · rw [DrawPlan.follow_append, f1]
        show DrawPlan.follow _ _ (_ ++ _) = _
        rw [DrawPlan.follow_append]
        show (DrawPlan.follow ctx.gen_policy (DrawPlan.struct_count TableRef.mix _) _).bind _ = _
        rw [f2]
        exact f3
      · intro hret
        exact r3 hret

/-- Lines 52-61 return after two draws, the two scalar counts, which are on
schedule from the first stage. -/
theorem form_scalars_draws (g : Env R V T S) (ctx : Context) (s : State R V T S) :
    ∃ (s2 : State R V T S) (ds : List Draw),
      form_scalars g ctx s = Outcome.returned s2 ∧
      draws_of s2.trace = draws_of s.trace ++ ds ∧
      DrawPlan.follow ctx.gen_policy DrawPlan.inp_var_count ds =
        some DrawPlan.struct_type_count := by
  obtain ⟨s1, h1, -⟩ := scalar_loop_spec g (const_ctx ctx) ctx.extern_inp_sym_table
    (get_rand_value g ctx.gen_policy.min_inp_var_count ctx.gen_policy.max_inp_var_count s).1
    (get_rand_value g ctx.gen_policy.min_inp_var_count ctx.gen_policy.max_inp_var_count s).2
  have d1 := for_loop_no_draws _
    (add_scalar_step_draws g (const_ctx ctx) ctx.extern_inp_sym_table)
    (get_rand_value g ctx.gen_policy.min_inp_var_count ctx.gen_policy.max_inp_var_count s).1
    (get_rand_value g ctx.gen_policy.min_inp_var_count ctx.gen_policy.max_inp_var_count s).2
  rw [h1, get_rand_value_draws] at d1
  simp only [Outcome.state] at d1
  obtain ⟨s2, h2, -⟩ := scalar_loop_spec g ctx ctx.extern_mix_sym_table
    (get_rand_value g ctx.gen_policy.min_mix_var_count ctx.gen_policy.max_mix_var_count s1).1
    (get_rand_value g ctx.gen_policy.min_mix_var_count ctx.gen_policy.max_mix_var_count s1).2
  have d2 := for_loop_no_draws _
    (add_scalar_step_draws g ctx ctx.extern_mix_sym_table)
    (get_rand_value g ctx.gen_policy.min_mix_var_count ctx.gen_policy.max_mix_var_count s1).1
    (get_rand_value g ctx.gen_policy.min_mix_var_count ctx.gen_policy.max_mix_var_count s1).2
  rw [h2, get_rand_value_draws, d1, List.append_assoc] at d2
  simp only [Outcome.state] at d2
  refine ⟨s2, _, ?_, d2, ?_⟩
  · unfold form_scalars
    dsimp only
    rw [h1]
    exact h2
  · simp [DrawPlan.follow, DrawPlan.request, DrawPlan.step]

/-- The draws of lines 63-93, however they end, are on schedule from the stage
of the struct-type count, and the schedule is over when the lines return. -/
theorem form_struct_part_draws (g : Env R V T S) (ctx : Context) (s : State R V T S) :
    ∃ (ds : List Draw) (plan : DrawPlan),
      draws_of (form_struct_part g ctx s).state.trace = draws_of s.trace ++ ds ∧
      DrawPlan.follow ctx.gen_policy DrawPlan.struct_type_count ds = some plan ∧
      ((∃ st, form_struct_part g ctx s = Outcome.returned st) → plan = DrawPlan.done) := by
  unfold form_struct_part
  dsimp only
  by_cases h0 : (get_rand_value g ctx.gen_policy.min_struct_type_count
      ctx.gen_policy.max_struct_type_count s).1 = 0
  · rw [if_pos h0]
    refine ⟨_, DrawPlan.done, get_rand_value_draws g _ _ s, ?_, fun _ => rfl⟩
    simp [DrawPlan.follow, DrawPlan.request, DrawPlan.step, h0]
  · rw [if_neg h0]
    obtain ⟨s3, h3, -⟩ := for_loop_returns (add_struct_type_step g ctx) (fun _ => True)
      (fun s _ => ⟨_, rfl, trivial⟩)
      (get_rand_value g ctx.gen_policy.min_struct_type_count
        ctx.gen_policy.max_struct_type_count s).1
      (get_rand_value g ctx.gen_policy.min_struct_type_count
        ctx.gen_policy.max_struct_type_count s).2 trivial
    have d3 := for_loop_no_draws _ (add_struct_type_step_draws g ctx)
      (get_rand_value g ctx.gen_policy.min_struct_type_count
        ctx.gen_policy.max_struct_type_count s).1
      (get_rand_value g ctx.gen_policy.min_struct_type_count
        ctx.gen_policy.max_struct_type_count s).2
    rw [h3, get_rand_value_draws] at d3
    simp only [Outcome.state] at d3
    rw [h3]
    simp only [Outcome.bind]
    obtain ⟨ds, plan, d4, f4, r4⟩ := form_structs_draws g ctx
      (get_rand_value g ctx.gen_policy.min_struct_type_count
        ctx.gen_policy.max_struct_type_count s).1 s3
    refine ⟨Draw.mk ctx.gen_policy.min_struct_type_count
      ctx.gen_policy.max_struct_type_count
      (get_rand_value g ctx.gen_policy.min_struct_type_count
        ctx.gen_policy.max_struct_type_count s).1 :: ds, plan, ?_, ?_, r4⟩
    · rw [d4, d3, List.append_assoc]
      rfl
    · simp only [DrawPlan.follow, DrawPlan.request, DrawPlan.step, if_neg h0, if_true]
      exact f4

/-- The draws of the whole call, however it ends, are on schedule from the
first stage, and the schedule is over when the call returns. -/
theorem form_extern_sym_table_draws (g : Env R V T S) (ctx : Context) (s : State R V T S) :
    ∃ (ds : List Draw) (plan : DrawPlan),
      draws_of (form_extern_sym_table g ctx s).state.trace = draws_of s.trace ++ ds ∧
      DrawPlan.follow ctx.gen_policy DrawPlan.inp_var_count ds = some plan ∧
      ((∃ st, form_extern_sym_table g ctx s = Outcome.returned st) →
        plan = DrawPlan.done) := by
  obtain ⟨s2, ds1, h1, d1, f1⟩ := form_scalars_draws g ctx s
  obtain ⟨ds2, plan, d2, f2, r2⟩ := form_struct_part_draws g ctx s2
  unfold form_extern_sym_table
  rw [h1]
  simp only [Outcome.bind]
  refine ⟨ds1 ++ ds2, plan, ?_, ?_, r2⟩
  · rw [d2, d1, List.append_assoc]
  · rw [DrawPlan.follow_append, f1]
    exact f2

/-- A list of draws that is on schedule ends at the stage its values lead to,
and each of its draws has the bounds that the values before it ask for. -/
theorem DrawPlan.follow_spec (p : GenPolicy) :
    ∀ (ds : List Draw) (plan plan2 : DrawPlan), DrawPlan.follow p plan ds = some plan2 →
      plan2 = (ds.map Draw.ret).foldl DrawPlan.step plan ∧
      ∀ (k : Nat) (h : k < ds.length),
        DrawPlan.request p (((ds.take k).map Draw.ret).foldl DrawPlan.step plan) =
          some (ds[k].lo, ds[k].hi) := by
  intro ds
  induction ds with
  | nil =>
    intro plan plan2 h
    simp only [DrawPlan.follow, Option.some.injEq] at h
    exact ⟨h.symm, fun k hk => absurd hk (by simp)⟩
  | cons d ds ih =>
    intro plan plan2 h
    by_cases hreq : DrawPlan.request p plan = some (d.lo, d.hi)
    · simp only [DrawPlan.follow, if_pos hreq] at h
      obtain ⟨e, hk⟩ := ih _ _ h
      refine ⟨e, ?_⟩
      intro k hlt
      cases k with
      | zero => exact hreq
      | succ j => exact hk j (by simpa using hlt)
    · simp only [DrawPlan.follow, if_neg hreq] at h
      exact absurd h (by simp)

/-- The whole call returns when the randomness source keeps its contract. -/
theorem form_extern_sym_table_returns (g : Env R V T S) (hg : RangeOK g) (p : GenPolicy)
    (s : State R V T S) :
    ∃ st, form_extern_sym_table g (root_ctx p) s = Outcome.returned st := by
  obtain ⟨s2, r2, hs, -⟩ := form_scalars_spec g p s
  obtain ⟨hf, -⟩ := form_extern_sym_table_eq g p _ s2 hs
  rw [hf]
  by_cases h0 : (get_rand_value g p.min_struct_type_count p.max_struct_type_count s2).1 = 0
  · exact ⟨_, form_struct_part_zero g p s2 h0⟩
  · obtain ⟨s3, new, h3, hlen, hty3, -⟩ := form_struct_part_nonzero g p s2 h0
    rw [h3]
    exact form_structs_returns g hg p _ h0 s3 (fun q => by rw [hty3 q]; simp [hlen])

/-- Two calls with the same context on related states end alike: take
generator states related by a relation under which every draw returns the same
value and every generator builds the same node; with identical tables and
identical records of earlier calls, the two calls end the same way, with
identical tables and identical records of calls, on related generators. -/
theorem form_extern_sym_table_sim (g : Env R V T S) (rel : R → R → Prop) (ctx : Context)
    (a b : State R V T S) (hg : g.Respects rel) (hab : State.Sim rel a b) :
    Outcome.Sim rel (form_extern_sym_table g ctx a) (form_extern_sym_table g ctx b) := by
  unfold form_extern_sym_table
  exact Outcome.bind_sim rel _ _ _ _ (form_scalars_sim g rel hg ctx a b hab)
    (form_struct_part_sim g rel hg ctx)

end lemmas
















/-! ## Symbol-table population: the claims -/

section population_theorems

variable {R V T S : Type}

theorem tape_env_range_ok : RangeOK tape_env := by
  intro r lo hi h
  have hlt : r.headD 0 % (hi - lo + 1) < hi - lo + 1 := Nat.mod_lt _ (Nat.succ_pos _)
  constructor
  · exact Nat.le_add_right _ _
  · show lo + r.headD 0 % (hi - lo + 1) ≤ hi
    omega

/-- C1, as stated, fails on the sample run: the first call made is not the
draw of the struct-type count but the draw of the input-variable count from
`[min_inp_var_count, max_inp_var_count] = [1, 2]`, and both scalar loops run
before the struct-type count is drawn from `[0, 3]`. -/
theorem struct_types_first_counterexample :
    (form_extern_sym_table tape_env (root_ctx sample_policy)
        (State.init sample_tape)).state.trace.take 8 =
      [Event.get_rand_value 1 2 2,
       Event.ScalarVariable_generate (const_ctx (root_ctx sample_policy)),
       Event.add_variable TableRef.inp,
       Event.ScalarVariable_generate (const_ctx (root_ctx sample_policy)),
       Event.add_variable TableRef.inp,
       Event.get_rand_value 0 1 1,
       Event.ScalarVariable_generate (root_ctx sample_policy),
       Event.add_variable TableRef.mix] ∧
    ¬ ∃ (v : Nat) (rest : List Event),
      (form_extern_sym_table tape_env (root_ctx sample_policy)
        (State.init sample_tape)).state.trace =
        Event.get_rand_value sample_policy.min_struct_type_count
          sample_policy.max_struct_type_count v :: rest := by
  have htr : (form_extern_sym_table tape_env (root_ctx sample_policy)
      (State.init sample_tape)).state.trace.take 1 = [Event.get_rand_value 1 2 2] := by
    decide
  refine ⟨by decide, ?_⟩
  rintro ⟨v, rest, h⟩
  rw [h] at htr
  simp [sample_policy] at htr

/-- C1, amended to the order of the code. Whenever the call returns (and it
does whenever the randomness source keeps its contract), the calls it made
are, in this order: the draw of the input-variable count, made on the
generator as the call found it; the input scalars, generated under the
const-allowing context; the draw of the mixed-variable count and the mixed
scalars; the draw of the struct-type count; and, when that count is not zero,
the struct types, then the input, the mixed and the output struct instances,
each instance loop after the draw of its count. -/
theorem population_order (g : Env R V T S) (p : GenPolicy) (s : State R V T S) :
    (RangeOK g → ∃ st, form_extern_sym_table g (root_ctx p) s = Outcome.returned st) ∧
    ∀ st, form_extern_sym_table g (root_ctx p) s = Outcome.returned st →
      ∃ (mix_var_count struct_type_count : Nat) (inp_indx mix_indx out_indx : List Nat),
        st.trace = s.trace ++
          population_events (root_ctx p)
            (g.get_rand_value s.rand_val_gen p.min_inp_var_count p.max_inp_var_count).1
            mix_var_count struct_type_count inp_indx mix_indx out_indx := by
  obtain ⟨s2, r2, hs, hty2, -, -, -, -, htr⟩ := form_scalars_spec g p s
  obtain ⟨hf, -⟩ := form_extern_sym_table_eq g p _ s2 hs
  rw [hf]
  by_cases h0 : (get_rand_value g p.min_struct_type_count p.max_struct_type_count s2).1 = 0
  · rw [form_struct_part_zero g p s2 h0]
    refine ⟨fun _ => ⟨_, rfl⟩, ?_⟩
    intro st hst
    simp only [Outcome.returned.injEq] at hst
    subst hst
    refine ⟨(g.get_rand_value r2 p.min_mix_var_count p.max_mix_var_count).1, 0, [], [], [], ?_⟩
    rw [get_rand_value_trace, htr, h0]
    simp [population_events, root_ctx]
  · obtain ⟨s3, new, h3, hlen, hty3, -, -, -, htr3⟩ := form_struct_part_nonzero g p s2 h0
    rw [h3]
    constructor
    · intro hg
      exact form_structs_returns g hg p _ h0 s3 (fun q => by rw [hty3 q]; simp [hlen])
    · intro st hst
      obtain ⟨-, -, -, iI, iM, iO, -, -, -, -, -, -, -, -, -, htr4⟩ :=
        form_structs_returned g p _ s3 st hst
      refine ⟨(g.get_rand_value r2 p.min_mix_var_count p.max_mix_var_count).1,
        (get_rand_value g p.min_struct_type_count p.max_struct_type_count s2).1, iI, iM, iO, ?_⟩
      rw [htr4, htr3, htr]
      simp [population_events, root_ctx, h0]

/-- C1 (amended) on the sample run: the tape source keeps the contract, the
call returns, and its calls are in the order of the code. -/
theorem population_order_witness :
    RangeOK tape_env ∧
    (∃ st, form_extern_sym_table tape_env (root_ctx sample_policy)
      (State.init sample_tape) = Outcome.returned st) ∧
    ∃ (mix_var_count struct_type_count : Nat) (inp_indx mix_indx out_indx : List Nat),
      (form_extern_sym_table tape_env (root_ctx sample_policy)
        (State.init sample_tape)).state.trace =
        (State.init sample_tape : State (List Nat) Nat Nat (Nat × Nat)).trace ++
          population_events (root_ctx sample_policy)
            (tape_env.get_rand_value sample_tape sample_policy.min_inp_var_count
              sample_policy.max_inp_var_count).1
            mix_var_count struct_type_count inp_indx mix_indx out_indx :=
  ⟨tape_env_range_ok,
    (population_order tape_env sample_policy (State.init sample_tape)).1 tape_env_range_ok,
    (population_order tape_env sample_policy (State.init sample_tape)).2
      (form_extern_sym_table tape_env (root_ctx sample_policy) (State.init sample_tape)).state
      (by decide)⟩

/-- C2. When the drawn `struct_type_count` is zero (which a source that keeps
the `[low, high]` contract must draw when `min_struct_type_count` and
`max_struct_type_count` are both zero), the call on a new `Program` returns
with the struct-type pool and the struct-instance list of the input, mixed
and output tables all empty, whatever the instance-count ranges are.
No instance count is drawn: the calls made are those of the scalar part followed
by the draw of `struct_type_count`, and the generator is left in the state
that draw left it in. -/
theorem zero_struct_types_skip_instances (g : Env R V T S) (p : GenPolicy) (r : R)
    (h : struct_type_count g (root_ctx p) (State.init r) = 0 ∨
      (RangeOK g ∧ p.min_struct_type_count = 0 ∧ p.max_struct_type_count = 0)) :
    ∃ st : State R V T S,
      form_extern_sym_table g (root_ctx p) (State.init r) = Outcome.returned st ∧
      (∀ q, (st.tables.get q).struct_types = [] ∧ (st.tables.get q).structs = []) ∧
      st.rand_val_gen =
        (g.get_rand_value (form_scalars g (root_ctx p) (State.init r)).state.rand_val_gen
          p.min_struct_type_count p.max_struct_type_count).2 ∧
      ∃ inp_var_count mix_var_count : Nat,
        st.trace = population_events (root_ctx p) inp_var_count mix_var_count 0 [] [] [] := by
  obtain ⟨s2, r2, hs, hty2, hst2, -, -, -, htr⟩ :=
    form_scalars_spec g p (State.init r : State R V T S)
  obtain ⟨hf, hc⟩ := form_extern_sym_table_eq g p _ s2 hs
  have h0 : (get_rand_value g p.min_struct_type_count p.max_struct_type_count s2).1 = 0 := by
    rcases h with h | ⟨hg, hmin, hmax⟩
    · rw [← hc]; exact h
    · have := (get_rand_value_range g hg p.min_struct_type_count p.max_struct_type_count s2
        (by omega)).2
      omega
  rw [hf, form_struct_part_zero g p s2 h0, hs]
  refine ⟨_, rfl, ?_, rfl,
    (g.get_rand_value r p.min_inp_var_count p.max_inp_var_count).1,
    (g.get_rand_value r2 p.min_mix_var_count p.max_mix_var_count).1, ?_⟩
  · intro q
    rw [get_rand_value_tables, hty2 q, hst2 q]
    cases q <;> exact ⟨rfl, rfl⟩
  · rw [get_rand_value_trace, htr, h0]
    simp [population_events, State.init, root_ctx]

/-- C2 on a run whose policy allows no struct type but asks for one to
three instances per table. -/
theorem zero_struct_types_skip_instances_witness :
    (struct_type_count tape_env (root_ctx no_struct_policy) (State.init sample_tape) = 0 ∨
      (RangeOK tape_env ∧ no_struct_policy.min_struct_type_count = 0 ∧
        no_struct_policy.max_struct_type_count = 0)) ∧
    ∃ st : State (List Nat) Nat Nat (Nat × Nat),
      form_extern_sym_table tape_env (root_ctx no_struct_policy) (State.init sample_tape) =
        Outcome.returned st ∧
      (∀ q, (st.tables.get q).struct_types = [] ∧ (st.tables.get q).structs = []) ∧
      st.rand_val_gen =
        (tape_env.get_rand_value
          (form_scalars tape_env (root_ctx no_struct_policy)
            (State.init sample_tape)).state.rand_val_gen
          no_struct_policy.min_struct_type_count no_struct_policy.max_struct_type_count).2 ∧
      ∃ inp_var_count mix_var_count : Nat,
        st.trace =
          population_events (root_ctx no_struct_policy) inp_var_count mix_var_count 0
            [] [] [] :=
  ⟨Or.inr ⟨tape_env_range_ok, rfl, rfl⟩,
    zero_struct_types_skip_instances tape_env no_struct_policy sample_tape
      (Or.inr ⟨tape_env_range_ok, rfl, rfl⟩)⟩

/-- C3. Starting from the three empty tables of a new `Program`, after
`form_extern_sym_table` (however it ends) the struct-type pools of the input,
mixed and output tables are one and the same list `tys` of struct-type
handles; its length is the drawn `struct_type_count`; and the `i`-th type is
the result of `StructType::generate` called with the pool `tys.take i` while
all three tables held exactly `tys.take i`. -/
theorem struct_types_shared_by_all_tables (g : Env R V T S) (p : GenPolicy) (r : R) :
    ∃ tys : List T,
      (form_extern_sym_table g (root_ctx p)
        (State.init r)).state.tables.extern_inp_sym_table.struct_types = tys ∧
      (form_extern_sym_table g (root_ctx p)
        (State.init r)).state.tables.extern_mix_sym_table.struct_types = tys ∧
      (form_extern_sym_table g (root_ctx p)
        (State.init r)).state.tables.extern_out_sym_table.struct_types = tys ∧
      tys.length = struct_type_count g (root_ctx p) (State.init r) ∧
      ∀ (i : Nat) (h : i < tys.length), ∃ (tabs : Tables V T S) (r1 : R),
        tabs.extern_inp_sym_table.struct_types = tys.take i ∧
        tabs.extern_mix_sym_table.struct_types = tys.take i ∧
        tabs.extern_out_sym_table.struct_types = tys.take i ∧
        tys[i] = (g.StructType_generate (root_ctx p) tabs (tys.take i) r1).1 := by
  obtain ⟨s2, r2, hs, hty2, -, -, -, -, -⟩ := form_scalars_spec g p (State.init r : State R V T S)
  obtain ⟨hf, hc⟩ := form_extern_sym_table_eq g p _ s2 hs
  rw [hf, hc]
  have e2 : ∀ q, (s2.tables.get q).struct_types = [] := fun q => by
    rw [hty2 q]; cases q <;> rfl
  by_cases h0 : (get_rand_value g p.min_struct_type_count p.max_struct_type_count s2).1 = 0
  · rw [form_struct_part_zero g p s2 h0, h0]
    refine ⟨[], e2 TableRef.inp, e2 TableRef.mix, e2 TableRef.out, rfl, ?_⟩
    intro i h
    exact absurd h (Nat.not_lt_zero i)
  · obtain ⟨s3, new, h3, hlen, hty3, -, -, hch, -⟩ := form_struct_part_nonzero g p s2 h0
    rw [h3]
    have fr := (form_structs_frame g (root_ctx p)
      (get_rand_value g p.min_struct_type_count p.max_struct_type_count s2).1 s3).1
    have e3 : ∀ q, ((form_structs g (root_ctx p)
        (get_rand_value g p.min_struct_type_count p.max_struct_type_count s2).1 s3).state.tables.get
          q).struct_types = new := fun q => by
      rw [fr q, hty3 q, e2 q]; rfl
    refine ⟨new, e3 TableRef.inp, e3 TableRef.mix, e3 TableRef.out, hlen, ?_⟩
    intro i h
    obtain ⟨tabs, r1, htabs, hnew⟩ := hch i h
    have e2i := e2 TableRef.inp
    simp only [Tables.get] at e2i
    rw [e2i, List.nil_append] at hnew
    refine ⟨tabs, r1, ?_, ?_, ?_, hnew⟩
    · have := htabs TableRef.inp
      rwa [e2 TableRef.inp, List.nil_append] at this
    · have := htabs TableRef.mix
      rwa [e2 TableRef.mix, List.nil_append] at this
    · have := htabs TableRef.out
      rwa [e2 TableRef.out, List.nil_append] at this

/-- C7. Population is a function of the policy, the tables it starts from and
the random stream alone, and its draws follow a schedule fixed by the policy
and the values drawn. For a call of `form_extern_sym_table` under the context
of `Program::generate`, from any state:
(1) a second call on a copy of the stream (generator states related by a
relation under which every draw returns the same value and every generator
builds the same node), from identical tables and an identical record of
earlier calls, ends the same way, with identical input, mixed and output
tables and an identical record of calls (the same draws, with the same bounds
and results, in the same order), the generators being again two copies of one
stream;
(2) the call returns when the randomness source keeps its `[low, high]`
contract;
(3) however the call ends, the draws it made are `ds`, appended to the record,
and the bounds of the draw at each position `k` are those that `spec_next_draw`
computes from the policy and the values of the `k` draws before it, whatever
the generators built and whatever the tables held; when the call returns no
draw is left on the schedule. -/
theorem population_deterministic (g : Env R V T S) (p : GenPolicy) (a : State R V T S) :
    (∀ (rel : R → R → Prop) (b : State R V T S), g.Respects rel → State.Sim rel a b →
      Outcome.Sim rel (form_extern_sym_table g (root_ctx p) a)
        (form_extern_sym_table g (root_ctx p) b)) ∧
    (RangeOK g → ∃ st, form_extern_sym_table g (root_ctx p) a = Outcome.returned st) ∧
    ∃ ds : List Draw,
      draws_of (form_extern_sym_table g (root_ctx p) a).state.trace =
        draws_of a.trace ++ ds ∧
      (∀ (k : Nat) (h : k < ds.length),
        spec_next_draw p ((ds.take k).map Draw.ret) = some (ds[k].lo, ds[k].hi)) ∧
      ((∃ st, form_extern_sym_table g (root_ctx p) a = Outcome.returned st) →
        spec_next_draw p (ds.map Draw.ret) = none) := by
  refine ⟨fun rel b hg hab => form_extern_sym_table_sim g rel (root_ctx p) a b hg hab,
    fun hg => form_extern_sym_table_returns g hg p a, ?_⟩
  obtain ⟨ds, plan, hd, hf, hr⟩ := form_extern_sym_table_draws g (root_ctx p) a
  obtain ⟨hplan, hreq⟩ := DrawPlan.follow_spec p ds _ _ hf
  refine ⟨ds, hd, hreq, fun hret => ?_⟩
  have hdone := hr hret
  rw [hplan] at hdone
  unfold spec_next_draw
  rw [hdone]
  rfl

/-- C7 on the sample run: the sample tape and the same tape padded with two
zeros are copies of one stream and the sample source keeps its contract, so
the two runs fill the tables alike, the run returns, and its nine draws are on
schedule; the fifth draw, for one, is the index draw from `[0, 1]` that the
four values before it ask for. -/
theorem population_deterministic_witness :
    tape_env.Respects tape_sim ∧
    State.Sim tape_sim (State.init sample_tape : State (List Nat) Nat Nat (Nat × Nat))
      (State.init (sample_tape ++ List.replicate 2 0)) ∧
    RangeOK tape_env ∧
    Outcome.Sim tape_sim
      (form_extern_sym_table tape_env (root_ctx sample_policy) (State.init sample_tape))
      (form_extern_sym_table tape_env (root_ctx sample_policy)
        (State.init (sample_tape ++ List.replicate 2 0))) ∧
    (∃ st, form_extern_sym_table tape_env (root_ctx sample_policy)
      (State.init sample_tape) = Outcome.returned st) ∧
    (∃ ds : List Draw,
      draws_of (form_extern_sym_table tape_env (root_ctx sample_policy)
          (State.init sample_tape)).state.trace =
        draws_of (State.init sample_tape : State (List Nat) Nat Nat (Nat × Nat)).trace ++ ds ∧
      (∀ (k : Nat) (h : k < ds.length),
        spec_next_draw sample_policy ((ds.take k).map Draw.ret) =
          some (ds[k].lo, ds[k].hi)) ∧
      ((∃ st, form_extern_sym_table tape_env (root_ctx sample_policy)
          (State.init sample_tape) = Outcome.returned st) →
        spec_next_draw sample_policy (ds.map Draw.ret) = none)) ∧
    (draws_of (form_extern_sym_table tape_env (root_ctx sample_policy)
        (State.init sample_tape)).state.trace).map Draw.ret = [2, 1, 2, 1, 1, 0, 2, 0, 0] ∧
    spec_next_draw sample_policy [2, 1, 2, 1] = some (0, 1) ∧
    spec_next_draw sample_policy [2, 1, 2, 1, 1, 0, 2, 0, 0] = none :=
  ⟨tape_env_respects, ⟨rfl, rfl, tape_sim_pad sample_tape 2⟩, tape_env_range_ok,
    (population_deterministic tape_env sample_policy (State.init sample_tape)).1 tape_sim _
      tape_env_respects ⟨rfl, rfl, tape_sim_pad sample_tape 2⟩,
    (population_deterministic tape_env sample_policy (State.init sample_tape)).2.1
      tape_env_range_ok,
    (population_deterministic tape_env sample_policy (State.init sample_tape)).2.2,
    by decide, by decide, by decide⟩

/-- C10. With a randomness source that keeps the `[low, high]` contract and a
policy whose minima do not exceed their maxima, the call on a new `Program`
returns, and in the state it returns in: the number of input scalars and of
mixed scalars lies in its policy range; the number of struct types (in each
of the three pools) lies in `[min_struct_type_count, max_struct_type_count]`;
and when that number is non-zero the numbers of input, mixed and output
struct instances lie in their policy ranges. -/
theorem pool_sizes_within_policy (g : Env R V T S) (p : GenPolicy) (r : R)
    (hg : RangeOK g) (hp : p.ranges_ok) :
    ∃ st : State R V T S,
      form_extern_sym_table g (root_ctx p) (State.init r) = Outcome.returned st ∧
      (p.min_inp_var_count ≤ st.tables.extern_inp_sym_table.vars.length ∧
        st.tables.extern_inp_sym_table.vars.length ≤ p.max_inp_var_count) ∧
      (p.min_mix_var_count ≤ st.tables.extern_mix_sym_table.vars.length ∧
        st.tables.extern_mix_sym_table.vars.length ≤ p.max_mix_var_count) ∧
      (∀ q, p.min_struct_type_count ≤ (st.tables.get q).struct_types.length ∧
        (st.tables.get q).struct_types.length ≤ p.max_struct_type_count) ∧
      (st.tables.extern_inp_sym_table.struct_types.length ≠ 0 →
        (p.min_inp_struct_count ≤ st.tables.extern_inp_sym_table.structs.length ∧
          st.tables.extern_inp_sym_table.structs.length ≤ p.max_inp_struct_count) ∧
        (p.min_mix_struct_count ≤ st.tables.extern_mix_sym_table.structs.length ∧
          st.tables.extern_mix_sym_table.structs.length ≤ p.max_mix_struct_count) ∧
        (p.min_out_struct_count ≤ st.tables.extern_out_sym_table.structs.length ∧
          st.tables.extern_out_sym_table.structs.length ≤ p.max_out_struct_count)) := by
  obtain ⟨hI, hM, hT, hIS, hMS, hOS⟩ := hp
  obtain ⟨s2, r2, hs, hty2, hst2, hvI, hvM, -, -⟩ :=
    form_scalars_spec g p (State.init r : State R V T S)
  obtain ⟨hf, -⟩ := form_extern_sym_table_eq g p _ s2 hs
  rw [hf]
  have e2 : ∀ q, (s2.tables.get q).struct_types = [] := fun q => by
    rw [hty2 q]; cases q <;> rfl
  have hvI2 : s2.tables.extern_inp_sym_table.vars.length =
      (g.get_rand_value r p.min_inp_var_count p.max_inp_var_count).1 := by
    rw [hvI]; simp [State.init, Tables.empty, SymbolTable.empty]
  have hvM2 : s2.tables.extern_mix_sym_table.vars.length =
      (g.get_rand_value r2 p.min_mix_var_count p.max_mix_var_count).1 := by
    rw [hvM]; simp [State.init, Tables.empty, SymbolTable.empty]
  have bI := hg r _ _ hI
  have bM := hg r2 _ _ hM
  have bT := get_rand_value_range g hg _ _ s2 hT
  by_cases h0 : (get_rand_value g p.min_struct_type_count p.max_struct_type_count s2).1 = 0
  · rw [form_struct_part_zero g p s2 h0]
    refine ⟨_, rfl, ?_, ?_, ?_, ?_⟩
    · rw [get_rand_value_tables, hvI2]; exact bI
    · rw [get_rand_value_tables, hvM2]; exact bM
    · intro q
      rw [get_rand_value_tables, e2 q]
      rw [h0] at bT
      exact ⟨bT.1, Nat.zero_le _⟩
    · intro hne
      have := e2 TableRef.inp
      simp only [Tables.get] at this
      rw [get_rand_value_tables, this] at hne
      exact absurd rfl hne
  · obtain ⟨s3, new, h3, hlen, hty3, hv3, hst3, -, -⟩ := form_struct_part_nonzero g p s2 h0
    rw [h3]
    have e3 : ∀ q, (s3.tables.get q).struct_types = new := fun q => by
      rw [hty3 q, e2 q]; rfl
    obtain ⟨st, hst⟩ := form_structs_returns g hg p _ h0 s3
      (fun q => by rw [e3 q, hlen])
    have fr := form_structs_frame g (root_ctx p)
      (get_rand_value g p.min_struct_type_count p.max_struct_type_count s2).1 s3
    rw [hst] at fr
    simp only [Outcome.state] at fr
    obtain ⟨rI, rM, rO, iI, iM, iO, lI, lM, lO, nI, nM, nO, -, -, -, -⟩ :=
      form_structs_returned g p _ s3 st hst
    have z : ∀ q, (s3.tables.get q).structs = [] := fun q => by
      rw [hst3 q, hst2 q]; cases q <;> rfl
    have zI := z TableRef.inp
    have zM := z TableRef.mix
    have zO := z TableRef.out
    simp only [Tables.get] at zI zM zO
    refine ⟨st, hst, ?_, ?_, ?_, ?_⟩
    · have := (fr.2 TableRef.inp).trans (hv3 TableRef.inp)
      simp only [Tables.get] at this
      rw [this, hvI2]; exact bI
    · have := (fr.2 TableRef.mix).trans (hv3 TableRef.mix)
      simp only [Tables.get] at this
      rw [this, hvM2]; exact bM
    · intro q
      rw [fr.1 q, e3 q, hlen]
      exact bT
    · intro _
      rw [nI, nM, nO, zI, zM, zO, lI, lM, lO]
      simp only [List.length_nil, Nat.zero_add]
      exact ⟨hg rI _ _ hIS, hg rM _ _ hMS, hg rO _ _ hOS⟩

/-- C10 on the sample run: the tape source keeps the contract, the sample
policy has non-empty ranges, so the sizes are within the policy. -/
theorem pool_sizes_within_policy_witness :
    RangeOK tape_env ∧ sample_policy.ranges_ok ∧
    ∃ st : State (List Nat) Nat Nat (Nat × Nat),
      form_extern_sym_table tape_env (root_ctx sample_policy) (State.init sample_tape) =
        Outcome.returned st ∧
      (sample_policy.min_inp_var_count ≤ st.tables.extern_inp_sym_table.vars.length ∧
        st.tables.extern_inp_sym_table.vars.length ≤ sample_policy.max_inp_var_count) ∧
      (sample_policy.min_mix_var_count ≤ st.tables.extern_mix_sym_table.vars.length ∧
        st.tables.extern_mix_sym_table.vars.length ≤ sample_policy.max_mix_var_count) ∧
      (∀ q, sample_policy.min_struct_type_count ≤ (st.tables.get q).struct_types.length ∧
        (st.tables.get q).struct_types.length ≤ sample_policy.max_struct_type_count) ∧
      (st.tables.extern_inp_sym_table.struct_types.length ≠ 0 →
        (sample_policy.min_inp_struct_count ≤ st.tables.extern_inp_sym_table.structs.length ∧
          st.tables.extern_inp_sym_table.structs.length ≤
            sample_policy.max_inp_struct_count) ∧
        (sample_policy.min_mix_struct_count ≤ st.tables.extern_mix_sym_table.structs.length ∧
          st.tables.extern_mix_sym_table.structs.length ≤
            sample_policy.max_mix_struct_count) ∧
        (sample_policy.min_out_struct_count ≤ st.tables.extern_out_sym_table.structs.length ∧
          st.tables.extern_out_sym_table.structs.length ≤
            sample_policy.max_out_struct_count)) :=
  ⟨tape_env_range_ok, by decide,
    pool_sizes_within_policy tape_env sample_policy sample_tape tape_env_range_ok
      (by decide)⟩

/-- C11. With a randomness source that keeps the `[low, high]` contract, the
call returns: no `.at` throws. The struct-instance loops drew the indices
`inp_indx`, `mix_indx` and `out_indx` (none when `struct_type_count` is zero).
Whenever an index was drawn, `struct_type_count` is at least 1, so the
`uint32_t` subtraction `struct_type_count - 1` is the true difference reduced
to 32 bits with no borrow, and the index lies in `[0, struct_type_count - 1]`.
Each index is a valid index into the struct-type pool of the table it was
looked up in, and the instances appended to the input, mixed and output
tables were generated, in order, from the pool entries at those indices. -/
theorem struct_type_indx_valid (g : Env R V T S) (p : GenPolicy) (s : State R V T S)
    (hg : RangeOK g) :
    ∃ (st : State R V T S) (inp_var_count mix_var_count : Nat)
      (inp_indx mix_indx out_indx : List Nat) (inp_new mix_new out_new : List S),
      form_extern_sym_table g (root_ctx p) s = Outcome.returned st ∧
      st.trace = s.trace ++
        population_events (root_ctx p) inp_var_count mix_var_count
          (struct_type_count g (root_ctx p) s) inp_indx mix_indx out_indx ∧
      (∀ i ∈ inp_indx ++ mix_indx ++ out_indx,
        1 ≤ struct_type_count g (root_ctx p) s ∧
        u32_sub (struct_type_count g (root_ctx p) s) 1 =
          (struct_type_count g (root_ctx p) s - 1) % 2 ^ 32 ∧
        i ≤ u32_sub (struct_type_count g (root_ctx p) s) 1 ∧
        i ≤ struct_type_count g (root_ctx p) s - 1) ∧
      (∀ i ∈ inp_indx, i < st.tables.extern_inp_sym_table.struct_types.length) ∧
      (∀ i ∈ mix_indx, i < st.tables.extern_mix_sym_table.struct_types.length) ∧
      (∀ i ∈ out_indx, i < st.tables.extern_out_sym_table.struct_types.length) ∧
      st.tables.extern_inp_sym_table.structs =
        s.tables.extern_inp_sym_table.structs ++ inp_new ∧
      st.tables.extern_mix_sym_table.structs =
        s.tables.extern_mix_sym_table.structs ++ mix_new ∧
      st.tables.extern_out_sym_table.structs =
        s.tables.extern_out_sym_table.structs ++ out_new ∧
      List.Forall₂ (InstanceOf g (const_ctx (root_ctx p))
        st.tables.extern_inp_sym_table.struct_types) inp_indx inp_new ∧
      List.Forall₂ (InstanceOf g (root_ctx p)
        st.tables.extern_mix_sym_table.struct_types) mix_indx mix_new ∧
      List.Forall₂ (InstanceOf g (root_ctx p)
        st.tables.extern_out_sym_table.struct_types) out_indx out_new := by
  obtain ⟨s2, r2, hs, hty2, hst2, -, -, -, htr⟩ := form_scalars_spec g p s
  obtain ⟨hf, hc⟩ := form_extern_sym_table_eq g p _ s2 hs
  rw [hf, hc]
  by_cases h0 : (get_rand_value g p.min_struct_type_count p.max_struct_type_count s2).1 = 0
  · rw [form_struct_part_zero g p s2 h0, h0]
    have zI := hst2 TableRef.inp
    have zM := hst2 TableRef.mix
    have zO := hst2 TableRef.out
    simp only [Tables.get] at zI zM zO
    refine ⟨_, (g.get_rand_value s.rand_val_gen p.min_inp_var_count p.max_inp_var_count).1,
      (g.get_rand_value r2 p.min_mix_var_count p.max_mix_var_count).1,
      [], [], [], [], [], [], rfl, ?_, by simp, by simp, by simp, by simp,
      by rw [get_rand_value_tables, zI, List.append_nil],
      by rw [get_rand_value_tables, zM, List.append_nil],
      by rw [get_rand_value_tables, zO, List.append_nil],
      List.Forall₂.nil, List.Forall₂.nil, List.Forall₂.nil⟩
    rw [get_rand_value_trace, htr, h0]
    simp [population_events, root_ctx]
  · obtain ⟨s3, new, h3, hlen, hty3, -, hst3, -, htr3⟩ := form_struct_part_nonzero g p s2 h0
    rw [h3]
    have hpool : ∀ q, (get_rand_value g p.min_struct_type_count p.max_struct_type_count s2).1 ≤
        (s3.tables.get q).struct_types.length := fun q => by
      rw [hty3 q]; simp [hlen]
    obtain ⟨st, hst⟩ := form_structs_returns g hg p _ h0 s3 hpool
    have fr := (form_structs_frame g (root_ctx p)
      (get_rand_value g p.min_struct_type_count p.max_struct_type_count s2).1 s3).1
    rw [hst] at fr
    simp only [Outcome.state] at fr
    have frI := fr TableRef.inp
    have frM := fr TableRef.mix
    have frO := fr TableRef.out
    have pI := hpool TableRef.inp
    have pM := hpool TableRef.mix
    have pO := hpool TableRef.out
    have zI := (hst3 TableRef.inp).trans (hst2 TableRef.inp)
    have zM := (hst3 TableRef.mix).trans (hst2 TableRef.mix)
    have zO := (hst3 TableRef.out).trans (hst2 TableRef.out)
    simp only [Tables.get] at frI frM frO pI pM pO zI zM zO
    obtain ⟨iI, iM, iO, xI, xM, xO, hval, sI, sM, sO, dI, dM, dO, htr4⟩ :=
      form_structs_instances g p _ s3 st hst
    have hlt := u32_sub_one_lt _ h0
    have hbound : ∀ i ∈ iI ++ iM ++ iO,
        i ≤ u32_sub (get_rand_value g p.min_struct_type_count
          p.max_struct_type_count s2).1 1 := by
      intro i hi
      obtain ⟨r, hr⟩ := hval i hi
      rw [hr]
      exact (hg r 0 _ (Nat.zero_le _)).2
    refine ⟨st, (g.get_rand_value s.rand_val_gen p.min_inp_var_count p.max_inp_var_count).1,
      (g.get_rand_value r2 p.min_mix_var_count p.max_mix_var_count).1,
      iI, iM, iO, xI, xM, xO, hst, ?_, ?_, ?_, ?_, ?_,
      by rw [sI, zI], by rw [sM, zM], by rw [sO, zO],
      by rw [frI]; exact dI, by rw [frM]; exact dM, by rw [frO]; exact dO⟩
    · rw [htr4, htr3, htr]
      simp [population_events, root_ctx, h0]
    · intro i hi
      have hb := hbound i hi
      exact ⟨Nat.one_le_iff_ne_zero.mpr h0, u32_sub_one_eq _ h0, hb, by omega⟩
    · intro i hi
      have hb := hbound i (List.mem_append_left _ (List.mem_append_left _ hi))
      rw [frI]
      omega
    · intro i hi
      have hb := hbound i (List.mem_append_left _ (List.mem_append_right _ hi))
      rw [frM]
      omega
    · intro i hi
      have hb := hbound i (List.mem_append_right _ hi)
      rw [frO]
      omega

/-- C11 on the sample run, whose source keeps the contract. -/
theorem struct_type_indx_valid_witness :
    RangeOK tape_env ∧
    ∃ (st : State (List Nat) Nat Nat (Nat × Nat)) (inp_var_count mix_var_count : Nat)
      (inp_indx mix_indx out_indx : List Nat) (inp_new mix_new out_new : List (Nat × Nat)),
      form_extern_sym_table tape_env (root_ctx sample_policy) (State.init sample_tape) =
        Outcome.returned st ∧
      st.trace = (State.init sample_tape : State (List Nat) Nat Nat (Nat × Nat)).trace ++
        population_events (root_ctx sample_policy) inp_var_count mix_var_count
          (struct_type_count tape_env (root_ctx sample_policy) (State.init sample_tape))
          inp_indx mix_indx out_indx ∧
      (∀ i ∈ inp_indx ++ mix_indx ++ out_indx,
        1 ≤ struct_type_count tape_env (root_ctx sample_policy) (State.init sample_tape) ∧
        u32_sub (struct_type_count tape_env (root_ctx sample_policy)
            (State.init sample_tape)) 1 =
          (struct_type_count tape_env (root_ctx sample_policy)
            (State.init sample_tape) - 1) % 2 ^ 32 ∧
        i ≤ u32_sub (struct_type_count tape_env (root_ctx sample_policy)
          (State.init sample_tape)) 1 ∧
        i ≤ struct_type_count tape_env (root_ctx sample_policy)
          (State.init sample_tape) - 1) ∧
      (∀ i ∈ inp_indx, i < st.tables.extern_inp_sym_table.struct_types.length) ∧
      (∀ i ∈ mix_indx, i < st.tables.extern_mix_sym_table.struct_types.length) ∧
      (∀ i ∈ out_indx, i < st.tables.extern_out_sym_table.struct_types.length) ∧
      st.tables.extern_inp_sym_table.structs =
        (State.init sample_tape :
          State (List Nat) Nat Nat (Nat × Nat)).tables.extern_inp_sym_table.structs ++
          inp_new ∧
      st.tables.extern_mix_sym_table.structs =
        (State.init sample_tape :
          State (List Nat) Nat Nat (Nat × Nat)).tables.extern_mix_sym_table.structs ++
          mix_new ∧
      st.tables.extern_out_sym_table.structs =
        (State.init sample_tape :
          State (List Nat) Nat Nat (Nat × Nat)).tables.extern_out_sym_table.structs ++
          out_new ∧
      List.Forall₂ (InstanceOf tape_env (const_ctx (root_ctx sample_policy))
        st.tables.extern_inp_sym_table.struct_types) inp_indx inp_new ∧
      List.Forall₂ (InstanceOf tape_env (root_ctx sample_policy)
        st.tables.extern_mix_sym_table.struct_types) mix_indx mix_new ∧
      List.Forall₂ (InstanceOf tape_env (root_ctx sample_policy)
        st.tables.extern_out_sym_table.struct_types) out_indx out_new :=
  ⟨tape_env_range_ok,
    struct_type_indx_valid tape_env sample_policy (State.init sample_tape)
      tape_env_range_ok⟩

/-- C12. Let the pointer `ctx` stand for the context `Program::generate`
built. Deriving the const-allowing context (lines 45-50) succeeds and gives a
new pointer that stands for `const_ctx`; afterwards `ctx` still stands for the
same context, with the same policy (its `allow_const` flag included) and the
same table pointers, as does every other context pointer, and `p` still
points at the original policy. The policy of `const_ctx` has `allow_const`
set and is otherwise the original policy, and its table pointers are those of
`ctx`. Whenever the call returns (it does when the randomness source keeps
its contract), the scalars and struct instances added to the input table
were generated under `const_ctx`, and the mixed scalars, the struct types and
the mixed and output struct instances under the original context; the counts
`nI`, `nM`, `nT`, `nIS`, `nMS`, `nOS` are the numbers of entries the call
added to the tables. -/
theorem const_ctx_leaves_ctx_unchanged (g : Env R V T S) (p : GenPolicy)
    (s : State R V T S) (m : Store) (ctx : Nat) (hctx : m.read ctx = some (root_ctx p)) :
    (∃ (ptr new_ctx : Nat) (m2 : Store),
      derive_const_ctx m ctx = some (ptr, new_ctx, m2) ∧
      new_ctx ≠ ctx ∧
      m2.read ctx = some (root_ctx p) ∧
      m2.policies[ptr]? = some p ∧
      m2.read new_ctx = some (const_ctx (root_ctx p)) ∧
      ∀ (q : Nat) (v : Context), m.read q = some v → m2.read q = some v) ∧
    ((const_ctx (root_ctx p)).gen_policy.allow_const = true ∧
      (const_ctx (root_ctx p)).gen_policy.set_allow_const p.allow_const = p ∧
      (root_ctx p).gen_policy = p ∧
      (const_ctx (root_ctx p)).extern_inp_sym_table = (root_ctx p).extern_inp_sym_table ∧
      (const_ctx (root_ctx p)).extern_mix_sym_table = (root_ctx p).extern_mix_sym_table ∧
      (const_ctx (root_ctx p)).extern_out_sym_table = (root_ctx p).extern_out_sym_table) ∧
    (RangeOK g → ∃ st, form_extern_sym_table g (root_ctx p) s = Outcome.returned st) ∧
    ∀ st, form_extern_sym_table g (root_ctx p) s = Outcome.returned st →
      ∃ (new : List Event) (nI nM nT nIS nMS nOS : Nat),
        st.trace = s.trace ++ new ∧
        generation_pairs new =
          List.replicate nI (const_ctx (root_ctx p), TableRef.inp) ++
          List.replicate nM (root_ctx p, TableRef.mix) ++
          (List.replicate nIS (const_ctx (root_ctx p), TableRef.inp) ++
           List.replicate nMS (root_ctx p, TableRef.mix) ++
           List.replicate nOS (root_ctx p, TableRef.out)) ∧
        struct_type_contexts new = List.replicate nT (root_ctx p) ∧
        st.tables.extern_inp_sym_table.vars.length =
          s.tables.extern_inp_sym_table.vars.length + nI ∧
        st.tables.extern_mix_sym_table.vars.length =
          s.tables.extern_mix_sym_table.vars.length + nM ∧
        (∀ q, (st.tables.get q).struct_types.length =
          (s.tables.get q).struct_types.length + nT) ∧
        st.tables.extern_inp_sym_table.structs.length =
          s.tables.extern_inp_sym_table.structs.length + nIS ∧
        st.tables.extern_mix_sym_table.structs.length =
          s.tables.extern_mix_sym_table.structs.length + nMS ∧
        st.tables.extern_out_sym_table.structs.length =
          s.tables.extern_out_sym_table.structs.length + nOS := by
  refine ⟨?_, ?_, ?_⟩
  · obtain ⟨ptr, new_ctx, m2, hd, hne, hp, hnew, hall⟩ :=
      derive_const_ctx_spec m ctx (root_ctx p) hctx
    exact ⟨ptr, new_ctx, m2, hd, hne, hall ctx _ hctx, hp, hnew, hall⟩
  · refine ⟨rfl, ?_, rfl, rfl, rfl, rfl⟩
    obtain ⟨a⟩ := p
    rfl
  obtain ⟨s2, r2, hs, hty2, hst2, hvI, hvM, -, htr⟩ := form_scalars_spec g p s
  obtain ⟨hf, -⟩ := form_extern_sym_table_eq g p _ s2 hs
  rw [hf]
  by_cases h0 : (get_rand_value g p.min_struct_type_count p.max_struct_type_count s2).1 = 0
  · rw [form_struct_part_zero g p s2 h0]
    refine ⟨fun _ => ⟨_, rfl⟩, ?_⟩
    intro st hst
    simp only [Outcome.returned.injEq] at hst
    subst hst
    have zI := hst2 TableRef.inp
    have zM := hst2 TableRef.mix
    have zO := hst2 TableRef.out
    simp only [Tables.get] at zI zM zO
    refine ⟨population_events (root_ctx p)
        (g.get_rand_value s.rand_val_gen p.min_inp_var_count p.max_inp_var_count).1
        (g.get_rand_value r2 p.min_mix_var_count p.max_mix_var_count).1 0 [] [] [],
      (g.get_rand_value s.rand_val_gen p.min_inp_var_count p.max_inp_var_count).1,
      (g.get_rand_value r2 p.min_mix_var_count p.max_mix_var_count).1, 0, 0, 0, 0,
      ?_, ?_, ?_, hvI, hvM, ?_, ?_, ?_, ?_⟩
    · rw [get_rand_value_trace, htr, h0]
      simp [population_events, root_ctx]
    · rw [generation_pairs_population_events]
      simp [root_ctx]
    · rw [struct_type_contexts_population_events]
    · intro q
      rw [get_rand_value_tables, hty2 q]
      rfl
    · rw [get_rand_value_tables, zI]; rfl
    · rw [get_rand_value_tables, zM]; rfl
    · rw [get_rand_value_tables, zO]; rfl
  · obtain ⟨s3, new, h3, hlen, hty3, hv3, hst3, -, htr3⟩ := form_struct_part_nonzero g p s2 h0
    rw [h3]
    constructor
    · intro hg
      exact form_structs_returns g hg p _ h0 s3 (fun q => by rw [hty3 q]; simp [hlen])
    · intro st hst
      have fr := form_structs_frame g (root_ctx p)
        (get_rand_value g p.min_struct_type_count p.max_struct_type_count s2).1 s3
      rw [hst] at fr
      simp only [Outcome.state] at fr
      obtain ⟨-, -, -, iI, iM, iO, -, -, -, lI, lM, lO, -, -, -, htr4⟩ :=
        form_structs_returned g p _ s3 st hst
      have zI := (hst3 TableRef.inp).trans (hst2 TableRef.inp)
      have zM := (hst3 TableRef.mix).trans (hst2 TableRef.mix)
      have zO := (hst3 TableRef.out).trans (hst2 TableRef.out)
      have vI := (fr.2 TableRef.inp).trans (hv3 TableRef.inp)
      have vM := (fr.2 TableRef.mix).trans (hv3 TableRef.mix)
      simp only [Tables.get, get_rand_value_tables] at zI zM zO vI vM
      refine ⟨population_events (root_ctx p)
          (g.get_rand_value s.rand_val_gen p.min_inp_var_count p.max_inp_var_count).1
          (g.get_rand_value r2 p.min_mix_var_count p.max_mix_var_count).1
          (get_rand_value g p.min_struct_type_count p.max_struct_type_count s2).1 iI iM iO,
        (g.get_rand_value s.rand_val_gen p.min_inp_var_count p.max_inp_var_count).1,
        (g.get_rand_value r2 p.min_mix_var_count p.max_mix_var_count).1,
        (get_rand_value g p.min_struct_type_count p.max_struct_type_count s2).1,
        iI.length, iM.length, iO.length, ?_, ?_, ?_, ?_, ?_, ?_, ?_, ?_, ?_⟩
      · rw [htr4, htr3, htr]
        simp [population_events, root_ctx, h0]
      · rw [generation_pairs_population_events, if_neg h0]
        rfl
      · rw [struct_type_contexts_population_events]
      · rw [vI, hvI]
      · rw [vM, hvM]
      · intro q
        rw [fr.1 q, hty3 q, hty2 q, List.length_append, hlen]
      · rw [lI, zI]
      · rw [lM, zM]
      · rw [lO, zO]

/-- C12 on the sample run, with the store `Program::generate` hands over:
the root context at pointer 0 and its policy. -/
theorem const_ctx_leaves_ctx_unchanged_witness :
    (Store.root sample_policy).read 0 = some (root_ctx sample_policy) ∧
    (∃ (ptr new_ctx : Nat) (m2 : Store),
      derive_const_ctx (Store.root sample_policy) 0 = some (ptr, new_ctx, m2) ∧
      new_ctx ≠ 0 ∧
      m2.read 0 = some (root_ctx sample_policy) ∧
      m2.policies[ptr]? = some sample_policy ∧
      m2.read new_ctx = some (const_ctx (root_ctx sample_policy)) ∧
      ∀ (q : Nat) (v : Context),
        (Store.root sample_policy).read q = some v → m2.read q = some v) ∧
    ∃ (new : List Event) (nI nM nT nIS nMS nOS : Nat),
      (form_extern_sym_table tape_env (root_ctx sample_policy)
        (State.init sample_tape)).state.trace =
        (State.init sample_tape : State (List Nat) Nat Nat (Nat × Nat)).trace ++ new ∧
      generation_pairs new =
        List.replicate nI (const_ctx (root_ctx sample_policy), TableRef.inp) ++
        List.replicate nM (root_ctx sample_policy, TableRef.mix) ++
        (List.replicate nIS (const_ctx (root_ctx sample_policy), TableRef.inp) ++
         List.replicate nMS (root_ctx sample_policy, TableRef.mix) ++
         List.replicate nOS (root_ctx sample_policy, TableRef.out)) ∧
      struct_type_contexts new = List.replicate nT (root_ctx sample_policy) ∧
      (form_extern_sym_table tape_env (root_ctx sample_policy)
        (State.init sample_tape)).state.tables.extern_inp_sym_table.vars.length =
        (State.init sample_tape :
          State (List Nat) Nat Nat (Nat × Nat)).tables.extern_inp_sym_table.vars.length +
          nI ∧
      (form_extern_sym_table tape_env (root_ctx sample_policy)
        (State.init sample_tape)).state.tables.extern_mix_sym_table.vars.length =
        (State.init sample_tape :
          State (List Nat) Nat Nat (Nat × Nat)).tables.extern_mix_sym_table.vars.length +
          nM ∧
      (∀ q, ((form_extern_sym_table tape_env (root_ctx sample_policy)
        (State.init sample_tape)).state.tables.get q).struct_types.length =
        ((State.init sample_tape :
          State (List Nat) Nat Nat (Nat × Nat)).tables.get q).struct_types.length + nT) ∧
      (form_extern_sym_table tape_env (root_ctx sample_policy)
        (State.init sample_tape)).state.tables.extern_inp_sym_table.structs.length =
        (State.init sample_tape :
          State (List Nat) Nat Nat (Nat × Nat)).tables.extern_inp_sym_table.structs.length +
          nIS ∧
      (form_extern_sym_table tape_env (root_ctx sample_policy)
        (State.init sample_tape)).state.tables.extern_mix_sym_table.structs.length =
        (State.init sample_tape :
          State (List Nat) Nat Nat (Nat × Nat)).tables.extern_mix_sym_table.structs.length +
          nMS ∧
      (form_extern_sym_table tape_env (root_ctx sample_policy)
        (State.init sample_tape)).state.tables.extern_out_sym_table.structs.length =
        (State.init sample_tape :
          State (List Nat) Nat Nat (Nat × Nat)).tables.extern_out_sym_table.structs.length +
          nOS :=
  ⟨rfl,
    (const_ctx_leaves_ctx_unchanged tape_env sample_policy (State.init sample_tape)
      (Store.root sample_policy) 0 rfl).1,
    (const_ctx_leaves_ctx_unchanged tape_env sample_policy (State.init sample_tape)
      (Store.root sample_policy) 0 rfl).2.2.2
      (form_extern_sym_table tape_env (root_ctx sample_policy) (State.init sample_tape)).state
      (by decide)⟩

end population_theorems

/-! ## The seed option: the claims -/

section seed_theorems

theorem isdigit_iff (c : Char) : isdigit c = true ↔ 48 ≤ c.toNat ∧ c.toNat ≤ 57 := by
  simp [isdigit]

theorem isspace_of_isdigit (c : Char) (h : isdigit c = true) : isspace c = false := by
  have := (isdigit_iff c).mp h
  simp only [isspace, Bool.or_eq_false_iff, decide_eq_false_iff_not, Bool.and_eq_false_imp,
    decide_eq_true_eq]
  omega

theorem not_sign_of_isdigit (c : Char) (h : isdigit c = true) :
    c ≠ '-' ∧ c ≠ '+' ∧ c ≠ '_' := by
  have hc := (isdigit_iff c).mp h
  refine ⟨?_, ?_, ?_⟩ <;>
  · intro h2
    subst h2
    revert hc
    decide

theorem digits_fold_shift (cs : List Char) (a : Nat) :
    cs.foldl (fun acc c => acc * 10 + (c.toNat - 48)) a =
      a * 10 ^ cs.length + digits_value cs := by
  unfold digits_value
  induction cs generalizing a with
  | nil => simp
  | cons c cs ih =>
    rw [List.foldl_cons, List.foldl_cons, ih (a * 10 + (c.toNat - 48)),
      ih (0 * 10 + (c.toNat - 48)), List.length_cons, pow_succ]
    ring

theorem digits_value_cons (c : Char) (cs : List Char) :
    digits_value (c :: cs) = (c.toNat - 48) * 10 ^ cs.length + digits_value cs := by
  have h := digits_fold_shift cs (0 * 10 + (c.toNat - 48))
  simp only [Nat.zero_mul, Nat.zero_add] at h
  rw [← h]
  simp [digits_value]

theorem digitChar_isdigit :
    ∀ d : Nat, d < 10 →
      isdigit (Nat.digitChar d) = true ∧ (Nat.digitChar d).toNat - 48 = d := by
  decide

/-- The core of `Nat.repr`, run in base ten with fuel above the number on an
accumulator of digits: the result is never empty, consists of digits, and
reads as the number shifted in front of the accumulator. -/
theorem toDigitsCore_value (k : Nat) :
    ∀ (m : Nat) (rest : List Char), m < k → (∀ c ∈ rest, isdigit c = true) →
      Nat.toDigitsCore 10 k m rest ≠ [] ∧
      digits_value (Nat.toDigitsCore 10 k m rest) =
        m * 10 ^ rest.length + digits_value rest ∧
      ∀ c ∈ Nat.toDigitsCore 10 k m rest, isdigit c = true := by
  induction k with
  | zero => intro m rest h; exact absurd h (Nat.not_lt_zero m)
  | succ k ih =>
    intro m rest h hrest
    obtain ⟨hd, hv⟩ := digitChar_isdigit (m % 10) (Nat.mod_lt m (by decide))
    have hall : ∀ c ∈ Nat.digitChar (m % 10) :: rest, isdigit c = true := by
      intro c hc
      rcases List.mem_cons.mp hc with hc | hc
      · rw [hc]; exact hd
      · exact hrest c hc
    by_cases h0 : m / 10 = 0
    · have hres : Nat.toDigitsCore 10 (k + 1) m rest = Nat.digitChar (m % 10) :: rest := by
        simp [Nat.toDigitsCore, h0]
      rw [hres]
      refine ⟨List.cons_ne_nil _ _, ?_, hall⟩
      rw [digits_value_cons, hv]
      have : m % 10 = m := by omega
      rw [this]
    · have hres : Nat.toDigitsCore 10 (k + 1) m rest =
          Nat.toDigitsCore 10 k (m / 10) (Nat.digitChar (m % 10) :: rest) := by
        simp [Nat.toDigitsCore, h0]
      rw [hres]
      obtain ⟨hne, hval, hdig⟩ := ih (m / 10) (Nat.digitChar (m % 10) :: rest) (by omega) hall
      refine ⟨hne, ?_, hdig⟩
      rw [hval, digits_value_cons, hv, List.length_cons, pow_succ]
      have hm : m = 10 * (m / 10) + m % 10 := (Nat.div_add_mod m 10).symm
      generalize m / 10 = q at hm
      generalize m % 10 = d at hm
      subst hm
      ring

theorem repr_digits (n : Nat) :
    (toString n).data ≠ [] ∧ (∀ c ∈ (toString n).data, isdigit c = true) ∧
      digits_value (toString n).data = n := by
  obtain ⟨hne, hval, hdig⟩ :=
    toDigitsCore_value (n + 1) n [] (Nat.lt_succ_self n) (fun c hc => absurd hc (by simp))
  have hdata : (toString n).data = Nat.toDigitsCore 10 (n + 1) n [] := rfl
  rw [hdata]
  refine ⟨hne, hdig, ?_⟩
  rw [hval]
  simp [digits_value]

/-- Extraction from a non-empty run of digits that fits in 64 bits yields its
value, whatever the target held before. -/
theorem extract_uint64_digits (seed : Nat) (ds : List Char) (hne : ds ≠ [])
    (hdig : ∀ c ∈ ds, isdigit c = true) (hfit : digits_value ds < 2 ^ 64) :
    extract_uint64 seed ds = digits_value ds := by
  cases ds with
  | nil => exact absurd rfl hne
  | cons c cs =>
    have hc := hdig c (List.mem_cons_self c cs)
    obtain ⟨hm, hp, -⟩ := not_sign_of_isdigit c hc
    have htw : List.takeWhile isdigit (c :: cs) = c :: cs :=
      List.takeWhile_eq_self_iff.mpr hdig
    have hmax : ¬ digits_value (c :: cs) > UINT64_MAX := by
      unfold UINT64_MAX
      omega
    have hdw : (c :: cs).dropWhile isspace = c :: cs := by
      simp [List.dropWhile_cons, isspace_of_isdigit c hc]
    have hsign : ¬ (c = '-' ∨ c = '+') := not_or.mpr ⟨hm, hp⟩
    unfold extract_uint64
    rw [hdw]
    simp only [if_neg hsign, htw, if_neg hmax, if_neg hm]
    exact if_neg (List.cons_ne_nil c cs)

/-- C5. For every `n` below `2 ^ 64` and every two-character version tag of
the running generator, the argument that is `n` in decimal and the argument
that is the tag, `_`, and `n` in decimal both make `seed_action` return
normally with the seed set to `n`, whatever the seed was before. -/
theorem seed_forms_agree (plane_yarpgen_version : String) (seed n : Nat)
    (hver : plane_yarpgen_version.data.length = 2) (hn : n < 2 ^ 64) :
    seed_action plane_yarpgen_version seed (toString n) = Except.ok n ∧
    seed_action plane_yarpgen_version seed (plane_yarpgen_version ++ "_" ++ toString n) =
      Except.ok n := by
  obtain ⟨hne, hdig, hval⟩ := repr_digits n
  have hex : extract_uint64 seed (toString n).data = n := by
    rw [extract_uint64_digits seed _ hne hdig (by rw [hval]; exact hn), hval]
  constructor
  · have hcond : ¬ ((toString n).data.length > 2 ∧ (toString n).data[2]? = some '_') := by
      rintro ⟨-, h2⟩
      have hmem : '_' ∈ (toString n).data := by
        obtain ⟨hlt, heq⟩ := List.getElem?_eq_some.mp h2
        exact heq ▸ List.getElem_mem hlt
      exact absurd (hdig _ hmem) (by decide)
    unfold seed_action
    rw [if_neg hcond, hex]
  · obtain ⟨vd⟩ := plane_yarpgen_version
    match vd, hver with
    | [a, b], _ =>
      have hdata : (String.mk [a, b] ++ "_" ++ toString n).data =
          a :: b :: '_' :: (toString n).data := by
        simp [String.data_append]
      unfold seed_action
      rw [hdata]
      have hcond : (a :: b :: '_' :: (toString n).data).length > 2 ∧
          (a :: b :: '_' :: (toString n).data)[2]? = some '_' := by
        constructor
        · simp
        · simp
      rw [if_pos hcond]
      have htag : ¬ (List.take 2 (a :: b :: '_' :: (toString n).data) ≠
          (String.mk [a, b]).data) := by
        simp
      rw [if_neg htag]
      show Except.ok (extract_uint64 seed (toString n).data) = Except.ok n
      rw [hex]

/-- C5 on the tag `12` and the seed 42. -/
theorem seed_forms_agree_witness :
    seed_action "12" 7 (toString 42) = Except.ok 42 ∧
    seed_action "12" 7 ("12" ++ "_" ++ toString 42) = Except.ok 42 :=
  seed_forms_agree "12" 7 42 (by decide) (by decide)

/-- C9 fails on the code: none of the malformed arguments `abc`, `12_`,
`12_xyz` and `42abc` makes `seed_action` raise an error under the running tag
`12`. The run goes on with the seed 0, the old seed (here 7), 0 and 42. -/
theorem malformed_seed_is_accepted :
    seed_action "12" 7 "abc" = Except.ok 0 ∧
    seed_action "12" 7 "12_" = Except.ok 7 ∧
    seed_action "12" 7 "12_xyz" = Except.ok 0 ∧
    seed_action "12" 7 "42abc" = Except.ok 42 :=
  ⟨rfl, rfl, rfl, rfl⟩

end seed_theorems

/-! ## Emission: the claims -/

section emission_theorems

variable {V T S F : Type}

/-- When no output file can be opened, `main` writes nothing and ends exactly
as it does when every file can be opened: a failed `open` is never noticed. -/
theorem main_emit_unwritable (options : Options) (mas : Program V T S F) :
    (main_emit (fun _ => false) options mas).files = [] ∧
    (main_emit (fun _ => false) options mas).status =
      (main_emit (fun _ => true) options mas).status := by
  unfold main_emit
  cases mas.emit_func options with
  | error message => exact ⟨rfl, rfl⟩
  | ok func =>
    cases mas.emit_main options with
    | error message => exact ⟨rfl, rfl⟩
    | ok driver => exact ⟨rfl, rfl⟩

theorem emit_variable_check_eq (t : SymbolTable V T S) (stream : List (Chunk V T S F))
    (offset : String) :
    t.emit_variable_check stream offset =
      stream ++ t.vars.map (Chunk.variable_check offset) := by
  unfold SymbolTable.emit_variable_check
  generalize t.vars = vs
  induction vs generalizing stream with
  | nil => simp
  | cons v vs ih => simp [ih]

theorem emit_struct_check_eq (t : SymbolTable V T S) (stream : List (Chunk V T S F))
    (offset : String) :
    t.emit_struct_check stream offset =
      stream ++ t.structs.map (Chunk.struct_check offset) := by
  unfold SymbolTable.emit_struct_check
  generalize t.structs = ss
  induction ss generalizing stream with
  | nil => simp
  | cons x xs ih => simp [ih]

theorem checked_variables_append (a b : List (Chunk V T S F)) :
    checked_variables (a ++ b) = checked_variables a ++ checked_variables b := by
  simp [checked_variables]

theorem checked_structs_append (a b : List (Chunk V T S F)) :
    checked_structs (a ++ b) = checked_structs a ++ checked_structs b := by
  simp [checked_structs]

theorem checked_variables_map_variable_check (offset : String) (vs : List V) :
    checked_variables (vs.map (Chunk.variable_check offset : V → Chunk V T S F)) = vs := by
  induction vs with
  | nil => rfl
  | cons v vs ih => simpa [checked_variables] using ih

theorem checked_variables_map_struct_check (offset : String) (ss : List S) :
    checked_variables (ss.map (Chunk.struct_check offset : S → Chunk V T S F)) = [] := by
  induction ss with
  | nil => rfl
  | cons x xs ih => simp [checked_variables]

theorem checked_structs_map_struct_check (offset : String) (ss : List S) :
    checked_structs (ss.map (Chunk.struct_check offset : S → Chunk V T S F)) = ss := by
  induction ss with
  | nil => rfl
  | cons x xs ih => simpa [checked_structs] using ih

theorem checked_structs_map_variable_check (offset : String) (vs : List V) :
    checked_structs (vs.map (Chunk.variable_check offset : V → Chunk V T S F)) = [] := by
  induction vs with
  | nil => rfl
  | cons v vs ih => simp [checked_structs]

/-- C6 fails on the code. The sample run of `main` ends with success having
written exactly three files: the declarations header, the function source and
the driver. The driver calls `init ()` and `checksum ()`, but the files that
`emit_init` and `emit_check` would write for the same program, `init.c` and
`check.c`, are not among the files written. -/
theorem main_skips_init_and_check :
    sample_run.status = ExitStatus.success ∧
    sample_run.files.map File.name = [".//init.h", ".//func.c", ".//driver.c"] ∧
    sample_run.files.map File.content =
      [sample_program.emit_decl.content,
       [Chunk.text "#include \"init.h\"\n\n", Chunk.text "void foo ()\n",
        Chunk.function_body 3],
       [Chunk.text driver_text]] ∧
    (sample_program.emit_init sample_options).map File.name = Except.ok ".//init.c" ∧
    (sample_program.emit_check sample_options).map File.name = Except.ok ".//check.c" ∧
    ".//init.c" ∉ sample_run.files.map File.name ∧
    ".//check.c" ∉ sample_run.files.map File.name := by
  refine ⟨rfl, rfl, rfl, rfl, rfl, by decide, by decide⟩

/-- C8. When the language is C or C++, `emit_check` writes the checksum
source, and its content is, in this order: the include line, the head of
`checksum ()`, the declaration of the accumulator `seed` with the value 0,
the checks of the mixed scalars, of the output scalars, of the mixed
struct instances and of the output struct instances, each list in table order, and
the return of `seed`. The scalars checked are exactly the mixed followed by
the output scalars and the struct instances checked exactly the mixed
followed by the output instances, each once per table entry. The file does
not depend on the input table or on the function. -/
theorem emit_check_order (options : Options) (mas : Program V T S F)
    (hlang : options.is_c = true ∨ options.is_cxx = true) :
    ∃ file : File V T S F,
      mas.emit_check options = Except.ok file ∧
      file.content =
        [Chunk.text "#include \"init.h\"\n\n",
         Chunk.text "unsigned long long int checksum () \x7b\n",
         Chunk.decl_stmt "    " "seed" 0,
         Chunk.text "\n"] ++
        mas.tables.extern_mix_sym_table.vars.map (Chunk.variable_check "    ") ++
        mas.tables.extern_out_sym_table.vars.map (Chunk.variable_check "    ") ++
        mas.tables.extern_mix_sym_table.structs.map (Chunk.struct_check "    ") ++
        mas.tables.extern_out_sym_table.structs.map (Chunk.struct_check "    ") ++
        [Chunk.text "    return seed;\n", Chunk.text "\x7d"] ∧
      checked_variables file.content =
        mas.tables.extern_mix_sym_table.vars ++ mas.tables.extern_out_sym_table.vars ∧
      checked_structs file.content =
        mas.tables.extern_mix_sym_table.structs ++ mas.tables.extern_out_sym_table.structs ∧
      ∀ (inp : SymbolTable V T S) (f : F),
        Program.emit_check
          { out_folder := mas.out_folder,
            tables := { mas.tables with extern_inp_sym_table := inp },
            function := f } options = Except.ok file := by
  obtain ⟨ext, hext⟩ : ∃ ext, get_file_ext options = Except.ok ext := by
    unfold get_file_ext
    rcases hlang with h | h
    · exact ⟨"c", by rw [if_pos h]⟩
    · by_cases hc : options.is_c = true
      · exact ⟨"c", by rw [if_pos hc]⟩
      · exact ⟨"cpp", by rw [if_neg hc, if_pos h]⟩
  refine ⟨_, by simp only [Program.emit_check, hext]; rfl, ?_, ?_, ?_, ?_⟩
  · simp only [emit_struct_check_eq, emit_variable_check_eq]
  · simp only [emit_struct_check_eq, emit_variable_check_eq, checked_variables_append,
      checked_variables_map_variable_check, checked_variables_map_struct_check]
    simp [checked_variables]
  · simp only [emit_struct_check_eq, emit_variable_check_eq, checked_structs_append,
      checked_structs_map_variable_check, checked_structs_map_struct_check]
    simp [checked_structs]
  · intro inp f
    simp only [Program.emit_check, hext]
    rfl

/-- C8 on the program of the sample run, emitted as C. -/
theorem emit_check_order_witness :
    (sample_options.is_c = true ∨ sample_options.is_cxx = true) ∧
    ∃ file : File Nat Nat (Nat × Nat) Nat,
      sample_program.emit_check sample_options = Except.ok file ∧
      file.content =
        [Chunk.text "#include \"init.h\"\n\n",
         Chunk.text "unsigned long long int checksum () \x7b\n",
         Chunk.decl_stmt "    " "seed" 0,
         Chunk.text "\n"] ++
        sample_program.tables.extern_mix_sym_table.vars.map (Chunk.variable_check "    ") ++
        sample_program.tables.extern_out_sym_table.vars.map (Chunk.variable_check "    ") ++
        sample_program.tables.extern_mix_sym_table.structs.map (Chunk.struct_check "    ") ++
        sample_program.tables.extern_out_sym_table.structs.map (Chunk.struct_check "    ") ++
        [Chunk.text "    return seed;\n", Chunk.text "\x7d"] ∧
      checked_variables file.content =
        sample_program.tables.extern_mix_sym_table.vars ++
          sample_program.tables.extern_out_sym_table.vars ∧
      checked_structs file.content =
        sample_program.tables.extern_mix_sym_table.structs ++
          sample_program.tables.extern_out_sym_table.structs ∧
      ∀ (inp : SymbolTable Nat Nat (Nat × Nat)) (f : Nat),
        Program.emit_check
          { out_folder := sample_program.out_folder,
            tables := { sample_program.tables with extern_inp_sym_table := inp },
            function := f } sample_options = Except.ok file :=
  ⟨Or.inl rfl, emit_check_order sample_options sample_program (Or.inl rfl)⟩

end emission_theorems

end yarpgen


